import Mathlib

/-! SwapsBook: swap pricing with tangent and adjoint algorithmic differentiation.

A shallow embedding of `AAD-Swap.cpp` (`price_swap`, `swap_price_tangent_mode`,
`swap_price_adjoint_mode`, and the swap built in `main`).

Modelling conventions.

* A C++ `double` is an element of a field `α`, with exact arithmetic; rounding is not
  modelled.  The library function `exp` of `<cmath>` is a parameter `exp : α → α`; the
  analytic statements instantiate `α := ℝ` and `exp := Real.exp`.
* `payReceive` is a C++ `int`; it is only negated and converted to `double`, so it is an
  integer that is cast into `α`.
* A `vector<double>` is a `List α`.  An indexed read or write past the end (undefined
  behaviour in C++) is the explicit outcome `SwapError.indexOutOfRange`.
* The functions return `void` and print.  The model returns the numbers that are printed
  (before formatting) as `Except.ok`, and the diagnostic that is printed on an early
  `return` as `Except.error`.
-/

namespace SwapsBook

/-- The ways a call ends without printing numbers: one constructor per diagnostic line
of the source, plus the undefined behaviour of an access past the end of a vector. -/
inductive SwapError where
  /-- Message "Fixed Schedule Error: Wrong size of fixed_tau". -/
  | fixedTauSize
  /-- Message "Float Schedule Error: Wrong size of float_tau". -/
  | floatTauSize
  /-- Message "Float Schedule Error: Wrong size of float_rates". -/
  | floatRatesSize
  /-- Message "Risk Input Error: Wrong size of float_rates_dot". -/
  | floatRatesDotSize
  /-- An access `v[i]` with `i ≥ v.size()`. -/
  | indexOutOfRange
  deriving DecidableEq, Repr

/-- The read `v[i]`. -/
def vecGet {α : Type} (v : List α) (i : Nat) : Except SwapError α :=
  match v[i]? with
  | some x => Except.ok x
  | none => Except.error SwapError.indexOutOfRange

/-- The write `v[i] = x`. -/
def vecSet {α : Type} (v : List α) (i : Nat) (x : α) : Except SwapError (List α) :=
  if i < v.length then Except.ok (v.set i x) else Except.error SwapError.indexOutOfRange

/-- The loop `for (size_t i = i0; i < n; ++i) body`, started at index `i` with `k = n - i`
iterations left; `forUp body 0 n s` is the loop from `0`. -/
def forUp {σ : Type} (body : Nat → σ → Except SwapError σ) :
    Nat → Nat → σ → Except SwapError σ
  | _, 0, s => Except.ok s
  | i, k + 1, s => body i s >>= forUp body (i + 1) k

/-- The loop `for (size_t j = n; j-- > 0;) body`: the test reads the old value of `j`,
the decrement happens before the body, so the body runs with `n-1, n-2, ..., 0`. -/
def forDown {σ : Type} (body : Nat → σ → Except SwapError σ) :
    Nat → σ → Except SwapError σ
  | 0, s => Except.ok s
  | j + 1, s => body j s >>= forDown body j

section Code

variable {α : Type} [Field α]

/-- The numbers printed by `price_swap`: "Swap PV" and "PV01". -/
structure PriceOutput (α : Type) where
  swap_pv : α
  pv01 : α

/-- The numbers printed by `swap_price_tangent_mode`: "Swap PV" and "Risk Value". -/
structure TangentOutput (α : Type) where
  swap_pv : α
  swap_pv_dot : α

/-- The numbers printed by `swap_price_adjoint_mode` ("Swap PV", "float_rates_bar",
"discount_factor_bar", "dv01"), and the local `zero_rate_bar` as it stands when the
function returns (it is computed but not printed). -/
structure AdjointOutput (α : Type) where
  swap_pv : α
  float_rates_bar : α
  discount_factor_bar : α
  dv01 : α
  zero_rate_bar : α

/-- Body of the fixed-leg loop of `price_swap` (lines 41-45); the state is
`(fixed_pv, fixed_annuity)`. -/
def price_fixed_body (exp : α → α) (notional fixed_rate : α) (fixed_tau fixed_t : List α)
    (zero_rate : α) (i : Nat) (s : α × α) : Except SwapError (α × α) := do
  let tau ← vecGet fixed_tau i
  let t ← vecGet fixed_t i
  pure (s.1 + notional * fixed_rate * tau * exp (-zero_rate * t),
        s.2 + notional * tau * exp (-zero_rate * t))

/-- Body of the float-leg loop of `price_swap` (lines 49-52); the state is `float_pv`. -/
def price_float_body (exp : α → α) (notional float_spread : α)
    (float_tau float_t float_rates : List α) (zero_rate : α) (j : Nat) (s : α) :
    Except SwapError α := do
  let rate ← vecGet float_rates j
  let tau ← vecGet float_tau j
  let t ← vecGet float_t j
  pure (s + notional * (rate + float_spread) * tau * exp (-zero_rate * t))

/-- The function `price_swap` (lines 21-63). -/
def price_swap (exp : α → α) (payReceive : Int) (notional fixed_rate : α)
    (fixed_tau fixed_t : List α) (float_spread : α)
    (float_tau float_t float_rates : List α) (zero_rate : α) :
    Except SwapError (PriceOutput α) :=
  if fixed_tau.length ≠ fixed_t.length then Except.error SwapError.fixedTauSize
  else if float_tau.length ≠ float_t.length then Except.error SwapError.floatTauSize
  else if float_rates.length ≠ float_t.length then Except.error SwapError.floatRatesSize
  else do
    let fixed ← forUp (price_fixed_body exp notional fixed_rate fixed_tau fixed_t zero_rate)
      0 fixed_t.length (0, 0)
    let float_pv ← forUp
      (price_float_body exp notional float_spread float_tau float_t float_rates zero_rate)
      0 float_t.length 0
    let swap_pv := (payReceive : α) * (fixed.1 - float_pv)
    pure { swap_pv := swap_pv, pv01 := ((-payReceive : Int) : α) * fixed.2 * 0.0001 }

/-- Body of the fixed-leg loop of `swap_price_tangent_mode` (lines 94-98); the state is
`(fixed_pv, fixed_pv_dot)`. -/
def tangent_fixed_body (exp : α → α) (notional fixed_rate : α) (fixed_tau fixed_t : List α)
    (zero_rate zero_rate_dot : α) (i : Nat) (s : α × α) : Except SwapError (α × α) := do
  let tau ← vecGet fixed_tau i
  let t ← vecGet fixed_t i
  pure (s.1 + notional * fixed_rate * tau * exp (-zero_rate * t),
        s.2 + -t * notional * fixed_rate * tau * exp (-zero_rate * t) * zero_rate_dot)

/-- Body of the float-leg loop of `swap_price_tangent_mode` (lines 104-109); the state is
`(float_pv, float_pv_dot)`, and `float_pv_dot` is incremented twice. -/
def tangent_float_body (exp : α → α) (notional float_spread : α)
    (float_tau float_t float_rates : List α) (zero_rate : α) (float_rates_dot : List α)
    (zero_rate_dot : α) (j : Nat) (s : α × α) : Except SwapError (α × α) := do
  let rate ← vecGet float_rates j
  let tau ← vecGet float_tau j
  let t ← vecGet float_t j
  let float_pv := s.1 + notional * (rate + float_spread) * tau * exp (-zero_rate * t)
  let rate_dot ← vecGet float_rates_dot j
  let dot1 := s.2 + notional * tau * exp (-zero_rate * t) * rate_dot
  let dot2 := dot1 +
    -t * notional * (rate + float_spread) * tau * exp (-zero_rate * t) * zero_rate_dot
  pure (float_pv, dot2)

/-- The function `swap_price_tangent_mode` (lines 68-121). -/
def swap_price_tangent_mode (exp : α → α) (payReceive : Int) (notional fixed_rate : α)
    (fixed_tau fixed_t : List α) (float_spread : α)
    (float_tau float_t float_rates : List α) (zero_rate : α)
    (float_rates_dot : List α) (zero_rate_dot : α) :
    Except SwapError (TangentOutput α) :=
  if fixed_tau.length ≠ fixed_t.length then Except.error SwapError.fixedTauSize
  else if float_tau.length ≠ float_t.length then Except.error SwapError.floatTauSize
  else if float_rates.length ≠ float_t.length then Except.error SwapError.floatRatesSize
  else if float_rates_dot.length ≠ float_rates.length then
    Except.error SwapError.floatRatesDotSize
  else do
    let fixed ← forUp
      (tangent_fixed_body exp notional fixed_rate fixed_tau fixed_t zero_rate zero_rate_dot)
      0 fixed_t.length (0, 0)
    let flt ← forUp
      (tangent_float_body exp notional float_spread float_tau float_t float_rates zero_rate
        float_rates_dot zero_rate_dot)
      0 float_t.length (0, 0)
    let swap_pv := (payReceive : α) * (fixed.1 - flt.1)
    let swap_pv_dot := (payReceive : α) * (fixed.2 - flt.2)
    pure { swap_pv := swap_pv, swap_pv_dot := swap_pv_dot }

/-- Body of the two loops of `swap_price_adjoint_mode` that fill the discount-factor
caches (lines 158-163 for the fixed leg, 170-175 for the float leg, which differ only in
the names); the state is `(df, shifted_df, shift_size_df)`. -/
def adjoint_cache_body (exp : α → α) (zero_rate shift_size_z : α) (ts : List α) (i : Nat)
    (s : List α × List α × List α) : Except SwapError (List α × List α × List α) := do
  let t ← vecGet ts i
  let df ← vecSet s.1 i (exp (-zero_rate * t))
  let shifted_df ← vecSet s.2.1 i (exp (-(zero_rate + shift_size_z) * t))
  let a ← vecGet shifted_df i
  let b ← vecGet df i
  let shift_size_df ← vecSet s.2.2 i (a - b)
  pure (df, shifted_df, shift_size_df)

/-- Body of the forward-sweep loop over the fixed leg (lines 182-186); the state is
`(fixed_df, fixed_pv)`. -/
def adjoint_fixed_forward_body (exp : α → α) (notional fixed_rate : α)
    (fixed_tau fixed_t : List α) (zero_rate : α) (i : Nat) (s : List α × α) :
    Except SwapError (List α × α) := do
  let t ← vecGet fixed_t i
  let fixed_df ← vecSet s.1 i (exp (-zero_rate * t))
  let tau ← vecGet fixed_tau i
  let df ← vecGet fixed_df i
  pure (fixed_df, s.2 + notional * fixed_rate * tau * df)

/-- Body of the forward-sweep loop over the float leg (lines 190-194); the state is
`(float_df, float_pv)`. -/
def adjoint_float_forward_body (exp : α → α) (notional float_spread : α)
    (float_tau float_t float_rates : List α) (zero_rate : α) (j : Nat) (s : List α × α) :
    Except SwapError (List α × α) := do
  let t ← vecGet float_t j
  let float_df ← vecSet s.1 j (exp (-zero_rate * t))
  let rate ← vecGet float_rates j
  let tau ← vecGet float_tau j
  let df ← vecGet float_df j
  pure (float_df, s.2 + notional * (rate + float_spread) * tau * df)

/-- Body of the backward loop over the float leg (lines 214-222); the state is
`(float_rates_bar, discount_factor_bar, zero_rate_bar)`.  The last line uses the running
total `discount_factor_bar`, as the source does. -/
def adjoint_float_backward_body (exp : α → α) (notional float_spread : α)
    (float_tau float_t float_rates : List α) (zero_rate : α)
    (float_df shift_size_float_df : List α) (float_pv_bar shift_size_f : α)
    (j : Nat) (s : α × α × α) : Except SwapError (α × α × α) := do
  let tau ← vecGet float_tau j
  let df ← vecGet float_df j
  let float_rates_bar := s.1 + notional * tau * df * float_pv_bar * shift_size_f
  let rate ← vecGet float_rates j
  let shift ← vecGet shift_size_float_df j
  let discount_factor_bar :=
    s.2.1 + notional * (rate + float_spread) * tau * float_pv_bar * shift
  let t ← vecGet float_t j
  let zero_rate_bar := s.2.2 + -t * exp (-zero_rate * t) * discount_factor_bar
  pure (float_rates_bar, discount_factor_bar, zero_rate_bar)

/-- Body of the backward loop over the fixed leg (lines 226-233); the state is
`(discount_factor_bar, zero_rate_bar)`. -/
def adjoint_fixed_backward_body (exp : α → α) (notional fixed_rate : α)
    (fixed_tau fixed_t : List α) (zero_rate : α) (shift_size_fixed_df : List α)
    (fixed_pv_bar : α) (i : Nat) (s : α × α) : Except SwapError (α × α) := do
  let tau ← vecGet fixed_tau i
  let shift ← vecGet shift_size_fixed_df i
  let discount_factor_bar := s.1 + notional * fixed_rate * tau * fixed_pv_bar * shift
  let t ← vecGet fixed_t i
  let zero_rate_bar := s.2 + -t * exp (-zero_rate * t) * discount_factor_bar
  pure (discount_factor_bar, zero_rate_bar)

/-- The function `swap_price_adjoint_mode` (lines 129-243). -/
def swap_price_adjoint_mode (exp : α → α) (payReceive : Int) (notional fixed_rate : α)
    (fixed_tau fixed_t : List α) (float_spread : α)
    (float_tau float_t float_rates : List α) (zero_rate : α) (swap_pv_bar : α) :
    Except SwapError (AdjointOutput α) :=
  if fixed_tau.length ≠ fixed_t.length then Except.error SwapError.fixedTauSize
  else if float_tau.length ≠ float_t.length then Except.error SwapError.floatTauSize
  else if float_rates.length ≠ float_t.length then Except.error SwapError.floatRatesSize
  else do
    let shift_size_f : α := 0.0001
    let shift_size_z : α := 0.0001
    -- caches, created with `fixed_t.size()` / `float_t.size()` zeros
    let fixed_cache ← forUp (adjoint_cache_body exp zero_rate shift_size_z fixed_t)
      0 fixed_t.length
      (List.replicate fixed_t.length 0, List.replicate fixed_t.length 0,
        List.replicate fixed_t.length 0)
    let float_cache ← forUp (adjoint_cache_body exp zero_rate shift_size_z float_t)
      0 float_t.length
      (List.replicate float_t.length 0, List.replicate float_t.length 0,
        List.replicate float_t.length 0)
    -- forward sweep
    let fixed ← forUp
      (adjoint_fixed_forward_body exp notional fixed_rate fixed_tau fixed_t zero_rate)
      0 fixed_t.length (fixed_cache.1, 0)
    let flt ← forUp
      (adjoint_float_forward_body exp notional float_spread float_tau float_t float_rates
        zero_rate)
      0 float_t.length (float_cache.1, 0)
    let swap_pv := (payReceive : α) * (fixed.2 - flt.2)
    -- back propagation
    let fixed_pv_bar := (payReceive : α) * swap_pv_bar
    let float_pv_bar := ((-payReceive : Int) : α) * swap_pv_bar
    let back1 ← forDown
      (adjoint_float_backward_body exp notional float_spread float_tau float_t float_rates
        zero_rate flt.1 float_cache.2.2 float_pv_bar shift_size_f)
      float_t.length (0, 0, 0)
    let back2 ← forDown
      (adjoint_fixed_backward_body exp notional fixed_rate fixed_tau fixed_t zero_rate
        fixed_cache.2.2 fixed_pv_bar)
      fixed_t.length (back1.2.1, back1.2.2)
    pure { swap_pv := swap_pv
           float_rates_bar := back1.1
           discount_factor_bar := back2.1
           dv01 := back1.1 + back2.1
           zero_rate_bar := back2.2 }

end Code

/-! ## The sums the loops compute

The per-period quantities are written with `List.getD v i 0`, the element `v[i]` of a
vector (the default `0` is never used for an index below the length). -/

section Sums

variable {α : Type} [Field α]

/-- Sum over the fixed periods `i` of `notional * fixed_rate * fixed_tau[i] * df_i`, with
the discount factor `df_i = exp (-zero_rate * fixed_t[i])`. -/
def fixedLegPV (exp : α → α) (notional fixed_rate : α) (fixed_tau fixed_t : List α)
    (zero_rate : α) : α :=
  ∑ i in Finset.range fixed_t.length,
    notional * fixed_rate * fixed_tau.getD i 0 * exp (-zero_rate * fixed_t.getD i 0)

/-- Sum over the fixed periods `i` of `notional * fixed_tau[i] * df_i`. -/
def fixedAnnuity (exp : α → α) (notional : α) (fixed_tau fixed_t : List α)
    (zero_rate : α) : α :=
  ∑ i in Finset.range fixed_t.length,
    notional * fixed_tau.getD i 0 * exp (-zero_rate * fixed_t.getD i 0)

/-- Sum over the float periods `j` of
`notional * (float_rates[j] + float_spread) * float_tau[j] * df_j`. -/
def floatLegPV (exp : α → α) (notional float_spread : α)
    (float_tau float_t float_rates : List α) (zero_rate : α) : α :=
  ∑ j in Finset.range float_t.length,
    notional * (float_rates.getD j 0 + float_spread) * float_tau.getD j 0 *
      exp (-zero_rate * float_t.getD j 0)

/-- The value `payReceive * (fixedLegPV - floatLegPV)`. -/
def swapPV (exp : α → α) (payReceive : Int) (notional fixed_rate : α)
    (fixed_tau fixed_t : List α) (float_spread : α)
    (float_tau float_t float_rates : List α) (zero_rate : α) : α :=
  (payReceive : α) *
    (fixedLegPV exp notional fixed_rate fixed_tau fixed_t zero_rate -
      floatLegPV exp notional float_spread float_tau float_t float_rates zero_rate)

/-- Sum over the fixed periods of the increments of `fixed_pv_dot` (line 97). -/
def fixedLegDot (exp : α → α) (notional fixed_rate : α) (fixed_tau fixed_t : List α)
    (zero_rate zero_rate_dot : α) : α :=
  ∑ i in Finset.range fixed_t.length,
    -fixed_t.getD i 0 * notional * fixed_rate * fixed_tau.getD i 0 *
      exp (-zero_rate * fixed_t.getD i 0) * zero_rate_dot

/-- Sum over the float periods of the two increments of `float_pv_dot` (lines 107-108). -/
def floatLegDot (exp : α → α) (notional float_spread : α)
    (float_tau float_t float_rates : List α) (zero_rate : α) (float_rates_dot : List α)
    (zero_rate_dot : α) : α :=
  ∑ j in Finset.range float_t.length,
    (notional * float_tau.getD j 0 * exp (-zero_rate * float_t.getD j 0) *
        float_rates_dot.getD j 0 +
      -float_t.getD j 0 * notional * (float_rates.getD j 0 + float_spread) *
        float_tau.getD j 0 * exp (-zero_rate * float_t.getD j 0) * zero_rate_dot)

/-- Sum over the float periods of the increments of `float_rates_bar` (line 217). -/
def floatRatesBarSum (exp : α → α) (notional : α) (float_tau float_t : List α)
    (zero_rate float_pv_bar shift_size_f : α) : α :=
  ∑ j in Finset.range float_t.length,
    notional * float_tau.getD j 0 * exp (-zero_rate * float_t.getD j 0) * float_pv_bar *
      shift_size_f

/-- Sum over the float periods of the increments of `discount_factor_bar` (line 218),
with the cached `shift_size_float_df[j]` written out. -/
def floatDiscountBarSum (exp : α → α) (notional float_spread : α)
    (float_tau float_t float_rates : List α) (zero_rate float_pv_bar shift_size_z : α) : α :=
  ∑ j in Finset.range float_t.length,
    notional * (float_rates.getD j 0 + float_spread) * float_tau.getD j 0 * float_pv_bar *
      (exp (-(zero_rate + shift_size_z) * float_t.getD j 0) -
        exp (-zero_rate * float_t.getD j 0))

/-- Sum over the fixed periods of the increments of `discount_factor_bar` (line 229),
with the cached `shift_size_fixed_df[i]` written out. -/
def fixedDiscountBarSum (exp : α → α) (notional fixed_rate : α)
    (fixed_tau fixed_t : List α) (zero_rate fixed_pv_bar shift_size_z : α) : α :=
  ∑ i in Finset.range fixed_t.length,
    notional * fixed_rate * fixed_tau.getD i 0 * fixed_pv_bar *
      (exp (-(zero_rate + shift_size_z) * fixed_t.getD i 0) -
        exp (-zero_rate * fixed_t.getD i 0))

end Sums

/-! ## The swap built in `main` (lines 248-282) -/

section Main

variable (α : Type) [Field α]

/-- The local `zero_rate` of `main`. -/
def main_zero_rate : α := 0.015

/-- The local `payReceive` of `main`. -/
def main_payReceive : Int := 1

/-- The local `notional` of `main`. -/
def main_notional : α := 1000000

/-- The local `fixed_rate` of `main`. -/
def main_fixed_rate : α := 0.05

/-- The local `fixed_tau` of `main`. -/
def main_fixed_tau : List α := [1.0, 1.0, 1.0, 1.0, 1.0]

/-- The local `fixed_t` of `main`. -/
def main_fixed_t : List α := [1.0, 2.0, 3.0, 4.0, 5.0]

/-- The local `float_spread` of `main`. -/
def main_float_spread : α := 0.0

/-- The local `float_tau` of `main`. -/
def main_float_tau : List α := [1.0, 1.0, 1.0, 1.0, 1.0]

/-- The local `float_t` of `main`. -/
def main_float_t : List α := [1.0, 2.0, 3.0, 4.0, 5.0]

/-- The local `float_rates` of `main`. -/
def main_float_rates : List α := [0.01, 0.01, 0.01, 0.01, 0.01]

/-- The local `no_f_dot` of `main`. -/
def main_no_f_dot : List α := [0.0000, 0.0000, 0.0000, 0.0000, 0.0000]

/-- The local `all_f_dot` of `main`. -/
def main_all_f_dot : List α := [0.0001, 0.0001, 0.0001, 0.0001, 0.0001]

/-- The local `zero_rate_dot` of `main`. -/
def main_zero_rate_dot : α := 0.0001

/-- The local `no_zero_rate_dot` of `main`. -/
def main_no_zero_rate_dot : α := 0.0

/-- The local `swap_pv_bar` of `main`. -/
def main_swap_pv_bar : α := 1.0

/-- The call `price_swap(...)` of `main` (line 266). -/
def main_price_swap (exp : α → α) : Except SwapError (PriceOutput α) :=
  price_swap exp main_payReceive (main_notional α) (main_fixed_rate α) (main_fixed_tau α)
    (main_fixed_t α) (main_float_spread α) (main_float_tau α) (main_float_t α)
    (main_float_rates α) (main_zero_rate α)

/-- The call `swap_price_tangent_mode(..., all_f_dot, no_zero_rate_dot)` of `main`
(line 286, "Forward Risk (PV01)"). -/
def main_tangent_pv01 (exp : α → α) : Except SwapError (TangentOutput α) :=
  swap_price_tangent_mode exp main_payReceive (main_notional α) (main_fixed_rate α)
    (main_fixed_tau α) (main_fixed_t α) (main_float_spread α) (main_float_tau α)
    (main_float_t α) (main_float_rates α) (main_zero_rate α) (main_all_f_dot α)
    (main_no_zero_rate_dot α)

/-- The call `swap_price_tangent_mode(..., all_f_dot, zero_rate_dot)` of `main`
(line 292, "Forward Risk + Discount Risk (DV01)"). -/
def main_tangent_dv01 (exp : α → α) : Except SwapError (TangentOutput α) :=
  swap_price_tangent_mode exp main_payReceive (main_notional α) (main_fixed_rate α)
    (main_fixed_tau α) (main_fixed_t α) (main_float_spread α) (main_float_tau α)
    (main_float_t α) (main_float_rates α) (main_zero_rate α) (main_all_f_dot α)
    (main_zero_rate_dot α)

/-- The call `swap_price_adjoint_mode(..., swap_pv_bar)` of `main` (line 295). -/
def main_adjoint (exp : α → α) : Except SwapError (AdjointOutput α) :=
  swap_price_adjoint_mode exp main_payReceive (main_notional α) (main_fixed_rate α)
    (main_fixed_tau α) (main_fixed_t α) (main_float_spread α) (main_float_tau α)
    (main_float_t α) (main_float_rates α) (main_zero_rate α) (main_swap_pv_bar α)

end Main

/-! ## Risk scenarios used to state the properties -/

section Scenarios

variable {α : Type} [Field α]

/-- The forward rates `float_rates + eps * float_rates_dot`, entry by entry. -/
def bumpRates (float_rates float_rates_dot : List α) (eps : α) : List α :=
  List.zipWith (fun r d => r + eps * d) float_rates float_rates_dot

/-- The risk vector `a * v1 + b * v2`, entry by entry. -/
def combineDots (a b : α) (v1 v2 : List α) : List α :=
  List.zipWith (fun x y => a * x + b * y) v1 v2

end Scenarios

/-! ## Diagnostics and traversal order -/

/-- The line a diagnostic prints to `cout`; an access past the end prints nothing. -/
def SwapError.message : SwapError → Option String
  | SwapError.fixedTauSize => some "Fixed Schedule Error: Wrong size of fixed_tau"
  | SwapError.floatTauSize => some "Float Schedule Error: Wrong size of float_tau"
  | SwapError.floatRatesSize => some "Float Schedule Error: Wrong size of float_rates"
  | SwapError.floatRatesDotSize => some "Risk Input Error: Wrong size of float_rates_dot"
  | SwapError.indexOutOfRange => none

section ForwardOrder

variable {α : Type} [Field α]

/-- The function `swap_price_adjoint_mode` with its two back-propagation loops run in
forward index order (`for (j = 0; j < size; ++j)`) instead of the source's
`for (j = size; j-- > 0;)`; everything else is as in `swap_price_adjoint_mode`.  It is
the comparison object for the statement that the traversal order does not change the
reported risks. -/
def swap_price_adjoint_mode_forward_order (exp : α → α) (payReceive : Int)
    (notional fixed_rate : α) (fixed_tau fixed_t : List α) (float_spread : α)
    (float_tau float_t float_rates : List α) (zero_rate : α) (swap_pv_bar : α) :
    Except SwapError (AdjointOutput α) :=
  if fixed_tau.length ≠ fixed_t.length then Except.error SwapError.fixedTauSize
  else if float_tau.length ≠ float_t.length then Except.error SwapError.floatTauSize
  else if float_rates.length ≠ float_t.length then Except.error SwapError.floatRatesSize
  else do
    let shift_size_f : α := 0.0001
    let shift_size_z : α := 0.0001
    let fixed_cache ← forUp (adjoint_cache_body exp zero_rate shift_size_z fixed_t)
      0 fixed_t.length
      (List.replicate fixed_t.length 0, List.replicate fixed_t.length 0,
        List.replicate fixed_t.length 0)
    let float_cache ← forUp (adjoint_cache_body exp zero_rate shift_size_z float_t)
      0 float_t.length
      (List.replicate float_t.length 0, List.replicate float_t.length 0,
        List.replicate float_t.length 0)
    let fixed ← forUp
      (adjoint_fixed_forward_body exp notional fixed_rate fixed_tau fixed_t zero_rate)
      0 fixed_t.length (fixed_cache.1, 0)
    let flt ← forUp
      (adjoint_float_forward_body exp notional float_spread float_tau float_t float_rates
        zero_rate)
      0 float_t.length (float_cache.1, 0)
    let swap_pv := (payReceive : α) * (fixed.2 - flt.2)
    let fixed_pv_bar := (payReceive : α) * swap_pv_bar
    let float_pv_bar := ((-payReceive : Int) : α) * swap_pv_bar
    let back1 ← forUp
      (adjoint_float_backward_body exp notional float_spread float_tau float_t float_rates
        zero_rate flt.1 float_cache.2.2 float_pv_bar shift_size_f)
      0 float_t.length (0, 0, 0)
    let back2 ← forUp
      (adjoint_fixed_backward_body exp notional fixed_rate fixed_tau fixed_t zero_rate
        fixed_cache.2.2 fixed_pv_bar)
      0 fixed_t.length (back1.2.1, back1.2.2)
    pure { swap_pv := swap_pv
           float_rates_bar := back1.1
           discount_factor_bar := back2.1
           dv01 := back1.1 + back2.1
           zero_rate_bar := back2.2 }

end ForwardOrder

/-- A loop body that also records, in a second state component, the index it is run
with; used to state which indices a loop visits, and in which order. -/
def withTrace {σ : Type} (body : Nat → σ → Except SwapError σ) (j : Nat)
    (p : σ × List Nat) : Except SwapError (σ × List Nat) :=
  body j p.1 >>= fun u => Except.ok (u, p.2 ++ [j])

/-! ## The toy function of `AAD-Simple-Function.cpp` -/

namespace SimpleFunction

variable {α : Type} [Field α]

/-- The function `function` (lines 4-12). -/
def function (x1 x2 : α) : α :=
  let a := x1 * x1
  let b := 2 * a
  let c := x2
  let d := 3 * c
  let f := b + d
  f

set_option linter.unusedVariables false in
/-- The function `tangent` (lines 14-27). -/
def tangent (x1 x2 x1_dot x2_dot : α) : α :=
  let a := x1 * x1
  let a_dot := 2 * x1 * x1_dot
  let b := 2 * a
  let b_dot := 2 * a_dot
  let c := x2
  let c_dot := x2_dot
  let d := 3 * c
  let d_dot := 3 * c_dot
  let f := b + d
  let f_dot := b_dot + d_dot
  f_dot

set_option linter.unusedVariables false in
/-- The function `adjoint` (lines 29-49); it returns `void` and prints `x1_bar` and
`x2_bar`, which the model returns as the pair `(x1_bar, x2_bar)`. -/
def adjoint (x1 x2 f_bar : α) : α × α :=
  let a := x1 * x1
  let b := 2 * a
  let c := x2
  let d := 3 * c
  let f := b + d
  let b_bar := f_bar
  let d_bar := f_bar
  let c_bar := 3 * d_bar
  let x2_bar := c_bar
  let a_bar := 2 * b_bar
  let x1_bar := 2 * x1 * a_bar
  (x1_bar, x2_bar)

end SimpleFunction

/-! ## The single-period swap of `AD-Simple-Swap.cpp` -/

namespace SimpleSwap

variable {α : Type} [Field α]

/-- The function `swap_pv` (lines 11-18). -/
def swap_pv (exp : α → α) (phi n r tau t f s z : α) : α :=
  let df := exp (-z * t)
  let pv_fixed := phi * n * r * tau * df
  let pv_float := -phi * n * (f + s) * tau * df
  let pv_swap := pv_fixed + pv_float
  pv_swap

set_option linter.unusedVariables false in
/-- The function `tangent` (lines 20-31). -/
def tangent (exp : α → α) (phi n r tau t f s z f_dot z_dot : α) : α :=
  let df := exp (-z * t)
  let df_dot := -t * exp (-z * t) * z_dot
  let pv_fixed := phi * n * r * tau * df
  let pv_fixed_dot := phi * n * r * tau * df_dot
  let pv_float := -phi * n * (f + s) * tau * df
  let pv_float_dot := -phi * n * tau * df * f_dot - phi * n * f * tau * df_dot
  let pv_swap := pv_fixed + pv_float
  let pv_swap_dot := pv_fixed_dot + pv_float_dot
  pv_swap_dot

end SimpleSwap

/-! ## The zero-rate adjoint -/

section ZeroRateBar

variable {α : Type} [Field α]

/-- The increment of `discount_factor_bar` in iteration `j` of the float
back-propagation loop (line 218), with the cached `shift_size_float_df[j]` written
out. -/
def floatDiscountBarTerm (exp : α → α) (notional float_spread : α)
    (float_tau float_t float_rates : List α) (zero_rate float_pv_bar shift_size_z : α)
    (j : Nat) : α :=
  notional * (float_rates.getD j 0 + float_spread) * float_tau.getD j 0 * float_pv_bar *
    (exp (-(zero_rate + shift_size_z) * float_t.getD j 0) -
      exp (-zero_rate * float_t.getD j 0))

/-- The increment of `discount_factor_bar` in iteration `i` of the fixed
back-propagation loop (line 229), with the cached `shift_size_fixed_df[i]` written
out. -/
def fixedDiscountBarTerm (exp : α → α) (notional fixed_rate : α)
    (fixed_tau fixed_t : List α) (zero_rate fixed_pv_bar shift_size_z : α)
    (i : Nat) : α :=
  notional * fixed_rate * fixed_tau.getD i 0 * fixed_pv_bar *
    (exp (-(zero_rate + shift_size_z) * fixed_t.getD i 0) -
      exp (-zero_rate * fixed_t.getD i 0))

/-- The value of `zero_rate_bar` as lines 221 and 232 accumulate it: iteration `j` adds
`-t_j * exp (-zero_rate * t_j)` times the running total of `discount_factor_bar`, which
at that point holds the increments of the periods traversed so far (the float periods
`k ≥ j`; in the fixed loop all float periods and the fixed periods `k ≥ i`). -/
def zeroRateBarRunning (exp : α → α) (notional fixed_rate : α)
    (fixed_tau fixed_t : List α) (float_spread : α)
    (float_tau float_t float_rates : List α)
    (zero_rate fixed_pv_bar float_pv_bar shift_size_z : α) : α :=
  (∑ j in Finset.range float_t.length,
      -float_t.getD j 0 * exp (-zero_rate * float_t.getD j 0) *
        (∑ k in Finset.Ico j float_t.length,
          floatDiscountBarTerm exp notional float_spread float_tau float_t float_rates
            zero_rate float_pv_bar shift_size_z k)) +
    (∑ i in Finset.range fixed_t.length,
      -fixed_t.getD i 0 * exp (-zero_rate * fixed_t.getD i 0) *
        ((∑ k in Finset.range float_t.length,
            floatDiscountBarTerm exp notional float_spread float_tau float_t float_rates
              zero_rate float_pv_bar shift_size_z k) +
          (∑ k in Finset.Ico i fixed_t.length,
            fixedDiscountBarTerm exp notional fixed_rate fixed_tau fixed_t zero_rate
              fixed_pv_bar shift_size_z k)))

/-- The value the statement under test gives for `zero_rate_bar`: the sum over all
float and fixed periods of `-t_k * exp (-zero_rate * t_k)` times that period's own
increment of `discount_factor_bar`. -/
def zeroRateBarOwn (exp : α → α) (notional fixed_rate : α)
    (fixed_tau fixed_t : List α) (float_spread : α)
    (float_tau float_t float_rates : List α)
    (zero_rate fixed_pv_bar float_pv_bar shift_size_z : α) : α :=
  (∑ j in Finset.range float_t.length,
      -float_t.getD j 0 * exp (-zero_rate * float_t.getD j 0) *
        floatDiscountBarTerm exp notional float_spread float_tau float_t float_rates
          zero_rate float_pv_bar shift_size_z j) +
    (∑ i in Finset.range fixed_t.length,
      -fixed_t.getD i 0 * exp (-zero_rate * fixed_t.getD i 0) *
        fixedDiscountBarTerm exp notional fixed_rate fixed_tau fixed_t zero_rate
          fixed_pv_bar shift_size_z i)

end ZeroRateBar

/-! ## Loop rules -/

section Loops

variable {σ : Type}

theorem bind_ok_eq {β γ : Type} (a : β) (f : β → Except SwapError γ) :
    ((Except.ok a : Except SwapError β) >>= f) = f a := rfl

theorem bind_error_eq {β γ : Type} (e : SwapError) (f : β → Except SwapError γ) :
    ((Except.error e : Except SwapError β) >>= f) = Except.error e := rfl

/-- Invariant rule for the upward loop: an invariant that holds at the start and is
carried by every iteration (which must succeed) holds at the end, and the loop
succeeds. -/
theorem forUp_inv (body : Nat → σ → Except SwapError σ) (P : Nat → σ → Prop) :
    ∀ (k i : Nat) (s : σ), P i s →
      (∀ j t, i ≤ j → j < i + k → P j t → ∃ u, body j t = Except.ok u ∧ P (j + 1) u) →
      ∃ u, forUp body i k s = Except.ok u ∧ P (i + k) u := by
  intro k
  induction k with
  | zero => intro i s h _; exact ⟨s, rfl, by simpa using h⟩
  | succ k ih =>
    intro i s h hstep
    obtain ⟨u, hu, hP⟩ := hstep i s (Nat.le_refl i) (by omega) h
    obtain ⟨w, hw, hQ⟩ := ih (i + 1) u hP
      (fun j t h1 h2 h3 => hstep j t (by omega) (by omega) h3)
    refine ⟨w, ?_, ?_⟩
    · simp only [forUp, hu, bind_ok_eq, hw]
    · have : i + (k + 1) = i + 1 + k := by omega
      rw [this]; exact hQ

/-- Invariant rule for the downward loop. -/
theorem forDown_inv (body : Nat → σ → Except SwapError σ) (P : Nat → σ → Prop) :
    ∀ (n : Nat) (s : σ), P n s →
      (∀ j t, j < n → P (j + 1) t → ∃ u, body j t = Except.ok u ∧ P j u) →
      ∃ u, forDown body n s = Except.ok u ∧ P 0 u := by
  intro n
  induction n with
  | zero => intro s h _; exact ⟨s, rfl, h⟩
  | succ n ih =>
    intro s h hstep
    obtain ⟨u, hu, hP⟩ := hstep n s (by omega) h
    obtain ⟨w, hw, hQ⟩ := ih u hP (fun j t h1 h2 => hstep j t (by omega) h2)
    exact ⟨w, by simp only [forDown, hu, bind_ok_eq, hw], hQ⟩

end Loops

section Vectors

variable {α : Type}

theorem vecGet_of_lt [Zero α] {v : List α} {i : Nat} (h : i < v.length) :
    vecGet v i = Except.ok (v.getD i 0) := by
  simp [vecGet, List.getD_eq_getElem?_getD, List.getElem?_eq_getElem h]

theorem vecGet_of_le {v : List α} {i : Nat} (h : v.length ≤ i) :
    vecGet v i = Except.error SwapError.indexOutOfRange := by
  simp [vecGet, List.getElem?_eq_none h]

theorem vecSet_of_lt {v : List α} {i : Nat} (h : i < v.length) (x : α) :
    vecSet v i x = Except.ok (v.set i x) := by
  simp [vecSet, h]

theorem getD_set_self [Zero α] {v : List α} {i : Nat} (h : i < v.length) (x : α) :
    (v.set i x).getD i 0 = x := by
  simp [List.getD_eq_getElem?_getD, List.getElem?_set, h]

theorem getD_set_other [Zero α] {v : List α} {i j : Nat} (h : i ≠ j) (x : α) :
    (v.set i x).getD j 0 = v.getD j 0 := by
  simp [List.getD_eq_getElem?_getD, List.getElem?_set, h]

end Vectors

section LoopSums

variable {σ : Type} [AddCommMonoid σ]

theorem pure_eq_ok {β : Type} (a : β) : (pure a : Except SwapError β) = Except.ok a := rfl

/-- An upward loop whose every iteration adds `F j` to the state computes the sum. -/
theorem forUp_sum (body : Nat → σ → Except SwapError σ) (F : Nat → σ) (n : Nat)
    (h : ∀ j, j < n → ∀ t, body j t = Except.ok (t + F j)) (s : σ) :
    forUp body 0 n s = Except.ok (s + ∑ j in Finset.range n, F j) := by
  obtain ⟨u, hu, hP⟩ := forUp_inv body (fun i t => t = s + ∑ j in Finset.range i, F j)
    n 0 s (by simp) (by
      intro j t _ hj ht
      refine ⟨t + F j, h j (by omega) t, ?_⟩
      show t + F j = s + ∑ k in Finset.range (j + 1), F k
      rw [Finset.sum_range_succ, ht, add_assoc])
  rw [hu, hP, Nat.zero_add]

/-- A downward loop whose every iteration adds `F j` to the state computes the same
sum. -/
theorem forDown_sum (body : Nat → σ → Except SwapError σ) (F : Nat → σ) (n : Nat)
    (h : ∀ j, j < n → ∀ t, body j t = Except.ok (t + F j)) (s : σ) :
    forDown body n s = Except.ok (s + ∑ j in Finset.range n, F j) := by
  obtain ⟨u, hu, hP⟩ := forDown_inv body
    (fun i t => t + ∑ j in Finset.range i, F j = s + ∑ j in Finset.range n, F j)
    n s rfl (by
      intro j t hj ht
      refine ⟨t + F j, h j hj t, ?_⟩
      show t + F j + ∑ k in Finset.range j, F k = s + ∑ k in Finset.range n, F k
      rw [← ht, Finset.sum_range_succ, add_assoc, add_comm (F j)])
  rw [hu]; simpa using hP

end LoopSums

section PriceLoops

variable {α : Type} [Field α]

theorem price_fixed_loop (exp : α → α) (notional fixed_rate : α) (fixed_tau fixed_t : List α)
    (zero_rate : α) (h : fixed_tau.length = fixed_t.length) :
    forUp (price_fixed_body exp notional fixed_rate fixed_tau fixed_t zero_rate)
        0 fixed_t.length (0, 0) =
      Except.ok (fixedLegPV exp notional fixed_rate fixed_tau fixed_t zero_rate,
        fixedAnnuity exp notional fixed_tau fixed_t zero_rate) := by
  rw [forUp_sum _ (fun i =>
    (notional * fixed_rate * fixed_tau.getD i 0 * exp (-zero_rate * fixed_t.getD i 0),
      notional * fixed_tau.getD i 0 * exp (-zero_rate * fixed_t.getD i 0)))]
  · simp [fixedLegPV, fixedAnnuity, Prod.ext_iff, Prod.fst_sum, Prod.snd_sum]
  · intro j hj t
    simp [price_fixed_body, vecGet_of_lt hj, vecGet_of_lt (h ▸ hj), bind_ok_eq, pure_eq_ok,
      Prod.ext_iff]

theorem price_float_loop (exp : α → α) (notional float_spread : α)
    (float_tau float_t float_rates : List α) (zero_rate : α)
    (h1 : float_tau.length = float_t.length) (h2 : float_rates.length = float_t.length) :
    forUp (price_float_body exp notional float_spread float_tau float_t float_rates zero_rate)
        0 float_t.length 0 =
      Except.ok (floatLegPV exp notional float_spread float_tau float_t float_rates
        zero_rate) := by
  rw [forUp_sum _ (fun j =>
    notional * (float_rates.getD j 0 + float_spread) * float_tau.getD j 0 *
      exp (-zero_rate * float_t.getD j 0))]
  · simp [floatLegPV]
  · intro j hj t
    simp [price_float_body, vecGet_of_lt hj, vecGet_of_lt (h1 ▸ hj), vecGet_of_lt (h2 ▸ hj),
      bind_ok_eq, pure_eq_ok]

/-- What `price_swap` returns on a specification that passes the three length checks. -/
theorem price_swap_eq (exp : α → α) (payReceive : Int) (notional fixed_rate : α)
    (fixed_tau fixed_t : List α) (float_spread : α)
    (float_tau float_t float_rates : List α) (zero_rate : α)
    (h0 : fixed_tau.length = fixed_t.length) (h1 : float_tau.length = float_t.length)
    (h2 : float_rates.length = float_t.length) :
    price_swap exp payReceive notional fixed_rate fixed_tau fixed_t float_spread
        float_tau float_t float_rates zero_rate =
      Except.ok
        { swap_pv := swapPV exp payReceive notional fixed_rate fixed_tau fixed_t
            float_spread float_tau float_t float_rates zero_rate
          pv01 := ((-payReceive : Int) : α) *
            fixedAnnuity exp notional fixed_tau fixed_t zero_rate * 0.0001 } := by
  simp only [price_swap, h0, h1, h2, ne_eq, not_true_eq_false, if_false,
    price_fixed_loop exp notional fixed_rate fixed_tau fixed_t zero_rate h0,
    price_float_loop exp notional float_spread float_tau float_t float_rates zero_rate h1 h2,
    bind_ok_eq, pure_eq_ok, swapPV]

end PriceLoops

section TangentLoops

variable {α : Type} [Field α]

theorem tangent_fixed_loop (exp : α → α) (notional fixed_rate : α)
    (fixed_tau fixed_t : List α) (zero_rate zero_rate_dot : α)
    (h : fixed_tau.length = fixed_t.length) :
    forUp (tangent_fixed_body exp notional fixed_rate fixed_tau fixed_t zero_rate
        zero_rate_dot) 0 fixed_t.length (0, 0) =
      Except.ok (fixedLegPV exp notional fixed_rate fixed_tau fixed_t zero_rate,
        fixedLegDot exp notional fixed_rate fixed_tau fixed_t zero_rate zero_rate_dot) := by
  rw [forUp_sum _ (fun i =>
    (notional * fixed_rate * fixed_tau.getD i 0 * exp (-zero_rate * fixed_t.getD i 0),
      -fixed_t.getD i 0 * notional * fixed_rate * fixed_tau.getD i 0 *
        exp (-zero_rate * fixed_t.getD i 0) * zero_rate_dot))]
  · simp [fixedLegPV, fixedLegDot, Prod.ext_iff, Prod.fst_sum, Prod.snd_sum]
  · intro j hj t
    simp [tangent_fixed_body, vecGet_of_lt hj, vecGet_of_lt (h ▸ hj), bind_ok_eq,
      pure_eq_ok, Prod.ext_iff]

theorem tangent_float_loop (exp : α → α) (notional float_spread : α)
    (float_tau float_t float_rates : List α) (zero_rate : α) (float_rates_dot : List α)
    (zero_rate_dot : α)
    (h1 : float_tau.length = float_t.length) (h2 : float_rates.length = float_t.length)
    (h3 : float_rates_dot.length = float_rates.length) :
    forUp (tangent_float_body exp notional float_spread float_tau float_t float_rates
        zero_rate float_rates_dot zero_rate_dot) 0 float_t.length (0, 0) =
      Except.ok (floatLegPV exp notional float_spread float_tau float_t float_rates
          zero_rate,
        floatLegDot exp notional float_spread float_tau float_t float_rates zero_rate
          float_rates_dot zero_rate_dot) := by
  rw [forUp_sum _ (fun j =>
    (notional * (float_rates.getD j 0 + float_spread) * float_tau.getD j 0 *
        exp (-zero_rate * float_t.getD j 0),
      notional * float_tau.getD j 0 * exp (-zero_rate * float_t.getD j 0) *
          float_rates_dot.getD j 0 +
        -float_t.getD j 0 * notional * (float_rates.getD j 0 + float_spread) *
          float_tau.getD j 0 * exp (-zero_rate * float_t.getD j 0) * zero_rate_dot))]
  · simp [floatLegPV, floatLegDot, Prod.ext_iff, Prod.fst_sum, Prod.snd_sum]
  · intro j hj t
    have h4 : j < float_rates_dot.length := by omega
    simp [tangent_float_body, vecGet_of_lt hj, vecGet_of_lt (h1 ▸ hj),
      vecGet_of_lt (h2 ▸ hj), vecGet_of_lt h4, bind_ok_eq, pure_eq_ok, Prod.ext_iff,
      add_assoc]

/-- What `swap_price_tangent_mode` returns on inputs that pass its four length checks. -/
theorem swap_price_tangent_mode_eq (exp : α → α) (payReceive : Int)
    (notional fixed_rate : α) (fixed_tau fixed_t : List α) (float_spread : α)
    (float_tau float_t float_rates : List α) (zero_rate : α)
    (float_rates_dot : List α) (zero_rate_dot : α)
    (h0 : fixed_tau.length = fixed_t.length) (h1 : float_tau.length = float_t.length)
    (h2 : float_rates.length = float_t.length)
    (h3 : float_rates_dot.length = float_rates.length) :
    swap_price_tangent_mode exp payReceive notional fixed_rate fixed_tau fixed_t
        float_spread float_tau float_t float_rates zero_rate float_rates_dot
        zero_rate_dot =
      Except.ok
        { swap_pv := swapPV exp payReceive notional fixed_rate fixed_tau fixed_t
            float_spread float_tau float_t float_rates zero_rate
          swap_pv_dot := (payReceive : α) *
            (fixedLegDot exp notional fixed_rate fixed_tau fixed_t zero_rate zero_rate_dot -
              floatLegDot exp notional float_spread float_tau float_t float_rates
                zero_rate float_rates_dot zero_rate_dot) } := by
  simp only [swap_price_tangent_mode, h0, h1, h2, h3, ne_eq, not_true_eq_false, if_false,
    tangent_fixed_loop exp notional fixed_rate fixed_tau fixed_t zero_rate zero_rate_dot h0,
    tangent_float_loop exp notional float_spread float_tau float_t float_rates zero_rate
      float_rates_dot zero_rate_dot h1 h2 h3,
    bind_ok_eq, pure_eq_ok, swapPV]

end TangentLoops

section AdjointLoops

variable {α : Type} [Field α]

/-- The cache-filling loop succeeds; afterwards `df[j]` is the discount factor and
`shift_size_df[j]` the shifted minus the unshifted discount factor of period `j`. -/
theorem adjoint_cache_loop (exp : α → α) (zero_rate shift_size_z : α) (ts : List α) :
    ∃ c : List α × List α × List α,
      forUp (adjoint_cache_body exp zero_rate shift_size_z ts) 0 ts.length
          (List.replicate ts.length 0, List.replicate ts.length 0,
            List.replicate ts.length 0) = Except.ok c ∧
        c.1.length = ts.length ∧ c.2.2.length = ts.length ∧
        (∀ j, j < ts.length → c.1.getD j 0 = exp (-zero_rate * ts.getD j 0)) ∧
        (∀ j, j < ts.length → c.2.2.getD j 0 =
          exp (-(zero_rate + shift_size_z) * ts.getD j 0) -
            exp (-zero_rate * ts.getD j 0)) := by
  obtain ⟨c, hc, hP⟩ := forUp_inv (adjoint_cache_body exp zero_rate shift_size_z ts)
    (fun i s => s.1.length = ts.length ∧ s.2.1.length = ts.length ∧
      s.2.2.length = ts.length ∧
      (∀ j, j < i → s.1.getD j 0 = exp (-zero_rate * ts.getD j 0)) ∧
      (∀ j, j < i → s.2.2.getD j 0 =
        exp (-(zero_rate + shift_size_z) * ts.getD j 0) - exp (-zero_rate * ts.getD j 0)))
    ts.length 0
    (List.replicate ts.length 0, List.replicate ts.length 0, List.replicate ts.length 0)
    (by simp)
    (by
      rintro j ⟨a, b, d⟩ _ hj ⟨h1, h2, h3, h4, h5⟩
      simp only at h1 h2 h3 h4 h5
      have hj0 : j < ts.length := by omega
      have ha : j < a.length := by omega
      have hb : j < b.length := by omega
      have hd : j < d.length := by omega
      have ha2 : j < (a.set j (exp (-zero_rate * ts.getD j 0))).length := by
        rw [List.length_set]; exact ha
      have hb2 : j < (b.set j (exp (-(zero_rate + shift_size_z) * ts.getD j 0))).length := by
        rw [List.length_set]; exact hb
      refine ⟨(a.set j (exp (-zero_rate * ts.getD j 0)),
        b.set j (exp (-(zero_rate + shift_size_z) * ts.getD j 0)),
        d.set j (exp (-(zero_rate + shift_size_z) * ts.getD j 0) -
          exp (-zero_rate * ts.getD j 0))), ?_, ?_⟩
      · simp only [adjoint_cache_body, vecGet_of_lt hj0, bind_ok_eq, vecSet_of_lt ha,
          vecSet_of_lt hb, vecGet_of_lt ha2, vecGet_of_lt hb2, getD_set_self ha,
          getD_set_self hb, vecSet_of_lt hd, pure_eq_ok]
      · refine ⟨by simp [h1], by simp [h2], by simp [h3], ?_, ?_⟩
        · intro k hk
          by_cases hkj : j = k
          · subst hkj; exact getD_set_self ha _
          · rw [getD_set_other hkj]; exact h4 k (by omega)
        · intro k hk
          by_cases hkj : j = k
          · subst hkj; exact getD_set_self hd _
          · rw [getD_set_other hkj]; exact h5 k (by omega))
  refine ⟨c, hc, hP.1, hP.2.2.1, ?_, ?_⟩
  · intro j hj; exact hP.2.2.2.1 j (by omega)
  · intro j hj; exact hP.2.2.2.2 j (by omega)

end AdjointLoops

section AdjointSweeps

variable {α : Type} [Field α]

/-- The forward sweep over the fixed leg, started from a cache that already holds the
discount factors, succeeds and accumulates the fixed-leg present value. -/
theorem adjoint_fixed_forward_loop (exp : α → α) (notional fixed_rate : α)
    (fixed_tau fixed_t : List α) (zero_rate : α) (df0 : List α)
    (h : fixed_tau.length = fixed_t.length) (hlen : df0.length = fixed_t.length) :
    ∃ df : List α,
      forUp (adjoint_fixed_forward_body exp notional fixed_rate fixed_tau fixed_t zero_rate)
          0 fixed_t.length (df0, 0) =
        Except.ok (df, fixedLegPV exp notional fixed_rate fixed_tau fixed_t zero_rate) ∧
      df.length = fixed_t.length := by
  obtain ⟨u, hu, hP⟩ := forUp_inv
    (adjoint_fixed_forward_body exp notional fixed_rate fixed_tau fixed_t zero_rate)
    (fun i s => s.1.length = fixed_t.length ∧
      s.2 = ∑ k in Finset.range i,
        notional * fixed_rate * fixed_tau.getD k 0 * exp (-zero_rate * fixed_t.getD k 0))
    fixed_t.length 0 (df0, 0) (by simp [hlen])
    (by
      rintro j ⟨a, x⟩ _ hj ⟨h1, h2⟩
      simp only at h1 h2
      have hj0 : j < fixed_t.length := by omega
      have ha : j < a.length := by omega
      have ha2 : j < (a.set j (exp (-zero_rate * fixed_t.getD j 0))).length := by
        rw [List.length_set]; exact ha
      refine ⟨(a.set j (exp (-zero_rate * fixed_t.getD j 0)),
        x + notional * fixed_rate * fixed_tau.getD j 0 *
          exp (-zero_rate * fixed_t.getD j 0)), ?_, ?_⟩
      · simp only [adjoint_fixed_forward_body, vecGet_of_lt hj0, bind_ok_eq,
          vecSet_of_lt ha, vecGet_of_lt (h ▸ hj0), vecGet_of_lt ha2, getD_set_self ha,
          pure_eq_ok]
      · exact ⟨by simp [h1], by simp only [Finset.sum_range_succ, h2]⟩)
  obtain ⟨df, x⟩ := u
  refine ⟨df, ?_, hP.1⟩
  rw [hu]
  have := hP.2
  simp only [Nat.zero_add] at this
  simp only [this, fixedLegPV]

/-- The forward sweep over the float leg succeeds, accumulates the float-leg present
value, and leaves the discount factors in `float_df`. -/
theorem adjoint_float_forward_loop (exp : α → α) (notional float_spread : α)
    (float_tau float_t float_rates : List α) (zero_rate : α) (df0 : List α)
    (h1 : float_tau.length = float_t.length) (h2 : float_rates.length = float_t.length)
    (hlen : df0.length = float_t.length) :
    ∃ df : List α,
      forUp (adjoint_float_forward_body exp notional float_spread float_tau float_t
          float_rates zero_rate) 0 float_t.length (df0, 0) =
        Except.ok (df, floatLegPV exp notional float_spread float_tau float_t float_rates
          zero_rate) ∧
      df.length = float_t.length ∧
      ∀ j, j < float_t.length → df.getD j 0 = exp (-zero_rate * float_t.getD j 0) := by
  obtain ⟨u, hu, hP⟩ := forUp_inv
    (adjoint_float_forward_body exp notional float_spread float_tau float_t float_rates
      zero_rate)
    (fun i s => s.1.length = float_t.length ∧
      (∀ k, k < i → s.1.getD k 0 = exp (-zero_rate * float_t.getD k 0)) ∧
      s.2 = ∑ k in Finset.range i,
        notional * (float_rates.getD k 0 + float_spread) * float_tau.getD k 0 *
          exp (-zero_rate * float_t.getD k 0))
    float_t.length 0 (df0, 0) (by simp [hlen])
    (by
      rintro j ⟨a, x⟩ _ hj ⟨h3, h4, h5⟩
      simp only at h3 h4 h5
      have hj0 : j < float_t.length := by omega
      have ha : j < a.length := by omega
      have ha2 : j < (a.set j (exp (-zero_rate * float_t.getD j 0))).length := by
        rw [List.length_set]; exact ha
      refine ⟨(a.set j (exp (-zero_rate * float_t.getD j 0)),
        x + notional * (float_rates.getD j 0 + float_spread) * float_tau.getD j 0 *
          exp (-zero_rate * float_t.getD j 0)), ?_, ?_⟩
      · simp only [adjoint_float_forward_body, vecGet_of_lt hj0, bind_ok_eq,
          vecSet_of_lt ha, vecGet_of_lt (h1 ▸ hj0), vecGet_of_lt (h2 ▸ hj0),
          vecGet_of_lt ha2, getD_set_self ha, pure_eq_ok]
      · refine ⟨by simp [h3], ?_, by simp only [Finset.sum_range_succ, h5]⟩
        intro k hk
        by_cases hkj : j = k
        · subst hkj; exact getD_set_self ha _
        · rw [getD_set_other hkj]; exact h4 k (by omega))
  obtain ⟨df, x⟩ := u
  refine ⟨df, ?_, hP.1, ?_⟩
  · rw [hu]
    have := hP.2.2
    simp only [Nat.zero_add] at this
    simp only [this, floatLegPV]
  · intro j hj; exact hP.2.1 j (by omega)

/-- The backward loop over the float leg succeeds; `float_rates_bar` and
`discount_factor_bar` end as the sums of their per-period increments. -/
theorem adjoint_float_backward_loop (exp : α → α) (notional float_spread : α)
    (float_tau float_t float_rates : List α) (zero_rate : α)
    (float_df shift_size_float_df : List α) (float_pv_bar shift_size_f shift_size_z : α)
    (h1 : float_tau.length = float_t.length) (h2 : float_rates.length = float_t.length)
    (hdf : float_df.length = float_t.length)
    (hsh : shift_size_float_df.length = float_t.length)
    (hdfv : ∀ j, j < float_t.length →
      float_df.getD j 0 = exp (-zero_rate * float_t.getD j 0))
    (hshv : ∀ j, j < float_t.length → shift_size_float_df.getD j 0 =
      exp (-(zero_rate + shift_size_z) * float_t.getD j 0) -
        exp (-zero_rate * float_t.getD j 0)) :
    ∃ zero_rate_bar : α,
      forDown (adjoint_float_backward_body exp notional float_spread float_tau float_t
          float_rates zero_rate float_df shift_size_float_df float_pv_bar shift_size_f)
          float_t.length (0, 0, 0) =
        Except.ok
          (floatRatesBarSum exp notional float_tau float_t zero_rate float_pv_bar
              shift_size_f,
            floatDiscountBarSum exp notional float_spread float_tau float_t float_rates
              zero_rate float_pv_bar shift_size_z,
            zero_rate_bar) := by
  obtain ⟨u, hu, hP⟩ := forDown_inv
    (adjoint_float_backward_body exp notional float_spread float_tau float_t float_rates
      zero_rate float_df shift_size_float_df float_pv_bar shift_size_f)
    (fun i s =>
      s.1 + (∑ k in Finset.range i,
          notional * float_tau.getD k 0 * exp (-zero_rate * float_t.getD k 0) *
            float_pv_bar * shift_size_f) =
        floatRatesBarSum exp notional float_tau float_t zero_rate float_pv_bar
          shift_size_f ∧
      s.2.1 + (∑ k in Finset.range i,
          notional * (float_rates.getD k 0 + float_spread) * float_tau.getD k 0 *
            float_pv_bar *
            (exp (-(zero_rate + shift_size_z) * float_t.getD k 0) -
              exp (-zero_rate * float_t.getD k 0))) =
        floatDiscountBarSum exp notional float_spread float_tau float_t float_rates
          zero_rate float_pv_bar shift_size_z)
    float_t.length (0, 0, 0)
    (by simp [floatRatesBarSum, floatDiscountBarSum])
    (by
      rintro j ⟨a, b, c⟩ hj ⟨h3, h4⟩
      simp only at h3 h4
      refine ⟨(a + notional * float_tau.getD j 0 * exp (-zero_rate * float_t.getD j 0) *
          float_pv_bar * shift_size_f,
        b + notional * (float_rates.getD j 0 + float_spread) * float_tau.getD j 0 *
          float_pv_bar *
          (exp (-(zero_rate + shift_size_z) * float_t.getD j 0) -
            exp (-zero_rate * float_t.getD j 0)),
        c + -float_t.getD j 0 * exp (-zero_rate * float_t.getD j 0) *
          (b + notional * (float_rates.getD j 0 + float_spread) * float_tau.getD j 0 *
            float_pv_bar *
            (exp (-(zero_rate + shift_size_z) * float_t.getD j 0) -
              exp (-zero_rate * float_t.getD j 0)))), ?_, ?_, ?_⟩
      · simp only [adjoint_float_backward_body, vecGet_of_lt hj, bind_ok_eq,
          vecGet_of_lt (h1 ▸ hj), vecGet_of_lt (h2 ▸ hj), vecGet_of_lt (hdf ▸ hj),
          vecGet_of_lt (hsh ▸ hj), hdfv j hj, hshv j hj, pure_eq_ok]
      · rw [← h3, Finset.sum_range_succ]; simp only; ring
      · rw [← h4, Finset.sum_range_succ]; simp only; ring)
  obtain ⟨a, b, c⟩ := u
  refine ⟨c, ?_⟩
  rw [hu]
  have h3 := hP.1
  have h4 := hP.2
  simp only [Finset.range_zero, Finset.sum_empty, add_zero] at h3 h4
  rw [h3, h4]

/-- The backward loop over the fixed leg succeeds and adds the fixed periods' increments
to `discount_factor_bar`. -/
theorem adjoint_fixed_backward_loop (exp : α → α) (notional fixed_rate : α)
    (fixed_tau fixed_t : List α) (zero_rate : α) (shift_size_fixed_df : List α)
    (fixed_pv_bar shift_size_z : α) (d0 z0 : α)
    (h : fixed_tau.length = fixed_t.length)
    (hsh : shift_size_fixed_df.length = fixed_t.length)
    (hshv : ∀ j, j < fixed_t.length → shift_size_fixed_df.getD j 0 =
      exp (-(zero_rate + shift_size_z) * fixed_t.getD j 0) -
        exp (-zero_rate * fixed_t.getD j 0)) :
    ∃ zero_rate_bar : α,
      forDown (adjoint_fixed_backward_body exp notional fixed_rate fixed_tau fixed_t
          zero_rate shift_size_fixed_df fixed_pv_bar) fixed_t.length (d0, z0) =
        Except.ok
          (d0 + fixedDiscountBarSum exp notional fixed_rate fixed_tau fixed_t zero_rate
              fixed_pv_bar shift_size_z,
            zero_rate_bar) := by
  obtain ⟨u, hu, hP⟩ := forDown_inv
    (adjoint_fixed_backward_body exp notional fixed_rate fixed_tau fixed_t zero_rate
      shift_size_fixed_df fixed_pv_bar)
    (fun i s =>
      s.1 + (∑ k in Finset.range i,
          notional * fixed_rate * fixed_tau.getD k 0 * fixed_pv_bar *
            (exp (-(zero_rate + shift_size_z) * fixed_t.getD k 0) -
              exp (-zero_rate * fixed_t.getD k 0))) =
        d0 + fixedDiscountBarSum exp notional fixed_rate fixed_tau fixed_t zero_rate
          fixed_pv_bar shift_size_z)
    fixed_t.length (d0, z0)
    (by simp [fixedDiscountBarSum])
    (by
      rintro j ⟨b, c⟩ hj h3
      simp only at h3
      refine ⟨(b + notional * fixed_rate * fixed_tau.getD j 0 * fixed_pv_bar *
          (exp (-(zero_rate + shift_size_z) * fixed_t.getD j 0) -
            exp (-zero_rate * fixed_t.getD j 0)),
        c + -fixed_t.getD j 0 * exp (-zero_rate * fixed_t.getD j 0) *
          (b + notional * fixed_rate * fixed_tau.getD j 0 * fixed_pv_bar *
            (exp (-(zero_rate + shift_size_z) * fixed_t.getD j 0) -
              exp (-zero_rate * fixed_t.getD j 0)))), ?_, ?_⟩
      · simp only [adjoint_fixed_backward_body, vecGet_of_lt hj, bind_ok_eq,
          vecGet_of_lt (h ▸ hj), vecGet_of_lt (hsh ▸ hj), hshv j hj, pure_eq_ok]
      · rw [← h3, Finset.sum_range_succ]; simp only; ring)
  obtain ⟨b, c⟩ := u
  refine ⟨c, ?_⟩
  rw [hu]
  have h3 := hP
  simp only [Finset.range_zero, Finset.sum_empty, add_zero] at h3
  rw [h3]

end AdjointSweeps

section AdjointResult

variable {α : Type} [Field α]

/-- What `swap_price_adjoint_mode` returns on a specification that passes the three
length checks: all printed numbers in closed form (`zero_rate_bar` is left open). -/
theorem swap_price_adjoint_mode_eq (exp : α → α) (payReceive : Int)
    (notional fixed_rate : α) (fixed_tau fixed_t : List α) (float_spread : α)
    (float_tau float_t float_rates : List α) (zero_rate swap_pv_bar : α)
    (h0 : fixed_tau.length = fixed_t.length) (h1 : float_tau.length = float_t.length)
    (h2 : float_rates.length = float_t.length) :
    ∃ zero_rate_bar : α,
      swap_price_adjoint_mode exp payReceive notional fixed_rate fixed_tau fixed_t
          float_spread float_tau float_t float_rates zero_rate swap_pv_bar =
        Except.ok
          { swap_pv := swapPV exp payReceive notional fixed_rate fixed_tau fixed_t
              float_spread float_tau float_t float_rates zero_rate
            float_rates_bar := floatRatesBarSum exp notional float_tau float_t zero_rate
              (((-payReceive : Int) : α) * swap_pv_bar) 0.0001
            discount_factor_bar :=
              floatDiscountBarSum exp notional float_spread float_tau float_t float_rates
                  zero_rate (((-payReceive : Int) : α) * swap_pv_bar) 0.0001 +
                fixedDiscountBarSum exp notional fixed_rate fixed_tau fixed_t zero_rate
                  ((payReceive : α) * swap_pv_bar) 0.0001
            dv01 := floatRatesBarSum exp notional float_tau float_t zero_rate
                (((-payReceive : Int) : α) * swap_pv_bar) 0.0001 +
              (floatDiscountBarSum exp notional float_spread float_tau float_t float_rates
                  zero_rate (((-payReceive : Int) : α) * swap_pv_bar) 0.0001 +
                fixedDiscountBarSum exp notional fixed_rate fixed_tau fixed_t zero_rate
                  ((payReceive : α) * swap_pv_bar) 0.0001)
            zero_rate_bar := zero_rate_bar } := by
  obtain ⟨c1, hc1, hc1a, hc1b, -, hc1d⟩ := adjoint_cache_loop exp zero_rate 0.0001 fixed_t
  obtain ⟨c2, hc2, hc2a, hc2b, -, hc2d⟩ := adjoint_cache_loop exp zero_rate 0.0001 float_t
  obtain ⟨df1, hf1, -⟩ := adjoint_fixed_forward_loop exp notional fixed_rate fixed_tau
    fixed_t zero_rate c1.1 h0 hc1a
  obtain ⟨df2, hf2, hdf2, hdf2v⟩ := adjoint_float_forward_loop exp notional float_spread
    float_tau float_t float_rates zero_rate c2.1 h1 h2 hc2a
  obtain ⟨z1, hb1⟩ := adjoint_float_backward_loop exp notional float_spread float_tau
    float_t float_rates zero_rate df2 c2.2.2 (((-payReceive : Int) : α) * swap_pv_bar)
    0.0001 0.0001 h1 h2 hdf2 hc2b hdf2v hc2d
  obtain ⟨z2, hb2⟩ := adjoint_fixed_backward_loop exp notional fixed_rate fixed_tau
    fixed_t zero_rate c1.2.2 ((payReceive : α) * swap_pv_bar) 0.0001
    (floatDiscountBarSum exp notional float_spread float_tau float_t float_rates
      zero_rate (((-payReceive : Int) : α) * swap_pv_bar) 0.0001) z1 h0 hc1b hc1d
  refine ⟨z2, ?_⟩
  simp only [swap_price_adjoint_mode, h0, h1, h2, ne_eq, not_true_eq_false, if_false,
    hc1, hc2, hf1, hf2, hb1, hb2, bind_ok_eq, pure_eq_ok, swapPV]

end AdjointResult

/-! ## Properties of the pricing and risk functions -/

section Claims

variable {α : Type} [Field α]

/-- C1: on every swap specification whose parallel sequences have matching lengths,
`price_swap` produces a result, and its `swap_pv` is
`payReceive * (fixedPV - floatPV)`, where `fixedPV` is the sum over the fixed periods `i`
of `notional * fixed_rate * fixed_tau[i] * exp (-zero_rate * fixed_t[i])` and `floatPV`
the sum over the float periods `j` of
`notional * (float_rates[j] + float_spread) * float_tau[j] * exp (-zero_rate * float_t[j])`. -/
theorem price_swap_computes_swapPV (exp : α → α) (payReceive : Int)
    (notional fixed_rate : α) (fixed_tau fixed_t : List α) (float_spread : α)
    (float_tau float_t float_rates : List α) (zero_rate : α)
    (h0 : fixed_tau.length = fixed_t.length) (h1 : float_tau.length = float_t.length)
    (h2 : float_rates.length = float_t.length) :
    ∃ r : PriceOutput α,
      price_swap exp payReceive notional fixed_rate fixed_tau fixed_t float_spread
          float_tau float_t float_rates zero_rate = Except.ok r ∧
      r.swap_pv = (payReceive : α) *
        ((∑ i in Finset.range fixed_t.length,
            notional * fixed_rate * fixed_tau.getD i 0 *
              exp (-zero_rate * fixed_t.getD i 0)) -
          (∑ j in Finset.range float_t.length,
            notional * (float_rates.getD j 0 + float_spread) * float_tau.getD j 0 *
              exp (-zero_rate * float_t.getD j 0))) :=
  ⟨_, price_swap_eq exp payReceive notional fixed_rate fixed_tau fixed_t float_spread
    float_tau float_t float_rates zero_rate h0 h1 h2, rfl⟩

/-- The statement of C1 at the swap built in `main`, over the reals. -/
theorem price_swap_computes_swapPV_witness :
    ((main_fixed_tau ℝ).length = (main_fixed_t ℝ).length ∧
      (main_float_tau ℝ).length = (main_float_t ℝ).length ∧
      (main_float_rates ℝ).length = (main_float_t ℝ).length) ∧
    ∃ r : PriceOutput ℝ,
      price_swap Real.exp main_payReceive (main_notional ℝ) (main_fixed_rate ℝ)
          (main_fixed_tau ℝ) (main_fixed_t ℝ) (main_float_spread ℝ) (main_float_tau ℝ)
          (main_float_t ℝ) (main_float_rates ℝ) (main_zero_rate ℝ) = Except.ok r ∧
      r.swap_pv = (main_payReceive : ℝ) *
        ((∑ i in Finset.range (main_fixed_t ℝ).length,
            main_notional ℝ * main_fixed_rate ℝ * (main_fixed_tau ℝ).getD i 0 *
              Real.exp (-main_zero_rate ℝ * (main_fixed_t ℝ).getD i 0)) -
          (∑ j in Finset.range (main_float_t ℝ).length,
            main_notional ℝ * ((main_float_rates ℝ).getD j 0 + main_float_spread ℝ) *
              (main_float_tau ℝ).getD j 0 *
              Real.exp (-main_zero_rate ℝ * (main_float_t ℝ).getD j 0))) :=
  ⟨⟨rfl, rfl, rfl⟩,
    price_swap_computes_swapPV Real.exp main_payReceive (main_notional ℝ)
      (main_fixed_rate ℝ) (main_fixed_tau ℝ) (main_fixed_t ℝ) (main_float_spread ℝ)
      (main_float_tau ℝ) (main_float_t ℝ) (main_float_rates ℝ) (main_zero_rate ℝ)
      rfl rfl rfl⟩

/-- C4: whenever `len(fixed_tau) != len(fixed_t)`, or `len(float_tau) != len(float_t)`,
or `len(float_rates) != len(float_t)`, each of `price_swap`, `swap_price_tangent_mode`
and `swap_price_adjoint_mode` ends with a diagnostic and no numbers; and `price_swap`
and `swap_price_adjoint_mode` produce a result if and only if none of the three
mismatches holds. -/
theorem schedule_mismatch_no_result (exp : α → α) (payReceive : Int)
    (notional fixed_rate : α) (fixed_tau fixed_t : List α) (float_spread : α)
    (float_tau float_t float_rates : List α) (zero_rate : α)
    (float_rates_dot : List α) (zero_rate_dot swap_pv_bar : α) :
    ((fixed_tau.length ≠ fixed_t.length ∨ float_tau.length ≠ float_t.length ∨
        float_rates.length ≠ float_t.length) →
      (∃ e, price_swap exp payReceive notional fixed_rate fixed_tau fixed_t float_spread
          float_tau float_t float_rates zero_rate = Except.error e) ∧
      (∃ e, swap_price_tangent_mode exp payReceive notional fixed_rate fixed_tau fixed_t
          float_spread float_tau float_t float_rates zero_rate float_rates_dot
          zero_rate_dot = Except.error e) ∧
      (∃ e, swap_price_adjoint_mode exp payReceive notional fixed_rate fixed_tau fixed_t
          float_spread float_tau float_t float_rates zero_rate swap_pv_bar =
            Except.error e)) ∧
    ((∃ r, price_swap exp payReceive notional fixed_rate fixed_tau fixed_t float_spread
          float_tau float_t float_rates zero_rate = Except.ok r) ↔
      (fixed_tau.length = fixed_t.length ∧ float_tau.length = float_t.length ∧
        float_rates.length = float_t.length)) ∧
    ((∃ r, swap_price_adjoint_mode exp payReceive notional fixed_rate fixed_tau fixed_t
          float_spread float_tau float_t float_rates zero_rate swap_pv_bar =
            Except.ok r) ↔
      (fixed_tau.length = fixed_t.length ∧ float_tau.length = float_t.length ∧
        float_rates.length = float_t.length)) := by
  have key : (fixed_tau.length ≠ fixed_t.length ∨ float_tau.length ≠ float_t.length ∨
        float_rates.length ≠ float_t.length) →
      (∃ e, price_swap exp payReceive notional fixed_rate fixed_tau fixed_t float_spread
          float_tau float_t float_rates zero_rate = Except.error e) ∧
      (∃ e, swap_price_tangent_mode exp payReceive notional fixed_rate fixed_tau fixed_t
          float_spread float_tau float_t float_rates zero_rate float_rates_dot
          zero_rate_dot = Except.error e) ∧
      (∃ e, swap_price_adjoint_mode exp payReceive notional fixed_rate fixed_tau fixed_t
          float_spread float_tau float_t float_rates zero_rate swap_pv_bar =
            Except.error e) := by
    intro h
    by_cases h0 : fixed_tau.length = fixed_t.length
    · by_cases h1 : float_tau.length = float_t.length
      · have h2 : float_rates.length ≠ float_t.length := by tauto
        exact ⟨⟨SwapError.floatRatesSize, by simp only [price_swap, h0, h1, h2, ne_eq, not_true_eq_false,
            not_false_eq_true, if_true, if_false]⟩,
          ⟨SwapError.floatRatesSize, by simp only [swap_price_tangent_mode, h0, h1, h2, ne_eq, not_true_eq_false,
            not_false_eq_true, if_true, if_false]⟩,
          ⟨SwapError.floatRatesSize, by simp only [swap_price_adjoint_mode, h0, h1, h2, ne_eq, not_true_eq_false,
            not_false_eq_true, if_true, if_false]⟩⟩
      · exact ⟨⟨SwapError.floatTauSize, by simp only [price_swap, h0, h1, ne_eq, not_true_eq_false,
            not_false_eq_true, if_true, if_false]⟩,
          ⟨SwapError.floatTauSize, by simp only [swap_price_tangent_mode, h0, h1, ne_eq, not_true_eq_false,
            not_false_eq_true, if_true, if_false]⟩,
          ⟨SwapError.floatTauSize, by simp only [swap_price_adjoint_mode, h0, h1, ne_eq, not_true_eq_false,
            not_false_eq_true, if_true, if_false]⟩⟩
    · exact ⟨⟨SwapError.fixedTauSize,
          by simp only [price_swap, h0, ne_eq, not_false_eq_true, if_true]⟩,
        ⟨SwapError.fixedTauSize,
          by simp only [swap_price_tangent_mode, h0, ne_eq, not_false_eq_true, if_true]⟩,
        ⟨SwapError.fixedTauSize,
          by simp only [swap_price_adjoint_mode, h0, ne_eq, not_false_eq_true, if_true]⟩⟩
  refine ⟨key, ⟨?_, ?_⟩, ⟨?_, ?_⟩⟩
  · rintro ⟨r, hr⟩
    by_contra hne
    obtain ⟨⟨e, he⟩, -, -⟩ := key (by tauto)
    rw [he] at hr; cases hr
  · rintro ⟨h0, h1, h2⟩
    exact ⟨_, price_swap_eq exp payReceive notional fixed_rate fixed_tau fixed_t
      float_spread float_tau float_t float_rates zero_rate h0 h1 h2⟩
  · rintro ⟨r, hr⟩
    by_contra hne
    obtain ⟨-, -, ⟨e, he⟩⟩ := key (by tauto)
    rw [he] at hr; cases hr
  · rintro ⟨h0, h1, h2⟩
    obtain ⟨z, hz⟩ := swap_price_adjoint_mode_eq exp payReceive notional fixed_rate
      fixed_tau fixed_t float_spread float_tau float_t float_rates zero_rate swap_pv_bar
      h0 h1 h2
    exact ⟨_, hz⟩

/-- The first part of C4 at the schedule of the spec's example: five fixed accruals
against four fixed payment times, everything else as in `main`. -/
theorem schedule_mismatch_no_result_witness :
    (∃ e, price_swap Real.exp main_payReceive (main_notional ℝ) (main_fixed_rate ℝ)
        [1, 1, 1, 1, 1] [1, 2, 3, 4] (main_float_spread ℝ) (main_float_tau ℝ)
        (main_float_t ℝ) (main_float_rates ℝ) (main_zero_rate ℝ) = Except.error e) ∧
    (∃ e, swap_price_tangent_mode Real.exp main_payReceive (main_notional ℝ)
        (main_fixed_rate ℝ) [1, 1, 1, 1, 1] [1, 2, 3, 4] (main_float_spread ℝ)
        (main_float_tau ℝ) (main_float_t ℝ) (main_float_rates ℝ) (main_zero_rate ℝ)
        (main_all_f_dot ℝ) (main_zero_rate_dot ℝ) = Except.error e) ∧
    (∃ e, swap_price_adjoint_mode Real.exp main_payReceive (main_notional ℝ)
        (main_fixed_rate ℝ) [1, 1, 1, 1, 1] [1, 2, 3, 4] (main_float_spread ℝ)
        (main_float_tau ℝ) (main_float_t ℝ) (main_float_rates ℝ) (main_zero_rate ℝ)
        (main_swap_pv_bar ℝ) = Except.error e) :=
  (schedule_mismatch_no_result Real.exp main_payReceive (main_notional ℝ)
    (main_fixed_rate ℝ) [1, 1, 1, 1, 1] [1, 2, 3, 4] (main_float_spread ℝ)
    (main_float_tau ℝ) (main_float_t ℝ) (main_float_rates ℝ) (main_zero_rate ℝ)
    (main_all_f_dot ℝ) (main_zero_rate_dot ℝ) (main_swap_pv_bar ℝ)).1
    (Or.inl (by decide))

/-- C5: `swap_price_tangent_mode` produces a result if and only if the three schedule
length conditions hold and `len(float_rates_dot) == len(float_rates)`; in particular a
risk vector of the wrong length on an otherwise valid swap ends with a diagnostic and no
numbers. -/
theorem tangent_result_iff_lengths (exp : α → α) (payReceive : Int)
    (notional fixed_rate : α) (fixed_tau fixed_t : List α) (float_spread : α)
    (float_tau float_t float_rates : List α) (zero_rate : α)
    (float_rates_dot : List α) (zero_rate_dot : α) :
    ((∃ r, swap_price_tangent_mode exp payReceive notional fixed_rate fixed_tau fixed_t
          float_spread float_tau float_t float_rates zero_rate float_rates_dot
          zero_rate_dot = Except.ok r) ↔
      (fixed_tau.length = fixed_t.length ∧ float_tau.length = float_t.length ∧
        float_rates.length = float_t.length ∧
        float_rates_dot.length = float_rates.length)) ∧
    (fixed_tau.length = fixed_t.length → float_tau.length = float_t.length →
      float_rates.length = float_t.length →
      float_rates_dot.length ≠ float_rates.length →
      swap_price_tangent_mode exp payReceive notional fixed_rate fixed_tau fixed_t
          float_spread float_tau float_t float_rates zero_rate float_rates_dot
          zero_rate_dot = Except.error SwapError.floatRatesDotSize) := by
  refine ⟨⟨?_, ?_⟩, ?_⟩
  · rintro ⟨r, hr⟩
    by_contra hne
    simp only [swap_price_tangent_mode] at hr
    split_ifs at hr with h0 h1 h2 h3
    simp only [ne_eq, not_not] at h0 h1 h2 h3
    exact hne ⟨h0, h1, h2, h3⟩
  · rintro ⟨h0, h1, h2, h3⟩
    exact ⟨_, swap_price_tangent_mode_eq exp payReceive notional fixed_rate fixed_tau
      fixed_t float_spread float_tau float_t float_rates zero_rate float_rates_dot
      zero_rate_dot h0 h1 h2 h3⟩
  · intro h0 h1 h2 h3
    have h4 : ¬ float_rates_dot.length = float_t.length := h2 ▸ h3
    simp only [swap_price_tangent_mode, h0, h1, h2, h4, ne_eq, not_true_eq_false,
      not_false_eq_true, if_true, if_false]

/-- The second part of C5 at the swap of `main` with a risk vector of four entries
against five forward rates. -/
theorem tangent_result_iff_lengths_witness :
    swap_price_tangent_mode Real.exp main_payReceive (main_notional ℝ)
        (main_fixed_rate ℝ) (main_fixed_tau ℝ) (main_fixed_t ℝ) (main_float_spread ℝ)
        (main_float_tau ℝ) (main_float_t ℝ) (main_float_rates ℝ) (main_zero_rate ℝ)
        [0.0001, 0.0001, 0.0001, 0.0001] (main_zero_rate_dot ℝ) =
      Except.error SwapError.floatRatesDotSize :=
  (tangent_result_iff_lengths Real.exp main_payReceive (main_notional ℝ)
    (main_fixed_rate ℝ) (main_fixed_tau ℝ) (main_fixed_t ℝ) (main_float_spread ℝ)
    (main_float_tau ℝ) (main_float_t ℝ) (main_float_rates ℝ) (main_zero_rate ℝ)
    [0.0001, 0.0001, 0.0001, 0.0001] (main_zero_rate_dot ℝ)).2 rfl rfl rfl (by decide)

end Claims

section RiskVectors

variable {α : Type}

theorem getD_replicate_of_lt [Zero α] {n j : Nat} (h : j < n) (c : α) :
    (List.replicate n c).getD j 0 = c := by
  simp [List.getD_eq_getElem?_getD, List.getElem?_replicate, h]

theorem getD_zipWith_of_lt [Zero α] (f : α → α → α) {v w : List α} {j : Nat}
    (hv : j < v.length) (hw : j < w.length) :
    (List.zipWith f v w).getD j 0 = f (v.getD j 0) (w.getD j 0) := by
  simp [List.getD_eq_getElem?_getD, List.getElem?_zipWith, List.getElem?_eq_getElem hv,
    List.getElem?_eq_getElem hw]

end RiskVectors

section Coefficients

variable {α : Type} [Field α]

/-- The value `swapPV` is a linear form in the discount factors: the coefficient of a
fixed period's discount factor is `payReceive * notional * fixed_rate * fixed_tau[i]`,
that of a float period's is
`-payReceive * notional * (float_rates[j] + float_spread) * float_tau[j]`. -/
theorem swapPV_eq_coeff_sum (exp : α → α) (payReceive : Int) (notional fixed_rate : α)
    (fixed_tau fixed_t : List α) (float_spread : α)
    (float_tau float_t float_rates : List α) (zero_rate : α) :
    swapPV exp payReceive notional fixed_rate fixed_tau fixed_t float_spread float_tau
        float_t float_rates zero_rate =
      (∑ i in Finset.range fixed_t.length,
          ((payReceive : α) * notional * fixed_rate * fixed_tau.getD i 0) *
            exp (-zero_rate * fixed_t.getD i 0)) +
        (∑ j in Finset.range float_t.length,
          (-(payReceive : α) * notional * (float_rates.getD j 0 + float_spread) *
              float_tau.getD j 0) *
            exp (-zero_rate * float_t.getD j 0)) := by
  unfold swapPV fixedLegPV floatLegPV
  rw [mul_sub, Finset.mul_sum, Finset.mul_sum, sub_eq_add_neg, ← Finset.sum_neg_distrib]
  congr 1
  · exact Finset.sum_congr rfl (fun i _ => by ring)
  · exact Finset.sum_congr rfl (fun i _ => by ring)

end Coefficients

section ClaimsRisk

variable {α : Type} [Field α]

/-- C6: on every valid swap specification, the PV01 of `swap_price_adjoint_mode` with
`swap_pv_bar = 1` (its `float_rates_bar`) is the sum over the float periods `j` of
`(d floatPV / d rate_j) * floatPVBar * 0.0001`, where
`d floatPV / d rate_j = notional * float_tau[j] * exp (-zero_rate * float_t[j])` is the
coefficient of `float_rates[j]` in the float-leg value and
`floatPVBar = -payReceive * swap_pv_bar = -payReceive * 1`; and it is equal to the risk
value of `swap_price_tangent_mode` called with every forward-rate dot `0.0001` and
`zero_rate_dot = 0`.  Both calls produce a result. -/
theorem adjoint_pv01_eq_tangent_pv01 (exp : α → α) (payReceive : Int)
    (notional fixed_rate : α) (fixed_tau fixed_t : List α) (float_spread : α)
    (float_tau float_t float_rates : List α) (zero_rate : α)
    (h0 : fixed_tau.length = fixed_t.length) (h1 : float_tau.length = float_t.length)
    (h2 : float_rates.length = float_t.length) :
    ∃ (a : AdjointOutput α) (t : TangentOutput α),
      swap_price_adjoint_mode exp payReceive notional fixed_rate fixed_tau fixed_t
          float_spread float_tau float_t float_rates zero_rate 1 = Except.ok a ∧
      swap_price_tangent_mode exp payReceive notional fixed_rate fixed_tau fixed_t
          float_spread float_tau float_t float_rates zero_rate
          (List.replicate float_rates.length 0.0001) 0 = Except.ok t ∧
      a.float_rates_bar = t.swap_pv_dot ∧
      a.float_rates_bar =
        ∑ j in Finset.range float_t.length,
          (notional * float_tau.getD j 0 * exp (-zero_rate * float_t.getD j 0)) *
            (-(payReceive : α) * 1) * 0.0001 := by
  obtain ⟨z, hz⟩ := swap_price_adjoint_mode_eq exp payReceive notional fixed_rate
    fixed_tau fixed_t float_spread float_tau float_t float_rates zero_rate 1 h0 h1 h2
  refine ⟨_, _, hz, swap_price_tangent_mode_eq exp payReceive notional fixed_rate
    fixed_tau fixed_t float_spread float_tau float_t float_rates zero_rate
    (List.replicate float_rates.length 0.0001) 0 h0 h1 h2 (by simp), ?_, ?_⟩
  · simp only [floatRatesBarSum, fixedLegDot, floatLegDot, mul_zero, add_zero,
      Finset.sum_const_zero, zero_sub, Int.cast_neg, mul_one, mul_neg, Finset.mul_sum,
      ← Finset.sum_neg_distrib]
    refine Finset.sum_congr rfl (fun j hj => ?_)
    rw [getD_replicate_of_lt (by rw [h2]; exact Finset.mem_range.mp hj)]
    ring
  · show floatRatesBarSum exp notional float_tau float_t zero_rate
        (((-payReceive : Int) : α) * 1) 0.0001 = _
    unfold floatRatesBarSum
    rw [Int.cast_neg]

/-- The statement of C6 at the swap built in `main`, over the reals. -/
theorem adjoint_pv01_eq_tangent_pv01_witness :
    ((main_fixed_tau ℝ).length = (main_fixed_t ℝ).length ∧
      (main_float_tau ℝ).length = (main_float_t ℝ).length ∧
      (main_float_rates ℝ).length = (main_float_t ℝ).length) ∧
    ∃ (a : AdjointOutput ℝ) (t : TangentOutput ℝ),
      swap_price_adjoint_mode Real.exp main_payReceive (main_notional ℝ)
          (main_fixed_rate ℝ) (main_fixed_tau ℝ) (main_fixed_t ℝ) (main_float_spread ℝ)
          (main_float_tau ℝ) (main_float_t ℝ) (main_float_rates ℝ) (main_zero_rate ℝ) 1 =
        Except.ok a ∧
      swap_price_tangent_mode Real.exp main_payReceive (main_notional ℝ)
          (main_fixed_rate ℝ) (main_fixed_tau ℝ) (main_fixed_t ℝ) (main_float_spread ℝ)
          (main_float_tau ℝ) (main_float_t ℝ) (main_float_rates ℝ) (main_zero_rate ℝ)
          (List.replicate (main_float_rates ℝ).length 0.0001) 0 = Except.ok t ∧
      a.float_rates_bar = t.swap_pv_dot ∧
      a.float_rates_bar =
        ∑ j in Finset.range (main_float_t ℝ).length,
          (main_notional ℝ * (main_float_tau ℝ).getD j 0 *
              Real.exp (-main_zero_rate ℝ * (main_float_t ℝ).getD j 0)) *
            (-(main_payReceive : ℝ) * 1) * 0.0001 :=
  ⟨⟨rfl, rfl, rfl⟩,
    adjoint_pv01_eq_tangent_pv01 Real.exp main_payReceive (main_notional ℝ)
      (main_fixed_rate ℝ) (main_fixed_tau ℝ) (main_fixed_t ℝ) (main_float_spread ℝ)
      (main_float_tau ℝ) (main_float_t ℝ) (main_float_rates ℝ) (main_zero_rate ℝ)
      rfl rfl rfl⟩

/-- C7: on every valid swap specification, the discount risk of
`swap_price_adjoint_mode` (`discount_factor_bar`) equals `swap_pv_bar` times the sum over
all fixed and float periods `k` of `c_k * Delta_df_k`, where
`Delta_df_k = exp (-(zero_rate + 0.0001) * t_k) - exp (-zero_rate * t_k)` and `c_k` is the
coefficient of the discount factor `df_k` in `swap_pv`
(`payReceive * notional * fixed_rate * fixed_tau[i]` for a fixed period,
`-payReceive * notional * (float_rates[j] + float_spread) * float_tau[j]` for a float
period; the fourth conjunct says that `swap_pv` is the sum of `c_k * df_k`, so `c_k` is
its partial derivative in `df_k`).  Equivalently it equals `swap_pv_bar` times the
`swap_pv` of `price_swap` at `zero_rate + 0.0001` minus the one at `zero_rate`. -/
theorem adjoint_discount_risk_eq (exp : α → α) (payReceive : Int)
    (notional fixed_rate : α) (fixed_tau fixed_t : List α) (float_spread : α)
    (float_tau float_t float_rates : List α) (zero_rate swap_pv_bar : α)
    (h0 : fixed_tau.length = fixed_t.length) (h1 : float_tau.length = float_t.length)
    (h2 : float_rates.length = float_t.length) :
    ∃ (a : AdjointOutput α) (r0 r1 : PriceOutput α),
      swap_price_adjoint_mode exp payReceive notional fixed_rate fixed_tau fixed_t
          float_spread float_tau float_t float_rates zero_rate swap_pv_bar =
        Except.ok a ∧
      price_swap exp payReceive notional fixed_rate fixed_tau fixed_t float_spread
          float_tau float_t float_rates zero_rate = Except.ok r0 ∧
      price_swap exp payReceive notional fixed_rate fixed_tau fixed_t float_spread
          float_tau float_t float_rates (zero_rate + 0.0001) = Except.ok r1 ∧
      r0.swap_pv =
        (∑ i in Finset.range fixed_t.length,
            ((payReceive : α) * notional * fixed_rate * fixed_tau.getD i 0) *
              exp (-zero_rate * fixed_t.getD i 0)) +
          (∑ j in Finset.range float_t.length,
            (-(payReceive : α) * notional * (float_rates.getD j 0 + float_spread) *
                float_tau.getD j 0) *
              exp (-zero_rate * float_t.getD j 0)) ∧
      a.discount_factor_bar = swap_pv_bar *
        ((∑ i in Finset.range fixed_t.length,
            ((payReceive : α) * notional * fixed_rate * fixed_tau.getD i 0) *
              (exp (-(zero_rate + 0.0001) * fixed_t.getD i 0) -
                exp (-zero_rate * fixed_t.getD i 0))) +
          (∑ j in Finset.range float_t.length,
            (-(payReceive : α) * notional * (float_rates.getD j 0 + float_spread) *
                float_tau.getD j 0) *
              (exp (-(zero_rate + 0.0001) * float_t.getD j 0) -
                exp (-zero_rate * float_t.getD j 0)))) ∧
      a.discount_factor_bar = swap_pv_bar * (r1.swap_pv - r0.swap_pv) := by
  obtain ⟨z, hz⟩ := swap_price_adjoint_mode_eq exp payReceive notional fixed_rate
    fixed_tau fixed_t float_spread float_tau float_t float_rates zero_rate swap_pv_bar
    h0 h1 h2
  refine ⟨_, _, _, hz,
    price_swap_eq exp payReceive notional fixed_rate fixed_tau fixed_t float_spread
      float_tau float_t float_rates zero_rate h0 h1 h2,
    price_swap_eq exp payReceive notional fixed_rate fixed_tau fixed_t float_spread
      float_tau float_t float_rates (zero_rate + 0.0001) h0 h1 h2, ?_, ?_, ?_⟩
  · exact swapPV_eq_coeff_sum exp payReceive notional fixed_rate fixed_tau fixed_t
      float_spread float_tau float_t float_rates zero_rate
  · show floatDiscountBarSum _ _ _ _ _ _ _ _ _ + fixedDiscountBarSum _ _ _ _ _ _ _ _ = _
    unfold floatDiscountBarSum fixedDiscountBarSum
    rw [mul_add, Finset.mul_sum, Finset.mul_sum, add_comm, Int.cast_neg]
    congr 1
    · exact Finset.sum_congr rfl (fun i _ => by ring)
    · exact Finset.sum_congr rfl (fun i _ => by ring)
  · show floatDiscountBarSum _ _ _ _ _ _ _ _ _ + fixedDiscountBarSum _ _ _ _ _ _ _ _ =
      swap_pv_bar * (swapPV _ _ _ _ _ _ _ _ _ _ _ - swapPV _ _ _ _ _ _ _ _ _ _ _)
    rw [swapPV_eq_coeff_sum, swapPV_eq_coeff_sum]
    unfold floatDiscountBarSum fixedDiscountBarSum
    simp only [mul_sub, Finset.sum_sub_distrib, Int.cast_neg, mul_add, Finset.mul_sum]
    have e1 : ∀ (u v : α), u = v → ∀ (w x : α), w = x → u + w = v + x := by
      intro u v h w x h'; rw [h, h']
    have e2 : ∀ (A B C D : α), (A - B) + (C - D) = (C + A) - (D + B) := by
      intro A B C D; ring
    rw [e2]
    congr 1
    · apply e1
      · exact Finset.sum_congr rfl (fun i _ => by ring)
      · exact Finset.sum_congr rfl (fun i _ => by ring)
    · apply e1
      · exact Finset.sum_congr rfl (fun i _ => by ring)
      · exact Finset.sum_congr rfl (fun i _ => by ring)

end ClaimsRisk

section ClaimsTangent

variable {α : Type} [Field α]

/-- The statement of C7 at the swap built in `main` with `swap_pv_bar = 1`, over the
reals (the equality with the repriced difference). -/
theorem adjoint_discount_risk_eq_witness :
    ((main_fixed_tau ℝ).length = (main_fixed_t ℝ).length ∧
      (main_float_tau ℝ).length = (main_float_t ℝ).length ∧
      (main_float_rates ℝ).length = (main_float_t ℝ).length) ∧
    ∃ (a : AdjointOutput ℝ) (r0 r1 : PriceOutput ℝ),
      swap_price_adjoint_mode Real.exp main_payReceive (main_notional ℝ)
          (main_fixed_rate ℝ) (main_fixed_tau ℝ) (main_fixed_t ℝ) (main_float_spread ℝ)
          (main_float_tau ℝ) (main_float_t ℝ) (main_float_rates ℝ) (main_zero_rate ℝ)
          (main_swap_pv_bar ℝ) = Except.ok a ∧
      price_swap Real.exp main_payReceive (main_notional ℝ) (main_fixed_rate ℝ)
          (main_fixed_tau ℝ) (main_fixed_t ℝ) (main_float_spread ℝ) (main_float_tau ℝ)
          (main_float_t ℝ) (main_float_rates ℝ) (main_zero_rate ℝ) = Except.ok r0 ∧
      price_swap Real.exp main_payReceive (main_notional ℝ) (main_fixed_rate ℝ)
          (main_fixed_tau ℝ) (main_fixed_t ℝ) (main_float_spread ℝ) (main_float_tau ℝ)
          (main_float_t ℝ) (main_float_rates ℝ) (main_zero_rate ℝ + 0.0001) =
        Except.ok r1 ∧
      a.discount_factor_bar = main_swap_pv_bar ℝ * (r1.swap_pv - r0.swap_pv) := by
  refine ⟨⟨rfl, rfl, rfl⟩, ?_⟩
  obtain ⟨a, r0, r1, ha, h0, h1, -, -, h⟩ :=
    adjoint_discount_risk_eq Real.exp main_payReceive (main_notional ℝ)
      (main_fixed_rate ℝ) (main_fixed_tau ℝ) (main_fixed_t ℝ) (main_float_spread ℝ)
      (main_float_tau ℝ) (main_float_t ℝ) (main_float_rates ℝ) (main_zero_rate ℝ)
      (main_swap_pv_bar ℝ) rfl rfl rfl
  exact ⟨a, r0, r1, ha, h0, h1, h⟩

/-- C8: on every valid swap specification, for all scalars `a`, `b` and all risk vectors
`(v1, z1)`, `(v2, z2)` of matching length, the tangent risk value for the combined risk
vector `(a*v1 + b*v2, a*z1 + b*z2)` equals `a` times the risk value for `(v1, z1)` plus
`b` times the risk value for `(v2, z2)`; all three calls produce a result. -/
theorem tangent_linear (exp : α → α) (payReceive : Int)
    (notional fixed_rate : α) (fixed_tau fixed_t : List α) (float_spread : α)
    (float_tau float_t float_rates : List α) (zero_rate : α)
    (a b : α) (v1 v2 : List α) (z1 z2 : α)
    (h0 : fixed_tau.length = fixed_t.length) (h1 : float_tau.length = float_t.length)
    (h2 : float_rates.length = float_t.length)
    (hv1 : v1.length = float_rates.length) (hv2 : v2.length = float_rates.length) :
    ∃ (r1 r2 r : TangentOutput α),
      swap_price_tangent_mode exp payReceive notional fixed_rate fixed_tau fixed_t
          float_spread float_tau float_t float_rates zero_rate v1 z1 = Except.ok r1 ∧
      swap_price_tangent_mode exp payReceive notional fixed_rate fixed_tau fixed_t
          float_spread float_tau float_t float_rates zero_rate v2 z2 = Except.ok r2 ∧
      swap_price_tangent_mode exp payReceive notional fixed_rate fixed_tau fixed_t
          float_spread float_tau float_t float_rates zero_rate (combineDots a b v1 v2)
          (a * z1 + b * z2) = Except.ok r ∧
      r.swap_pv_dot = a * r1.swap_pv_dot + b * r2.swap_pv_dot := by
  have hlen : (combineDots a b v1 v2).length = float_rates.length := by
    simp [combineDots, hv1, hv2]
  refine ⟨_, _, _,
    swap_price_tangent_mode_eq exp payReceive notional fixed_rate fixed_tau fixed_t
      float_spread float_tau float_t float_rates zero_rate v1 z1 h0 h1 h2 hv1,
    swap_price_tangent_mode_eq exp payReceive notional fixed_rate fixed_tau fixed_t
      float_spread float_tau float_t float_rates zero_rate v2 z2 h0 h1 h2 hv2,
    swap_price_tangent_mode_eq exp payReceive notional fixed_rate fixed_tau fixed_t
      float_spread float_tau float_t float_rates zero_rate (combineDots a b v1 v2)
      (a * z1 + b * z2) h0 h1 h2 hlen, ?_⟩
  have hfix : fixedLegDot exp notional fixed_rate fixed_tau fixed_t zero_rate
        (a * z1 + b * z2) =
      a * fixedLegDot exp notional fixed_rate fixed_tau fixed_t zero_rate z1 +
        b * fixedLegDot exp notional fixed_rate fixed_tau fixed_t zero_rate z2 := by
    unfold fixedLegDot
    rw [Finset.mul_sum, Finset.mul_sum, ← Finset.sum_add_distrib]
    exact Finset.sum_congr rfl (fun i _ => by ring)
  have hflt : floatLegDot exp notional float_spread float_tau float_t float_rates
        zero_rate (combineDots a b v1 v2) (a * z1 + b * z2) =
      a * floatLegDot exp notional float_spread float_tau float_t float_rates zero_rate
          v1 z1 +
        b * floatLegDot exp notional float_spread float_tau float_t float_rates zero_rate
          v2 z2 := by
    unfold floatLegDot
    rw [Finset.mul_sum, Finset.mul_sum, ← Finset.sum_add_distrib]
    refine Finset.sum_congr rfl (fun j hj => ?_)
    have hj0 : j < float_t.length := Finset.mem_range.mp hj
    rw [combineDots, getD_zipWith_of_lt _ (by omega) (by omega)]
    ring
  show (payReceive : α) * (_ - _) = a * ((payReceive : α) * (_ - _)) +
    b * ((payReceive : α) * (_ - _))
  rw [hfix, hflt]
  ring

/-- The statement of C8 at the swap built in `main`, over the reals, combining the
forward scenario `(all_f_dot, 0)` and the discount scenario `(no_f_dot, zero_rate_dot)`
with `a = b = 1`. -/
theorem tangent_linear_witness :
    ((main_fixed_tau ℝ).length = (main_fixed_t ℝ).length ∧
      (main_float_tau ℝ).length = (main_float_t ℝ).length ∧
      (main_float_rates ℝ).length = (main_float_t ℝ).length ∧
      (main_all_f_dot ℝ).length = (main_float_rates ℝ).length ∧
      (main_no_f_dot ℝ).length = (main_float_rates ℝ).length) ∧
    ∃ (r1 r2 r : TangentOutput ℝ),
      swap_price_tangent_mode Real.exp main_payReceive (main_notional ℝ)
          (main_fixed_rate ℝ) (main_fixed_tau ℝ) (main_fixed_t ℝ) (main_float_spread ℝ)
          (main_float_tau ℝ) (main_float_t ℝ) (main_float_rates ℝ) (main_zero_rate ℝ)
          (main_all_f_dot ℝ) (main_no_zero_rate_dot ℝ) = Except.ok r1 ∧
      swap_price_tangent_mode Real.exp main_payReceive (main_notional ℝ)
          (main_fixed_rate ℝ) (main_fixed_tau ℝ) (main_fixed_t ℝ) (main_float_spread ℝ)
          (main_float_tau ℝ) (main_float_t ℝ) (main_float_rates ℝ) (main_zero_rate ℝ)
          (main_no_f_dot ℝ) (main_zero_rate_dot ℝ) = Except.ok r2 ∧
      swap_price_tangent_mode Real.exp main_payReceive (main_notional ℝ)
          (main_fixed_rate ℝ) (main_fixed_tau ℝ) (main_fixed_t ℝ) (main_float_spread ℝ)
          (main_float_tau ℝ) (main_float_t ℝ) (main_float_rates ℝ) (main_zero_rate ℝ)
          (combineDots 1 1 (main_all_f_dot ℝ) (main_no_f_dot ℝ))
          (1 * main_no_zero_rate_dot ℝ + 1 * main_zero_rate_dot ℝ) = Except.ok r ∧
      r.swap_pv_dot = 1 * r1.swap_pv_dot + 1 * r2.swap_pv_dot :=
  ⟨⟨rfl, rfl, rfl, rfl, rfl⟩,
    tangent_linear Real.exp main_payReceive (main_notional ℝ) (main_fixed_rate ℝ)
      (main_fixed_tau ℝ) (main_fixed_t ℝ) (main_float_spread ℝ) (main_float_tau ℝ)
      (main_float_t ℝ) (main_float_rates ℝ) (main_zero_rate ℝ) 1 1 (main_all_f_dot ℝ)
      (main_no_f_dot ℝ) (main_no_zero_rate_dot ℝ) (main_zero_rate_dot ℝ)
      rfl rfl rfl rfl rfl⟩

/-- C9: on every valid swap specification, `swap_price_tangent_mode` called with every
forward-rate dot `0` and `zero_rate_dot = 0` produces a result whose risk value is
exactly `0`. -/
theorem tangent_zero_risk (exp : α → α) (payReceive : Int)
    (notional fixed_rate : α) (fixed_tau fixed_t : List α) (float_spread : α)
    (float_tau float_t float_rates : List α) (zero_rate : α)
    (h0 : fixed_tau.length = fixed_t.length) (h1 : float_tau.length = float_t.length)
    (h2 : float_rates.length = float_t.length) :
    ∃ r : TangentOutput α,
      swap_price_tangent_mode exp payReceive notional fixed_rate fixed_tau fixed_t
          float_spread float_tau float_t float_rates zero_rate
          (List.replicate float_rates.length 0) 0 = Except.ok r ∧
      r.swap_pv_dot = 0 := by
  refine ⟨_, swap_price_tangent_mode_eq exp payReceive notional fixed_rate fixed_tau
    fixed_t float_spread float_tau float_t float_rates zero_rate
    (List.replicate float_rates.length 0) 0 h0 h1 h2 (by simp), ?_⟩
  have hfix : fixedLegDot exp notional fixed_rate fixed_tau fixed_t zero_rate 0 = 0 := by
    unfold fixedLegDot
    exact Finset.sum_eq_zero (fun i _ => by ring)
  have hflt : floatLegDot exp notional float_spread float_tau float_t float_rates
      zero_rate (List.replicate float_rates.length 0) 0 = 0 := by
    unfold floatLegDot
    refine Finset.sum_eq_zero (fun j hj => ?_)
    rw [getD_replicate_of_lt (by rw [h2]; exact Finset.mem_range.mp hj)]
    ring
  show (payReceive : α) * (_ - _) = 0
  rw [hfix, hflt]
  ring

/-- The statement of C9 at the swap built in `main`, over the reals. -/
theorem tangent_zero_risk_witness :
    ((main_fixed_tau ℝ).length = (main_fixed_t ℝ).length ∧
      (main_float_tau ℝ).length = (main_float_t ℝ).length ∧
      (main_float_rates ℝ).length = (main_float_t ℝ).length) ∧
    ∃ r : TangentOutput ℝ,
      swap_price_tangent_mode Real.exp main_payReceive (main_notional ℝ)
          (main_fixed_rate ℝ) (main_fixed_tau ℝ) (main_fixed_t ℝ) (main_float_spread ℝ)
          (main_float_tau ℝ) (main_float_t ℝ) (main_float_rates ℝ) (main_zero_rate ℝ)
          (List.replicate (main_float_rates ℝ).length 0) 0 = Except.ok r ∧
      r.swap_pv_dot = 0 :=
  ⟨⟨rfl, rfl, rfl⟩,
    tangent_zero_risk Real.exp main_payReceive (main_notional ℝ) (main_fixed_rate ℝ)
      (main_fixed_tau ℝ) (main_fixed_t ℝ) (main_float_spread ℝ) (main_float_tau ℝ)
      (main_float_t ℝ) (main_float_rates ℝ) (main_zero_rate ℝ) rfl rfl rfl⟩

end ClaimsTangent

/-! ## The numbers of the swap built in `main` -/

section Numerics

/-- Rational enclosure of `exp (-0.015)`, the one-year discount factor of `main`. -/
theorem exp_neg_015_bounds :
    (0.98511193960306 : ℝ) ≤ Real.exp (-0.015) ∧
      Real.exp (-0.015) ≤ (0.98511193960307 : ℝ) := by
  have h := Real.exp_bound (x := (-0.015 : ℝ)) (by rw [abs_le]; constructor <;> norm_num)
    (n := 7) (by norm_num)
  rw [abs_le] at h
  simp only [Finset.sum_range_succ, Finset.sum_range_zero, Nat.factorial, abs_neg] at h
  rw [abs_of_pos (by norm_num : (0:ℝ) < 0.015)] at h
  norm_num at h
  constructor <;> linarith [h.1, h.2]

/-- Rational enclosure of `exp (-0.0151)`, the shifted one-year discount factor. -/
theorem exp_neg_0151_bounds :
    (0.98501343333449 : ℝ) ≤ Real.exp (-0.0151) ∧
      Real.exp (-0.0151) ≤ (0.98501343333450 : ℝ) := by
  have h := Real.exp_bound (x := (-0.0151 : ℝ)) (by rw [abs_le]; constructor <;> norm_num)
    (n := 7) (by norm_num)
  rw [abs_le] at h
  simp only [Finset.sum_range_succ, Finset.sum_range_zero, Nat.factorial, abs_neg] at h
  rw [abs_of_pos (by norm_num : (0:ℝ) < 0.0151)] at h
  norm_num at h
  constructor <;> linarith [h.1, h.2]

/-- Enclosure of `x + x^2 + x^3 + x^4 + x^5` from an enclosure of `x ≥ 0`. -/
theorem annuity_enclosure {x lo hi : ℝ} (h0 : 0 ≤ lo) (h1 : lo ≤ x) (h2 : x ≤ hi) :
    lo + lo ^ 2 + lo ^ 3 + lo ^ 4 + lo ^ 5 ≤ x + x ^ 2 + x ^ 3 + x ^ 4 + x ^ 5 ∧
      x + x ^ 2 + x ^ 3 + x ^ 4 + x ^ 5 ≤ hi + hi ^ 2 + hi ^ 3 + hi ^ 4 + hi ^ 5 := by
  have hx : 0 ≤ x := le_trans h0 h1
  constructor
  · linarith [pow_le_pow_left₀ h0 h1 2, pow_le_pow_left₀ h0 h1 3, pow_le_pow_left₀ h0 h1 4,
      pow_le_pow_left₀ h0 h1 5]
  · linarith [pow_le_pow_left₀ hx h2 2, pow_le_pow_left₀ hx h2 3, pow_le_pow_left₀ hx h2 4,
      pow_le_pow_left₀ hx h2 5]

/-- Enclosure of `x + 2 x^2 + 3 x^3 + 4 x^4 + 5 x^5` from an enclosure of `x ≥ 0`. -/
theorem weighted_annuity_enclosure {x lo hi : ℝ} (h0 : 0 ≤ lo) (h1 : lo ≤ x)
    (h2 : x ≤ hi) :
    lo + 2 * lo ^ 2 + 3 * lo ^ 3 + 4 * lo ^ 4 + 5 * lo ^ 5 ≤
        x + 2 * x ^ 2 + 3 * x ^ 3 + 4 * x ^ 4 + 5 * x ^ 5 ∧
      x + 2 * x ^ 2 + 3 * x ^ 3 + 4 * x ^ 4 + 5 * x ^ 5 ≤
        hi + 2 * hi ^ 2 + 3 * hi ^ 3 + 4 * hi ^ 4 + 5 * hi ^ 5 := by
  have hx : 0 ≤ x := le_trans h0 h1
  constructor
  · linarith [pow_le_pow_left₀ h0 h1 2, pow_le_pow_left₀ h0 h1 3, pow_le_pow_left₀ h0 h1 4,
      pow_le_pow_left₀ h0 h1 5]
  · linarith [pow_le_pow_left₀ hx h2 2, pow_le_pow_left₀ hx h2 3, pow_le_pow_left₀ hx h2 4,
      pow_le_pow_left₀ hx h2 5]

/-- The sum of the five discount factors of `main`. -/
theorem main_annuity_bounds :
    (4.7810629748974 : ℝ) ≤ Real.exp (-0.015) + Real.exp (-0.015) ^ 2 +
        Real.exp (-0.015) ^ 3 + Real.exp (-0.015) ^ 4 + Real.exp (-0.015) ^ 5 ∧
      Real.exp (-0.015) + Real.exp (-0.015) ^ 2 + Real.exp (-0.015) ^ 3 +
        Real.exp (-0.015) ^ 4 + Real.exp (-0.015) ^ 5 ≤ (4.7810629748976 : ℝ) := by
  have h := annuity_enclosure (by norm_num) exp_neg_015_bounds.1 exp_neg_015_bounds.2
  constructor
  · refine le_trans ?_ h.1; norm_num
  · refine le_trans h.2 ?_; norm_num

/-- The sum of the five shifted discount factors of `main`. -/
theorem main_shifted_annuity_bounds :
    (4.7796432564238 : ℝ) ≤ Real.exp (-0.0151) + Real.exp (-0.0151) ^ 2 +
        Real.exp (-0.0151) ^ 3 + Real.exp (-0.0151) ^ 4 + Real.exp (-0.0151) ^ 5 ∧
      Real.exp (-0.0151) + Real.exp (-0.0151) ^ 2 + Real.exp (-0.0151) ^ 3 +
        Real.exp (-0.0151) ^ 4 + Real.exp (-0.0151) ^ 5 ≤ (4.7796432564241 : ℝ) := by
  have h := annuity_enclosure (by norm_num) exp_neg_0151_bounds.1 exp_neg_0151_bounds.2
  constructor
  · refine le_trans ?_ h.1; norm_num
  · refine le_trans h.2 ?_; norm_num

/-- The time-weighted sum of the five discount factors of `main`. -/
theorem main_weighted_annuity_bounds :
    (14.199771018178 : ℝ) ≤ Real.exp (-0.015) + 2 * Real.exp (-0.015) ^ 2 +
        3 * Real.exp (-0.015) ^ 3 + 4 * Real.exp (-0.015) ^ 4 +
        5 * Real.exp (-0.015) ^ 5 ∧
      Real.exp (-0.015) + 2 * Real.exp (-0.015) ^ 2 + 3 * Real.exp (-0.015) ^ 3 +
        4 * Real.exp (-0.015) ^ 4 + 5 * Real.exp (-0.015) ^ 5 ≤ (14.199771018180 : ℝ) := by
  have h := weighted_annuity_enclosure (by norm_num) exp_neg_015_bounds.1
    exp_neg_015_bounds.2
  constructor
  · refine le_trans ?_ h.1; norm_num
  · refine le_trans h.2 ?_; norm_num

/-- The discount factor of `main` for year `k` is the `k`-th power of the one-year
discount factor. -/
theorem main_df_pow (k : ℕ) :
    Real.exp (-(0.015 : ℝ) * (k : ℝ)) = Real.exp (-0.015) ^ k := by
  rw [← Real.exp_nat_mul]; congr 1; ring

/-- The shifted discount factor of `main` for year `k`. -/
theorem main_shifted_df_pow (k : ℕ) :
    Real.exp (-((0.015 : ℝ) + 0.0001) * (k : ℝ)) = Real.exp (-0.0151) ^ k := by
  rw [← Real.exp_nat_mul]; congr 1; ring

end Numerics

section MainValues

/-- The discount factors that occur when the functions run on the swap of `main`. -/
theorem main_df_values :
    Real.exp (-(0.015 : ℝ) * 1.0) = Real.exp (-0.015) ∧
    Real.exp (-(0.015 : ℝ) * 2.0) = Real.exp (-0.015) ^ 2 ∧
    Real.exp (-(0.015 : ℝ) * 3.0) = Real.exp (-0.015) ^ 3 ∧
    Real.exp (-(0.015 : ℝ) * 4.0) = Real.exp (-0.015) ^ 4 ∧
    Real.exp (-(0.015 : ℝ) * 5.0) = Real.exp (-0.015) ^ 5 := by
  have h1 := main_df_pow 1
  have h2 := main_df_pow 2
  have h3 := main_df_pow 3
  have h4 := main_df_pow 4
  have h5 := main_df_pow 5
  norm_num at h1 h2 h3 h4 h5 ⊢
  exact ⟨h2, h3, h4, h5⟩

/-- The shifted discount factors that occur when `swap_price_adjoint_mode` runs on the
swap of `main`. -/
theorem main_shifted_df_values :
    Real.exp (-((0.015 : ℝ) + 0.0001) * 1.0) = Real.exp (-0.0151) ∧
    Real.exp (-((0.015 : ℝ) + 0.0001) * 2.0) = Real.exp (-0.0151) ^ 2 ∧
    Real.exp (-((0.015 : ℝ) + 0.0001) * 3.0) = Real.exp (-0.0151) ^ 3 ∧
    Real.exp (-((0.015 : ℝ) + 0.0001) * 4.0) = Real.exp (-0.0151) ^ 4 ∧
    Real.exp (-((0.015 : ℝ) + 0.0001) * 5.0) = Real.exp (-0.0151) ^ 5 := by
  have h1 := main_shifted_df_pow 1
  have h2 := main_shifted_df_pow 2
  have h3 := main_shifted_df_pow 3
  have h4 := main_shifted_df_pow 4
  have h5 := main_shifted_df_pow 5
  norm_num at h1 h2 h3 h4 h5 ⊢
  exact ⟨h2, h3, h4, h5⟩

/-- The numbers `price_swap` prints for the swap of `main`, in terms of the one-year
discount factor. -/
theorem main_price_swap_value :
    ∃ r : PriceOutput ℝ, main_price_swap ℝ Real.exp = Except.ok r ∧
      r.swap_pv = 40000 * (Real.exp (-0.015) + Real.exp (-0.015) ^ 2 +
        Real.exp (-0.015) ^ 3 + Real.exp (-0.015) ^ 4 + Real.exp (-0.015) ^ 5) ∧
      r.pv01 = -100 * (Real.exp (-0.015) + Real.exp (-0.015) ^ 2 +
        Real.exp (-0.015) ^ 3 + Real.exp (-0.015) ^ 4 + Real.exp (-0.015) ^ 5) := by
  obtain ⟨e1, e2, e3, e4, e5⟩ := main_df_values
  refine ⟨_, price_swap_eq Real.exp _ _ _ _ _ _ _ _ _ _ rfl rfl rfl, ?_, ?_⟩
  · simp only [swapPV, fixedLegPV, floatLegPV, main_payReceive, main_notional,
      main_fixed_rate, main_fixed_tau, main_fixed_t, main_float_spread, main_float_tau,
      main_float_t, main_float_rates, main_zero_rate, List.length_cons, List.length_nil,
      Finset.sum_range_succ, Finset.sum_range_zero, List.getD_cons_zero,
      List.getD_cons_succ]
    rw [e1, e2, e3, e4, e5]
    norm_num
    ring
  · simp only [fixedAnnuity, main_payReceive, main_notional, main_fixed_tau, main_fixed_t,
      main_zero_rate, List.length_cons, List.length_nil, Finset.sum_range_succ,
      Finset.sum_range_zero, List.getD_cons_zero, List.getD_cons_succ]
    rw [e1, e2, e3, e4, e5]
    norm_num
    ring

/-- The risk value of the DV01 scenario of `main` in tangent mode. -/
theorem main_tangent_dv01_value :
    ∃ r : TangentOutput ℝ, main_tangent_dv01 ℝ Real.exp = Except.ok r ∧
      r.swap_pv_dot =
        -100 * (Real.exp (-0.015) + Real.exp (-0.015) ^ 2 + Real.exp (-0.015) ^ 3 +
            Real.exp (-0.015) ^ 4 + Real.exp (-0.015) ^ 5) -
          4 * (Real.exp (-0.015) + 2 * Real.exp (-0.015) ^ 2 +
            3 * Real.exp (-0.015) ^ 3 + 4 * Real.exp (-0.015) ^ 4 +
            5 * Real.exp (-0.015) ^ 5) := by
  obtain ⟨e1, e2, e3, e4, e5⟩ := main_df_values
  refine ⟨_, swap_price_tangent_mode_eq Real.exp _ _ _ _ _ _ _ _ _ _ _ _ rfl rfl rfl rfl,
    ?_⟩
  simp only [fixedLegDot, floatLegDot, main_payReceive, main_notional,
    main_fixed_rate, main_fixed_tau, main_fixed_t, main_float_spread, main_float_tau,
    main_float_t, main_float_rates, main_zero_rate, main_all_f_dot, main_zero_rate_dot,
    List.length_cons, List.length_nil,
    Finset.sum_range_succ, Finset.sum_range_zero, List.getD_cons_zero,
    List.getD_cons_succ]
  rw [e1, e2, e3, e4, e5]
  norm_num
  ring

/-- The risk numbers `swap_price_adjoint_mode` prints for the swap of `main`. -/
theorem main_adjoint_value :
    ∃ r : AdjointOutput ℝ, main_adjoint ℝ Real.exp = Except.ok r ∧
      r.float_rates_bar =
        -100 * (Real.exp (-0.015) + Real.exp (-0.015) ^ 2 + Real.exp (-0.015) ^ 3 +
          Real.exp (-0.015) ^ 4 + Real.exp (-0.015) ^ 5) ∧
      r.discount_factor_bar =
        40000 * ((Real.exp (-0.0151) + Real.exp (-0.0151) ^ 2 + Real.exp (-0.0151) ^ 3 +
            Real.exp (-0.0151) ^ 4 + Real.exp (-0.0151) ^ 5) -
          (Real.exp (-0.015) + Real.exp (-0.015) ^ 2 + Real.exp (-0.015) ^ 3 +
            Real.exp (-0.015) ^ 4 + Real.exp (-0.015) ^ 5)) ∧
      r.dv01 = r.float_rates_bar + r.discount_factor_bar := by
  obtain ⟨e1, e2, e3, e4, e5⟩ := main_df_values
  obtain ⟨s1, s2, s3, s4, s5⟩ := main_shifted_df_values
  obtain ⟨z, hz⟩ := swap_price_adjoint_mode_eq Real.exp main_payReceive (main_notional ℝ)
    (main_fixed_rate ℝ) (main_fixed_tau ℝ) (main_fixed_t ℝ) (main_float_spread ℝ)
    (main_float_tau ℝ) (main_float_t ℝ) (main_float_rates ℝ) (main_zero_rate ℝ)
    (main_swap_pv_bar ℝ) rfl rfl rfl
  refine ⟨_, hz, ?_, ?_, rfl⟩
  · simp only [floatRatesBarSum, main_payReceive, main_notional, main_float_tau,
      main_float_t, main_zero_rate, main_swap_pv_bar, List.length_cons, List.length_nil,
      Finset.sum_range_succ, Finset.sum_range_zero, List.getD_cons_zero,
      List.getD_cons_succ]
    rw [e1, e2, e3, e4, e5]
    norm_num
    ring
  · simp only [floatDiscountBarSum, fixedDiscountBarSum, main_payReceive, main_notional,
      main_fixed_rate, main_fixed_tau, main_fixed_t, main_float_spread, main_float_tau,
      main_float_t, main_float_rates, main_zero_rate, main_swap_pv_bar, List.length_cons,
      List.length_nil, Finset.sum_range_succ, Finset.sum_range_zero, List.getD_cons_zero,
      List.getD_cons_succ]
    rw [e1, e2, e3, e4, e5, s1, s2, s3, s4, s5]
    norm_num
    ring

end MainValues

section ClaimsNumeric

/-- C10 (counterexample): for the swap of `main`, the `swap_pv` computed by `price_swap`
does not lie within 0.005 of 170745.77. -/
theorem main_swap_pv_not_170745_77 :
    ∃ r : PriceOutput ℝ, main_price_swap ℝ Real.exp = Except.ok r ∧
      ¬ (|r.swap_pv - 170745.77| ≤ 0.005) := by
  obtain ⟨r, hr, hpv, -⟩ := main_price_swap_value
  refine ⟨r, hr, ?_⟩
  have hS := main_annuity_bounds
  intro h
  rw [abs_le] at h
  rw [hpv] at h
  linarith [h.2, hS.1]

/-- C10 (amended): for the swap of `main` (payReceive = 1, notional = 1,000,000,
fixed_rate = 0.05, five annual periods with accrual 1.0 and times 1..5 on both legs,
float_spread = 0, all forward rates 0.01, zero_rate = 0.015), `price_swap` produces a
result and its `swap_pv` lies within 0.005 of 191242.52. -/
theorem main_swap_pv_rounds_to_191242_52 :
    ∃ r : PriceOutput ℝ, main_price_swap ℝ Real.exp = Except.ok r ∧
      |r.swap_pv - 191242.52| ≤ 0.005 := by
  obtain ⟨r, hr, hpv, -⟩ := main_price_swap_value
  refine ⟨r, hr, ?_⟩
  have hS := main_annuity_bounds
  rw [abs_le, hpv]
  constructor <;> linarith [hS.1, hS.2]

/-- C3 (counterexample): for the swap of `main`, the DV01 of
`swap_price_adjoint_mode` with `swap_pv_bar = 1` and the risk value of
`swap_price_tangent_mode` with every forward dot `0.0001` and `zero_rate_dot = 0.0001`
differ by more than `1e-6` times the magnitude of either of them.  Moreover there is a
valid one-period swap on which the tangent risk value is `0` while the adjoint DV01 is
not, so that no relative tolerance holds for every valid specification. -/
theorem main_dv01_relative_error_exceeds_1e_6 :
    (∃ (a : AdjointOutput ℝ) (t : TangentOutput ℝ),
      main_adjoint ℝ Real.exp = Except.ok a ∧
      main_tangent_dv01 ℝ Real.exp = Except.ok t ∧
      ¬ (|a.dv01 - t.swap_pv_dot| ≤ 0.000001 * |t.swap_pv_dot|) ∧
      ¬ (|a.dv01 - t.swap_pv_dot| ≤ 0.000001 * |a.dv01|)) ∧
    (∃ (a : AdjointOutput ℝ) (t : TangentOutput ℝ),
      swap_price_adjoint_mode Real.exp 1 1 0 [] [] 0 [1] [1] [1] 0 1 = Except.ok a ∧
      swap_price_tangent_mode Real.exp 1 1 0 [] [] 0 [1] [1] [1] 0 [0.0001] 0.0001 =
        Except.ok t ∧
      t.swap_pv_dot = 0 ∧ a.dv01 ≠ 0) := by
  constructor
  · obtain ⟨a, ha, hf, hd, hdv⟩ := main_adjoint_value
    obtain ⟨t, ht, hdot⟩ := main_tangent_dv01_value
    refine ⟨a, t, ha, ht, ?_, ?_⟩
    · have hS := main_annuity_bounds
      have hW := main_shifted_annuity_bounds
      have hT := main_weighted_annuity_bounds
      intro h
      have h1 : a.dv01 - t.swap_pv_dot ≤ |a.dv01 - t.swap_pv_dot| := le_abs_self _
      have h2 : |t.swap_pv_dot| ≤ 600 := by
        rw [abs_le, hdot]; constructor <;> linarith [hS.1, hS.2, hT.1, hT.2]
      have h3 : 0.0103 ≤ a.dv01 - t.swap_pv_dot := by
        rw [hdv, hf, hd, hdot]; linarith [hS.1, hS.2, hT.1, hT.2, hW.1, hW.2]
      linarith
    · have hS := main_annuity_bounds
      have hW := main_shifted_annuity_bounds
      have hT := main_weighted_annuity_bounds
      intro h
      have h1 : a.dv01 - t.swap_pv_dot ≤ |a.dv01 - t.swap_pv_dot| := le_abs_self _
      have h2 : |a.dv01| ≤ 600 := by
        rw [abs_le, hdv, hf, hd]; constructor <;> linarith [hS.1, hS.2, hW.1, hW.2]
      have h3 : 0.0103 ≤ a.dv01 - t.swap_pv_dot := by
        rw [hdv, hf, hd, hdot]; linarith [hS.1, hS.2, hT.1, hT.2, hW.1, hW.2]
      linarith
  · obtain ⟨z, hz⟩ := swap_price_adjoint_mode_eq Real.exp 1 (1 : ℝ) 0 [] [] 0 [1] [1] [1]
      0 1 rfl rfl rfl
    refine ⟨_, _, hz,
      swap_price_tangent_mode_eq Real.exp 1 (1 : ℝ) 0 [] [] 0 [1] [1] [1] 0 [0.0001] 0.0001
        rfl rfl rfl rfl, ?_, ?_⟩
    · simp [fixedLegDot, floatLegDot]
    · have h := Real.add_one_lt_exp (x := (-0.0001 : ℝ)) (by norm_num)
      simp only [floatRatesBarSum, floatDiscountBarSum, fixedDiscountBarSum,
        List.length_cons, List.length_nil, Finset.sum_range_succ, Finset.sum_range_zero,
        List.getD_cons_zero]
      norm_num
      intro h'
      linarith

/-- C3 (amended): for the swap of `main`, `swap_price_adjoint_mode` with
`swap_pv_bar = 1` and `swap_price_tangent_mode` with every forward dot `0.0001` and
`zero_rate_dot = 0.0001` both produce a result, and the adjoint DV01
(`float_rates_bar + discount_factor_bar`) equals the tangent risk value within a
relative error of `2e-5`. -/
theorem main_dv01_relative_error_le_2e_5 :
    ∃ (a : AdjointOutput ℝ) (t : TangentOutput ℝ),
      main_adjoint ℝ Real.exp = Except.ok a ∧
      main_tangent_dv01 ℝ Real.exp = Except.ok t ∧
      a.dv01 = a.float_rates_bar + a.discount_factor_bar ∧
      |a.dv01 - t.swap_pv_dot| ≤ 0.00002 * |t.swap_pv_dot| := by
  obtain ⟨a, ha, hf, hd, hdv⟩ := main_adjoint_value
  obtain ⟨t, ht, hdot⟩ := main_tangent_dv01_value
  refine ⟨a, t, ha, ht, hdv, ?_⟩
  have hS := main_annuity_bounds
  have hW := main_shifted_annuity_bounds
  have hT := main_weighted_annuity_bounds
  have h2 : t.swap_pv_dot < 0 := by rw [hdot]; linarith [hS.1, hT.1]
  rw [abs_of_neg h2, abs_le, hdv, hf, hd, hdot]
  constructor <;> linarith [hS.1, hS.2, hT.1, hT.2, hW.1, hW.2]

end ClaimsNumeric

/-! ## Tangent mode computes the directional derivative -/

section Derivative

/-- The derivative at `eps = 0` of the discount factor `exp (-(z + eps * zd) * t)` is the
rule `-t * df * zd` used by the tangent code. -/
theorem hasDerivAt_discount_factor (z zd t : ℝ) :
    HasDerivAt (fun eps : ℝ => Real.exp (-(z + eps * zd) * t))
      (-t * Real.exp (-z * t) * zd) 0 := by
  have h1 : HasDerivAt (fun eps : ℝ => -(z + eps * zd) * t) (-(1 * zd) * t) 0 :=
    ((((hasDerivAt_id (0 : ℝ)).mul_const zd).const_add z).neg).mul_const t
  have h2 := h1.exp
  simp only [zero_mul, add_zero] at h2
  convert h2 using 1
  ring

/-- The derivative at `eps = 0` of `swapPV` along the line
`(float_rates + eps * float_rates_dot, zero_rate + eps * zero_rate_dot)`. -/
theorem hasDerivAt_swapPV_line (payReceive : Int) (notional fixed_rate : ℝ)
    (fixed_tau fixed_t : List ℝ) (float_spread : ℝ)
    (float_tau float_t float_rates : List ℝ) (zero_rate : ℝ)
    (float_rates_dot : List ℝ) (zero_rate_dot : ℝ)
    (h2 : float_rates.length = float_t.length)
    (h3 : float_rates_dot.length = float_rates.length) :
    HasDerivAt
      (fun eps : ℝ => swapPV Real.exp payReceive notional fixed_rate fixed_tau fixed_t
        float_spread float_tau float_t (bumpRates float_rates float_rates_dot eps)
        (zero_rate + eps * zero_rate_dot))
      ((payReceive : ℝ) *
        (fixedLegDot Real.exp notional fixed_rate fixed_tau fixed_t zero_rate
            zero_rate_dot -
          floatLegDot Real.exp notional float_spread float_tau float_t float_rates
            zero_rate float_rates_dot zero_rate_dot)) 0 := by
  have hfun : (fun eps : ℝ => swapPV Real.exp payReceive notional fixed_rate fixed_tau
        fixed_t float_spread float_tau float_t (bumpRates float_rates float_rates_dot eps)
        (zero_rate + eps * zero_rate_dot)) =
      fun eps : ℝ => (payReceive : ℝ) *
        ((∑ i in Finset.range fixed_t.length,
            notional * fixed_rate * fixed_tau.getD i 0 *
              Real.exp (-(zero_rate + eps * zero_rate_dot) * fixed_t.getD i 0)) -
          (∑ j in Finset.range float_t.length,
            notional * ((float_rates.getD j 0 + eps * float_rates_dot.getD j 0) +
                float_spread) * float_tau.getD j 0 *
              Real.exp (-(zero_rate + eps * zero_rate_dot) * float_t.getD j 0))) := by
    funext eps
    unfold swapPV fixedLegPV floatLegPV
    congr 2
    refine Finset.sum_congr rfl (fun j hj => ?_)
    have hj0 : j < float_t.length := Finset.mem_range.mp hj
    rw [bumpRates, getD_zipWith_of_lt _ (by omega) (by omega)]
  rw [hfun]
  have hfix : HasDerivAt
      (fun eps : ℝ => ∑ i in Finset.range fixed_t.length,
        notional * fixed_rate * fixed_tau.getD i 0 *
          Real.exp (-(zero_rate + eps * zero_rate_dot) * fixed_t.getD i 0))
      (fixedLegDot Real.exp notional fixed_rate fixed_tau fixed_t zero_rate
        zero_rate_dot) 0 := by
    unfold fixedLegDot
    refine HasDerivAt.sum (fun i _ => ?_)
    have h := (hasDerivAt_discount_factor zero_rate zero_rate_dot
      (fixed_t.getD i 0)).const_mul (notional * fixed_rate * fixed_tau.getD i 0)
    convert h using 1
    ring
  have hflt : HasDerivAt
      (fun eps : ℝ => ∑ j in Finset.range float_t.length,
        notional * ((float_rates.getD j 0 + eps * float_rates_dot.getD j 0) +
            float_spread) * float_tau.getD j 0 *
          Real.exp (-(zero_rate + eps * zero_rate_dot) * float_t.getD j 0))
      (floatLegDot Real.exp notional float_spread float_tau float_t float_rates
        zero_rate float_rates_dot zero_rate_dot) 0 := by
    unfold floatLegDot
    refine HasDerivAt.sum (fun j _ => ?_)
    have hA : HasDerivAt
        (fun eps : ℝ => notional *
          ((float_rates.getD j 0 + eps * float_rates_dot.getD j 0) + float_spread) *
            float_tau.getD j 0)
        (notional * (1 * float_rates_dot.getD j 0) * float_tau.getD j 0) 0 :=
      ((((((hasDerivAt_id (0 : ℝ)).mul_const (float_rates_dot.getD j 0)).const_add
        (float_rates.getD j 0)).add_const float_spread).const_mul notional)).mul_const
        (float_tau.getD j 0)
    have h := hA.mul (hasDerivAt_discount_factor zero_rate zero_rate_dot
      (float_t.getD j 0))
    simp only [zero_mul, add_zero] at h
    convert h using 1
    ring
  exact (hfix.sub hflt).const_mul (payReceive : ℝ)

end Derivative

section ClaimsDerivative

/-- C2: on every valid swap specification and for every risk vector (`float_rates_dot`
of matching length, `zero_rate_dot`), `swap_price_tangent_mode` produces a result whose
risk value `swap_pv_dot` is the derivative at `eps = 0` of the `swap_pv` that `price_swap`
computes at forward rates `float_rates + eps * float_rates_dot` and zero rate
`zero_rate + eps * zero_rate_dot`.  In particular, with all forward dots `0` and
`zero_rate_dot = 1` the risk value is the derivative of the price with respect to the
zero rate, that is the limit as `eps` tends to `0` (`eps ≠ 0`) of the bump-and-reprice
quotient `(price (zero_rate + eps) - price zero_rate) / eps`. -/
theorem tangent_is_directional_derivative (payReceive : Int) (notional fixed_rate : ℝ)
    (fixed_tau fixed_t : List ℝ) (float_spread : ℝ)
    (float_tau float_t float_rates : List ℝ) (zero_rate : ℝ)
    (float_rates_dot : List ℝ) (zero_rate_dot : ℝ)
    (h0 : fixed_tau.length = fixed_t.length) (h1 : float_tau.length = float_t.length)
    (h2 : float_rates.length = float_t.length)
    (h3 : float_rates_dot.length = float_rates.length) :
    (∃ t : TangentOutput ℝ,
      swap_price_tangent_mode Real.exp payReceive notional fixed_rate fixed_tau fixed_t
          float_spread float_tau float_t float_rates zero_rate float_rates_dot
          zero_rate_dot = Except.ok t ∧
      ∃ price : ℝ → ℝ,
        (∀ eps : ℝ, ∃ r : PriceOutput ℝ,
          price_swap Real.exp payReceive notional fixed_rate fixed_tau fixed_t
              float_spread float_tau float_t (bumpRates float_rates float_rates_dot eps)
              (zero_rate + eps * zero_rate_dot) = Except.ok r ∧
            r.swap_pv = price eps) ∧
        HasDerivAt price t.swap_pv_dot 0) ∧
    (∃ t : TangentOutput ℝ,
      swap_price_tangent_mode Real.exp payReceive notional fixed_rate fixed_tau fixed_t
          float_spread float_tau float_t float_rates zero_rate
          (List.replicate float_rates.length 0) 1 = Except.ok t ∧
      ∃ price : ℝ → ℝ,
        (∀ z : ℝ, ∃ r : PriceOutput ℝ,
          price_swap Real.exp payReceive notional fixed_rate fixed_tau fixed_t
              float_spread float_tau float_t float_rates z = Except.ok r ∧
            r.swap_pv = price z) ∧
        HasDerivAt price t.swap_pv_dot zero_rate ∧
        Filter.Tendsto (fun eps : ℝ => (price (zero_rate + eps) - price zero_rate) / eps)
          (nhdsWithin 0 {0}ᶜ) (nhds t.swap_pv_dot)) := by
  constructor
  · refine ⟨_, swap_price_tangent_mode_eq Real.exp payReceive notional fixed_rate
      fixed_tau fixed_t float_spread float_tau float_t float_rates zero_rate
      float_rates_dot zero_rate_dot h0 h1 h2 h3,
      fun eps => swapPV Real.exp payReceive notional fixed_rate fixed_tau fixed_t
        float_spread float_tau float_t (bumpRates float_rates float_rates_dot eps)
        (zero_rate + eps * zero_rate_dot), ?_, ?_⟩
    · intro eps
      exact ⟨_, price_swap_eq Real.exp payReceive notional fixed_rate fixed_tau fixed_t
        float_spread float_tau float_t (bumpRates float_rates float_rates_dot eps)
        (zero_rate + eps * zero_rate_dot) h0 h1 (by simp [bumpRates, h2, h3]), rfl⟩
    · exact hasDerivAt_swapPV_line payReceive notional fixed_rate fixed_tau fixed_t
        float_spread float_tau float_t float_rates zero_rate float_rates_dot
        zero_rate_dot h2 h3
  · have hlen : (List.replicate float_rates.length (0 : ℝ)).length = float_rates.length :=
      List.length_replicate _ _
    have hg := hasDerivAt_swapPV_line payReceive notional fixed_rate fixed_tau fixed_t
      float_spread float_tau float_t float_rates zero_rate
      (List.replicate float_rates.length 0) 1 h2 hlen
    have hfun : (fun eps : ℝ => swapPV Real.exp payReceive notional fixed_rate fixed_tau
          fixed_t float_spread float_tau float_t
          (bumpRates float_rates (List.replicate float_rates.length 0) eps)
          (zero_rate + eps * 1)) =
        fun eps : ℝ => swapPV Real.exp payReceive notional fixed_rate fixed_tau fixed_t
          float_spread float_tau float_t float_rates (zero_rate + eps) := by
      funext eps
      unfold swapPV floatLegPV
      rw [mul_one]
      congr 2
      refine Finset.sum_congr rfl (fun j hj => ?_)
      have hj0 : j < float_t.length := Finset.mem_range.mp hj
      rw [bumpRates, getD_zipWith_of_lt _ (by omega) (by rw [hlen]; omega),
        getD_replicate_of_lt (by omega), mul_zero, add_zero]
    rw [hfun] at hg
    have hlim := hg.tendsto_slope_zero
    simp only [zero_add, add_zero, smul_eq_mul] at hlim
    refine ⟨_, swap_price_tangent_mode_eq Real.exp payReceive notional fixed_rate
      fixed_tau fixed_t float_spread float_tau float_t float_rates zero_rate
      (List.replicate float_rates.length 0) 1 h0 h1 h2 hlen,
      fun z => swapPV Real.exp payReceive notional fixed_rate fixed_tau fixed_t
        float_spread float_tau float_t float_rates z, ?_, ?_, ?_⟩
    · intro z
      exact ⟨_, price_swap_eq Real.exp payReceive notional fixed_rate fixed_tau fixed_t
        float_spread float_tau float_t float_rates z h0 h1 h2, rfl⟩
    · rw [hasDerivAt_iff_tendsto_slope_zero]
      simpa only [smul_eq_mul] using hlim
    · refine hlim.congr (fun eps => ?_)
      rw [div_eq_inv_mul]

/-- The statement of C2 (first part) at the DV01 scenario of `main`, over the reals. -/
theorem tangent_is_directional_derivative_witness :
    ((main_fixed_tau ℝ).length = (main_fixed_t ℝ).length ∧
      (main_float_tau ℝ).length = (main_float_t ℝ).length ∧
      (main_float_rates ℝ).length = (main_float_t ℝ).length ∧
      (main_all_f_dot ℝ).length = (main_float_rates ℝ).length) ∧
    ∃ t : TangentOutput ℝ,
      swap_price_tangent_mode Real.exp main_payReceive (main_notional ℝ)
          (main_fixed_rate ℝ) (main_fixed_tau ℝ) (main_fixed_t ℝ) (main_float_spread ℝ)
          (main_float_tau ℝ) (main_float_t ℝ) (main_float_rates ℝ) (main_zero_rate ℝ)
          (main_all_f_dot ℝ) (main_zero_rate_dot ℝ) = Except.ok t ∧
      ∃ price : ℝ → ℝ,
        (∀ eps : ℝ, ∃ r : PriceOutput ℝ,
          price_swap Real.exp main_payReceive (main_notional ℝ) (main_fixed_rate ℝ)
              (main_fixed_tau ℝ) (main_fixed_t ℝ) (main_float_spread ℝ)
              (main_float_tau ℝ) (main_float_t ℝ)
              (bumpRates (main_float_rates ℝ) (main_all_f_dot ℝ) eps)
              (main_zero_rate ℝ + eps * main_zero_rate_dot ℝ) = Except.ok r ∧
            r.swap_pv = price eps) ∧
        HasDerivAt price t.swap_pv_dot 0 :=
  ⟨⟨rfl, rfl, rfl, rfl⟩,
    (tangent_is_directional_derivative main_payReceive (main_notional ℝ)
      (main_fixed_rate ℝ) (main_fixed_tau ℝ) (main_fixed_t ℝ) (main_float_spread ℝ)
      (main_float_tau ℝ) (main_float_t ℝ) (main_float_rates ℝ) (main_zero_rate ℝ)
      (main_all_f_dot ℝ) (main_zero_rate_dot ℝ) rfl rfl rfl rfl).1⟩

end ClaimsDerivative

/-! ## The primal value, the diagnostics and the index bounds -/

section ClaimsPrimal

variable {α : Type} [Field α]

/-- C13: on every valid swap specification, for every risk vector of matching length and
every `swap_pv_bar`, the three functions produce a result, and the `swap_pv` reported by
`swap_price_tangent_mode` and the one reported by `swap_price_adjoint_mode` are both
equal to the `swap_pv` reported by `price_swap`. -/
theorem swap_pv_same_in_all_modes (exp : α → α) (payReceive : Int)
    (notional fixed_rate : α) (fixed_tau fixed_t : List α) (float_spread : α)
    (float_tau float_t float_rates : List α) (zero_rate : α)
    (float_rates_dot : List α) (zero_rate_dot swap_pv_bar : α)
    (h0 : fixed_tau.length = fixed_t.length) (h1 : float_tau.length = float_t.length)
    (h2 : float_rates.length = float_t.length)
    (h3 : float_rates_dot.length = float_rates.length) :
    ∃ (r : PriceOutput α) (t : TangentOutput α) (a : AdjointOutput α),
      price_swap exp payReceive notional fixed_rate fixed_tau fixed_t float_spread
          float_tau float_t float_rates zero_rate = Except.ok r ∧
      swap_price_tangent_mode exp payReceive notional fixed_rate fixed_tau fixed_t
          float_spread float_tau float_t float_rates zero_rate float_rates_dot
          zero_rate_dot = Except.ok t ∧
      swap_price_adjoint_mode exp payReceive notional fixed_rate fixed_tau fixed_t
          float_spread float_tau float_t float_rates zero_rate swap_pv_bar =
        Except.ok a ∧
      t.swap_pv = r.swap_pv ∧ a.swap_pv = r.swap_pv := by
  obtain ⟨z, hz⟩ := swap_price_adjoint_mode_eq exp payReceive notional fixed_rate
    fixed_tau fixed_t float_spread float_tau float_t float_rates zero_rate swap_pv_bar
    h0 h1 h2
  exact ⟨_, _, _,
    price_swap_eq exp payReceive notional fixed_rate fixed_tau fixed_t float_spread
      float_tau float_t float_rates zero_rate h0 h1 h2,
    swap_price_tangent_mode_eq exp payReceive notional fixed_rate fixed_tau fixed_t
      float_spread float_tau float_t float_rates zero_rate float_rates_dot zero_rate_dot
      h0 h1 h2 h3,
    hz, rfl, rfl⟩

/-- The statement of C13 at the swap and the DV01 scenario of `main`, over the reals. -/
theorem swap_pv_same_in_all_modes_witness :
    ((main_fixed_tau ℝ).length = (main_fixed_t ℝ).length ∧
      (main_float_tau ℝ).length = (main_float_t ℝ).length ∧
      (main_float_rates ℝ).length = (main_float_t ℝ).length ∧
      (main_all_f_dot ℝ).length = (main_float_rates ℝ).length) ∧
    ∃ (r : PriceOutput ℝ) (t : TangentOutput ℝ) (a : AdjointOutput ℝ),
      price_swap Real.exp main_payReceive (main_notional ℝ) (main_fixed_rate ℝ)
          (main_fixed_tau ℝ) (main_fixed_t ℝ) (main_float_spread ℝ) (main_float_tau ℝ)
          (main_float_t ℝ) (main_float_rates ℝ) (main_zero_rate ℝ) = Except.ok r ∧
      swap_price_tangent_mode Real.exp main_payReceive (main_notional ℝ)
          (main_fixed_rate ℝ) (main_fixed_tau ℝ) (main_fixed_t ℝ) (main_float_spread ℝ)
          (main_float_tau ℝ) (main_float_t ℝ) (main_float_rates ℝ) (main_zero_rate ℝ)
          (main_all_f_dot ℝ) (main_zero_rate_dot ℝ) = Except.ok t ∧
      swap_price_adjoint_mode Real.exp main_payReceive (main_notional ℝ)
          (main_fixed_rate ℝ) (main_fixed_tau ℝ) (main_fixed_t ℝ) (main_float_spread ℝ)
          (main_float_tau ℝ) (main_float_t ℝ) (main_float_rates ℝ) (main_zero_rate ℝ)
          (main_swap_pv_bar ℝ) = Except.ok a ∧
      t.swap_pv = r.swap_pv ∧ a.swap_pv = r.swap_pv :=
  ⟨⟨rfl, rfl, rfl, rfl⟩,
    swap_pv_same_in_all_modes Real.exp main_payReceive (main_notional ℝ)
      (main_fixed_rate ℝ) (main_fixed_tau ℝ) (main_fixed_t ℝ) (main_float_spread ℝ)
      (main_float_tau ℝ) (main_float_t ℝ) (main_float_rates ℝ) (main_zero_rate ℝ)
      (main_all_f_dot ℝ) (main_zero_rate_dot ℝ) (main_swap_pv_bar ℝ) rfl rfl rfl rfl⟩

/-- The three schedule checks shared by the three functions, in the order of the source:
the diagnostic of the first failing check, or `none` when all pass. -/
theorem price_swap_first_failing_check (exp : α → α) (payReceive : Int)
    (notional fixed_rate : α) (fixed_tau fixed_t : List α) (float_spread : α)
    (float_tau float_t float_rates : List α) (zero_rate : α) :
    (fixed_tau.length ≠ fixed_t.length →
      price_swap exp payReceive notional fixed_rate fixed_tau fixed_t float_spread
        float_tau float_t float_rates zero_rate = Except.error SwapError.fixedTauSize) ∧
    (fixed_tau.length = fixed_t.length → float_tau.length ≠ float_t.length →
      price_swap exp payReceive notional fixed_rate fixed_tau fixed_t float_spread
        float_tau float_t float_rates zero_rate = Except.error SwapError.floatTauSize) ∧
    (fixed_tau.length = fixed_t.length → float_tau.length = float_t.length →
      float_rates.length ≠ float_t.length →
      price_swap exp payReceive notional fixed_rate fixed_tau fixed_t float_spread
        float_tau float_t float_rates zero_rate =
          Except.error SwapError.floatRatesSize) := by
  refine ⟨fun h0 => ?_, fun h0 h1 => ?_, fun h0 h1 h2 => ?_⟩
  · simp only [price_swap, h0, ne_eq, not_false_eq_true, if_true]
  · simp only [price_swap, h0, h1, ne_eq, not_true_eq_false, not_false_eq_true, if_true,
      if_false]
  · simp only [price_swap, h0, h1, h2, ne_eq, not_true_eq_false, not_false_eq_true,
      if_true, if_false]

theorem tangent_first_failing_check (exp : α → α) (payReceive : Int)
    (notional fixed_rate : α) (fixed_tau fixed_t : List α) (float_spread : α)
    (float_tau float_t float_rates : List α) (zero_rate : α)
    (float_rates_dot : List α) (zero_rate_dot : α) :
    (fixed_tau.length ≠ fixed_t.length →
      swap_price_tangent_mode exp payReceive notional fixed_rate fixed_tau fixed_t
        float_spread float_tau float_t float_rates zero_rate float_rates_dot
        zero_rate_dot = Except.error SwapError.fixedTauSize) ∧
    (fixed_tau.length = fixed_t.length → float_tau.length ≠ float_t.length →
      swap_price_tangent_mode exp payReceive notional fixed_rate fixed_tau fixed_t
        float_spread float_tau float_t float_rates zero_rate float_rates_dot
        zero_rate_dot = Except.error SwapError.floatTauSize) ∧
    (fixed_tau.length = fixed_t.length → float_tau.length = float_t.length →
      float_rates.length ≠ float_t.length →
      swap_price_tangent_mode exp payReceive notional fixed_rate fixed_tau fixed_t
        float_spread float_tau float_t float_rates zero_rate float_rates_dot
        zero_rate_dot = Except.error SwapError.floatRatesSize) ∧
    (fixed_tau.length = fixed_t.length → float_tau.length = float_t.length →
      float_rates.length = float_t.length →
      float_rates_dot.length ≠ float_rates.length →
      swap_price_tangent_mode exp payReceive notional fixed_rate fixed_tau fixed_t
        float_spread float_tau float_t float_rates zero_rate float_rates_dot
        zero_rate_dot = Except.error SwapError.floatRatesDotSize) := by
  refine ⟨fun h0 => ?_, fun h0 h1 => ?_, fun h0 h1 h2 => ?_, fun h0 h1 h2 h3 => ?_⟩
  · simp only [swap_price_tangent_mode, h0, ne_eq, not_false_eq_true, if_true]
  · simp only [swap_price_tangent_mode, h0, h1, ne_eq, not_true_eq_false,
      not_false_eq_true, if_true, if_false]
  · simp only [swap_price_tangent_mode, h0, h1, h2, ne_eq, not_true_eq_false,
      not_false_eq_true, if_true, if_false]
  · have h4 : ¬ float_rates_dot.length = float_t.length := h2 ▸ h3
    simp only [swap_price_tangent_mode, h0, h1, h2, h4, ne_eq, not_true_eq_false,
      not_false_eq_true, if_true, if_false]

theorem adjoint_first_failing_check (exp : α → α) (payReceive : Int)
    (notional fixed_rate : α) (fixed_tau fixed_t : List α) (float_spread : α)
    (float_tau float_t float_rates : List α) (zero_rate swap_pv_bar : α) :
    (fixed_tau.length ≠ fixed_t.length →
      swap_price_adjoint_mode exp payReceive notional fixed_rate fixed_tau fixed_t
        float_spread float_tau float_t float_rates zero_rate swap_pv_bar =
          Except.error SwapError.fixedTauSize) ∧
    (fixed_tau.length = fixed_t.length → float_tau.length ≠ float_t.length →
      swap_price_adjoint_mode exp payReceive notional fixed_rate fixed_tau fixed_t
        float_spread float_tau float_t float_rates zero_rate swap_pv_bar =
          Except.error SwapError.floatTauSize) ∧
    (fixed_tau.length = fixed_t.length → float_tau.length = float_t.length →
      float_rates.length ≠ float_t.length →
      swap_price_adjoint_mode exp payReceive notional fixed_rate fixed_tau fixed_t
        float_spread float_tau float_t float_rates zero_rate swap_pv_bar =
          Except.error SwapError.floatRatesSize) := by
  refine ⟨fun h0 => ?_, fun h0 h1 => ?_, fun h0 h1 h2 => ?_⟩
  · simp only [swap_price_adjoint_mode, h0, ne_eq, not_false_eq_true, if_true]
  · simp only [swap_price_adjoint_mode, h0, h1, ne_eq, not_true_eq_false,
      not_false_eq_true, if_true, if_false]
  · simp only [swap_price_adjoint_mode, h0, h1, h2, ne_eq, not_true_eq_false,
      not_false_eq_true, if_true, if_false]

end ClaimsPrimal

section ClaimsChecks

variable {α : Type} [Field α]

/-- C18: when validation fails, the diagnostic is the one of the first failing check, in
the order fixed leg (`fixed_tau` against `fixed_t`), float accruals (`float_tau` against
`float_t`), float rates (`float_rates` against `float_t`) and, for tangent mode only,
the risk input (`float_rates_dot` against `float_rates`); each diagnostic names the leg
and the sequence.  In particular a specification whose fixed leg is consistent never
reports the fixed-schedule diagnostic, and one whose only mismatch is in `float_rates`
reports the `float_rates` diagnostic.  On each of these paths the outcome is the
diagnostic alone, with no numbers. -/
theorem validation_reports_first_failing_check (exp : α → α) (payReceive : Int)
    (notional fixed_rate : α) (fixed_tau fixed_t : List α) (float_spread : α)
    (float_tau float_t float_rates : List α) (zero_rate : α)
    (float_rates_dot : List α) (zero_rate_dot swap_pv_bar : α) :
    (fixed_tau.length ≠ fixed_t.length →
      price_swap exp payReceive notional fixed_rate fixed_tau fixed_t float_spread
          float_tau float_t float_rates zero_rate = Except.error SwapError.fixedTauSize ∧
      swap_price_tangent_mode exp payReceive notional fixed_rate fixed_tau fixed_t
          float_spread float_tau float_t float_rates zero_rate float_rates_dot
          zero_rate_dot = Except.error SwapError.fixedTauSize ∧
      swap_price_adjoint_mode exp payReceive notional fixed_rate fixed_tau fixed_t
          float_spread float_tau float_t float_rates zero_rate swap_pv_bar =
        Except.error SwapError.fixedTauSize) ∧
    (fixed_tau.length = fixed_t.length → float_tau.length ≠ float_t.length →
      price_swap exp payReceive notional fixed_rate fixed_tau fixed_t float_spread
          float_tau float_t float_rates zero_rate = Except.error SwapError.floatTauSize ∧
      swap_price_tangent_mode exp payReceive notional fixed_rate fixed_tau fixed_t
          float_spread float_tau float_t float_rates zero_rate float_rates_dot
          zero_rate_dot = Except.error SwapError.floatTauSize ∧
      swap_price_adjoint_mode exp payReceive notional fixed_rate fixed_tau fixed_t
          float_spread float_tau float_t float_rates zero_rate swap_pv_bar =
        Except.error SwapError.floatTauSize) ∧
    (fixed_tau.length = fixed_t.length → float_tau.length = float_t.length →
      float_rates.length ≠ float_t.length →
      price_swap exp payReceive notional fixed_rate fixed_tau fixed_t float_spread
          float_tau float_t float_rates zero_rate =
        Except.error SwapError.floatRatesSize ∧
      swap_price_tangent_mode exp payReceive notional fixed_rate fixed_tau fixed_t
          float_spread float_tau float_t float_rates zero_rate float_rates_dot
          zero_rate_dot = Except.error SwapError.floatRatesSize ∧
      swap_price_adjoint_mode exp payReceive notional fixed_rate fixed_tau fixed_t
          float_spread float_tau float_t float_rates zero_rate swap_pv_bar =
        Except.error SwapError.floatRatesSize) ∧
    (fixed_tau.length = fixed_t.length → float_tau.length = float_t.length →
      float_rates.length = float_t.length →
      float_rates_dot.length ≠ float_rates.length →
      swap_price_tangent_mode exp payReceive notional fixed_rate fixed_tau fixed_t
          float_spread float_tau float_t float_rates zero_rate float_rates_dot
          zero_rate_dot = Except.error SwapError.floatRatesDotSize) ∧
    (fixed_tau.length = fixed_t.length →
      price_swap exp payReceive notional fixed_rate fixed_tau fixed_t float_spread
          float_tau float_t float_rates zero_rate ≠ Except.error SwapError.fixedTauSize ∧
      swap_price_tangent_mode exp payReceive notional fixed_rate fixed_tau fixed_t
          float_spread float_tau float_t float_rates zero_rate float_rates_dot
          zero_rate_dot ≠ Except.error SwapError.fixedTauSize ∧
      swap_price_adjoint_mode exp payReceive notional fixed_rate fixed_tau fixed_t
          float_spread float_tau float_t float_rates zero_rate swap_pv_bar ≠
        Except.error SwapError.fixedTauSize) ∧
    (SwapError.message SwapError.fixedTauSize =
        some "Fixed Schedule Error: Wrong size of fixed_tau" ∧
      SwapError.message SwapError.floatTauSize =
        some "Float Schedule Error: Wrong size of float_tau" ∧
      SwapError.message SwapError.floatRatesSize =
        some "Float Schedule Error: Wrong size of float_rates" ∧
      SwapError.message SwapError.floatRatesDotSize =
        some "Risk Input Error: Wrong size of float_rates_dot") := by
  have hp := price_swap_first_failing_check exp payReceive notional fixed_rate fixed_tau
    fixed_t float_spread float_tau float_t float_rates zero_rate
  have ht := tangent_first_failing_check exp payReceive notional fixed_rate fixed_tau
    fixed_t float_spread float_tau float_t float_rates zero_rate float_rates_dot
    zero_rate_dot
  have ha := adjoint_first_failing_check exp payReceive notional fixed_rate fixed_tau
    fixed_t float_spread float_tau float_t float_rates zero_rate swap_pv_bar
  refine ⟨fun h0 => ⟨hp.1 h0, ht.1 h0, ha.1 h0⟩,
    fun h0 h1 => ⟨hp.2.1 h0 h1, ht.2.1 h0 h1, ha.2.1 h0 h1⟩,
    fun h0 h1 h2 => ⟨hp.2.2 h0 h1 h2, ht.2.2.1 h0 h1 h2, ha.2.2 h0 h1 h2⟩,
    fun h0 h1 h2 h3 => ht.2.2.2 h0 h1 h2 h3, fun h0 => ⟨?_, ?_, ?_⟩,
    ⟨rfl, rfl, rfl, rfl⟩⟩
  · by_cases h1 : float_tau.length = float_t.length
    · by_cases h2 : float_rates.length = float_t.length
      · rw [price_swap_eq exp payReceive notional fixed_rate fixed_tau fixed_t
          float_spread float_tau float_t float_rates zero_rate h0 h1 h2]
        exact fun h => by cases h
      · rw [hp.2.2 h0 h1 h2]; exact fun h => by cases h
    · rw [hp.2.1 h0 h1]; exact fun h => by cases h
  · by_cases h1 : float_tau.length = float_t.length
    · by_cases h2 : float_rates.length = float_t.length
      · by_cases h3 : float_rates_dot.length = float_rates.length
        · rw [swap_price_tangent_mode_eq exp payReceive notional fixed_rate fixed_tau
            fixed_t float_spread float_tau float_t float_rates zero_rate float_rates_dot
            zero_rate_dot h0 h1 h2 h3]
          exact fun h => by cases h
        · rw [ht.2.2.2 h0 h1 h2 h3]; exact fun h => by cases h
      · rw [ht.2.2.1 h0 h1 h2]; exact fun h => by cases h
    · rw [ht.2.1 h0 h1]; exact fun h => by cases h
  · by_cases h1 : float_tau.length = float_t.length
    · by_cases h2 : float_rates.length = float_t.length
      · obtain ⟨z, hz⟩ := swap_price_adjoint_mode_eq exp payReceive notional fixed_rate
          fixed_tau fixed_t float_spread float_tau float_t float_rates zero_rate
          swap_pv_bar h0 h1 h2
        rw [hz]; exact fun h => by cases h
      · rw [ha.2.2 h0 h1 h2]; exact fun h => by cases h
    · rw [ha.2.1 h0 h1]; exact fun h => by cases h

/-- The third part of C18 at the swap of `main` with only four forward rates: the only
mismatch is in `float_rates`, and the three functions report the `float_rates`
diagnostic. -/
theorem validation_reports_first_failing_check_witness :
    price_swap Real.exp main_payReceive (main_notional ℝ) (main_fixed_rate ℝ)
        (main_fixed_tau ℝ) (main_fixed_t ℝ) (main_float_spread ℝ) (main_float_tau ℝ)
        (main_float_t ℝ) [0.01, 0.01, 0.01, 0.01] (main_zero_rate ℝ) =
      Except.error SwapError.floatRatesSize ∧
    swap_price_tangent_mode Real.exp main_payReceive (main_notional ℝ)
        (main_fixed_rate ℝ) (main_fixed_tau ℝ) (main_fixed_t ℝ) (main_float_spread ℝ)
        (main_float_tau ℝ) (main_float_t ℝ) [0.01, 0.01, 0.01, 0.01] (main_zero_rate ℝ)
        (main_all_f_dot ℝ) (main_zero_rate_dot ℝ) =
      Except.error SwapError.floatRatesSize ∧
    swap_price_adjoint_mode Real.exp main_payReceive (main_notional ℝ)
        (main_fixed_rate ℝ) (main_fixed_tau ℝ) (main_fixed_t ℝ) (main_float_spread ℝ)
        (main_float_tau ℝ) (main_float_t ℝ) [0.01, 0.01, 0.01, 0.01] (main_zero_rate ℝ)
        (main_swap_pv_bar ℝ) =
      Except.error SwapError.floatRatesSize :=
  (validation_reports_first_failing_check Real.exp main_payReceive (main_notional ℝ)
    (main_fixed_rate ℝ) (main_fixed_tau ℝ) (main_fixed_t ℝ) (main_float_spread ℝ)
    (main_float_tau ℝ) (main_float_t ℝ) [0.01, 0.01, 0.01, 0.01] (main_zero_rate ℝ)
    (main_all_f_dot ℝ) (main_zero_rate_dot ℝ) (main_swap_pv_bar ℝ)).2.2.1
    rfl rfl (by decide)

/-- C19: whenever the three length checks pass, `price_swap` and
`swap_price_adjoint_mode` run to a result, `swap_price_tangent_mode` runs to a result
when its risk-input check passes too, and for no risk vector does it end in the
out-of-range outcome: no indexed access (`fixed_tau[i]`, `fixed_t[i]`, `float_tau[j]`,
`float_t[j]`, `float_rates[j]`, `float_rates_dot[j]`, or an entry of a discount-factor
cache) is past the end, which includes legs with no period. -/
theorem index_access_in_bounds (exp : α → α) (payReceive : Int)
    (notional fixed_rate : α) (fixed_tau fixed_t : List α) (float_spread : α)
    (float_tau float_t float_rates : List α) (zero_rate : α)
    (float_rates_dot : List α) (zero_rate_dot swap_pv_bar : α)
    (h0 : fixed_tau.length = fixed_t.length) (h1 : float_tau.length = float_t.length)
    (h2 : float_rates.length = float_t.length) :
    (∃ r, price_swap exp payReceive notional fixed_rate fixed_tau fixed_t float_spread
        float_tau float_t float_rates zero_rate = Except.ok r) ∧
    (∃ a, swap_price_adjoint_mode exp payReceive notional fixed_rate fixed_tau fixed_t
        float_spread float_tau float_t float_rates zero_rate swap_pv_bar =
          Except.ok a) ∧
    (float_rates_dot.length = float_rates.length →
      ∃ t, swap_price_tangent_mode exp payReceive notional fixed_rate fixed_tau fixed_t
        float_spread float_tau float_t float_rates zero_rate float_rates_dot
        zero_rate_dot = Except.ok t) ∧
    swap_price_tangent_mode exp payReceive notional fixed_rate fixed_tau fixed_t
        float_spread float_tau float_t float_rates zero_rate float_rates_dot
        zero_rate_dot ≠ Except.error SwapError.indexOutOfRange := by
  obtain ⟨z, hz⟩ := swap_price_adjoint_mode_eq exp payReceive notional fixed_rate
    fixed_tau fixed_t float_spread float_tau float_t float_rates zero_rate swap_pv_bar
    h0 h1 h2
  refine ⟨⟨_, price_swap_eq exp payReceive notional fixed_rate fixed_tau fixed_t
    float_spread float_tau float_t float_rates zero_rate h0 h1 h2⟩, ⟨_, hz⟩,
    fun h3 => ⟨_, swap_price_tangent_mode_eq exp payReceive notional fixed_rate fixed_tau
      fixed_t float_spread float_tau float_t float_rates zero_rate float_rates_dot
      zero_rate_dot h0 h1 h2 h3⟩, ?_⟩
  by_cases h3 : float_rates_dot.length = float_rates.length
  · rw [swap_price_tangent_mode_eq exp payReceive notional fixed_rate fixed_tau
      fixed_t float_spread float_tau float_t float_rates zero_rate float_rates_dot
      zero_rate_dot h0 h1 h2 h3]
    exact fun h => by cases h
  · rw [(tangent_first_failing_check exp payReceive notional fixed_rate fixed_tau
      fixed_t float_spread float_tau float_t float_rates zero_rate float_rates_dot
      zero_rate_dot).2.2.2 h0 h1 h2 h3]
    exact fun h => by cases h

/-- The statement of C19 at the swap built in `main` with the risk inputs of its DV01
scenario, over the reals: five periods on each leg, so that every loop runs five times
and reads or writes every vector at the indices `0, ..., 4`. -/
theorem index_access_in_bounds_witness :
    ((main_fixed_tau ℝ).length = (main_fixed_t ℝ).length ∧
      (main_float_tau ℝ).length = (main_float_t ℝ).length ∧
      (main_float_rates ℝ).length = (main_float_t ℝ).length) ∧
    (∃ r, price_swap Real.exp main_payReceive (main_notional ℝ) (main_fixed_rate ℝ)
        (main_fixed_tau ℝ) (main_fixed_t ℝ) (main_float_spread ℝ) (main_float_tau ℝ)
        (main_float_t ℝ) (main_float_rates ℝ) (main_zero_rate ℝ) = Except.ok r) ∧
    (∃ a, swap_price_adjoint_mode Real.exp main_payReceive (main_notional ℝ)
        (main_fixed_rate ℝ) (main_fixed_tau ℝ) (main_fixed_t ℝ) (main_float_spread ℝ)
        (main_float_tau ℝ) (main_float_t ℝ) (main_float_rates ℝ) (main_zero_rate ℝ)
        (main_swap_pv_bar ℝ) = Except.ok a) ∧
    ((main_all_f_dot ℝ).length = (main_float_rates ℝ).length →
      ∃ t, swap_price_tangent_mode Real.exp main_payReceive (main_notional ℝ)
        (main_fixed_rate ℝ) (main_fixed_tau ℝ) (main_fixed_t ℝ) (main_float_spread ℝ)
        (main_float_tau ℝ) (main_float_t ℝ) (main_float_rates ℝ) (main_zero_rate ℝ)
        (main_all_f_dot ℝ) (main_zero_rate_dot ℝ) = Except.ok t) ∧
    swap_price_tangent_mode Real.exp main_payReceive (main_notional ℝ)
        (main_fixed_rate ℝ) (main_fixed_tau ℝ) (main_fixed_t ℝ) (main_float_spread ℝ)
        (main_float_tau ℝ) (main_float_t ℝ) (main_float_rates ℝ) (main_zero_rate ℝ)
        (main_all_f_dot ℝ) (main_zero_rate_dot ℝ) ≠
      Except.error SwapError.indexOutOfRange :=
  ⟨⟨rfl, rfl, rfl⟩,
    index_access_in_bounds Real.exp main_payReceive (main_notional ℝ)
      (main_fixed_rate ℝ) (main_fixed_tau ℝ) (main_fixed_t ℝ) (main_float_spread ℝ)
      (main_float_tau ℝ) (main_float_t ℝ) (main_float_rates ℝ) (main_zero_rate ℝ)
      (main_all_f_dot ℝ) (main_zero_rate_dot ℝ) (main_swap_pv_bar ℝ) rfl rfl rfl⟩

end ClaimsChecks

section ClaimsPV01

variable {α : Type} [Field α]

/-- C20: on every valid swap specification whose fixed and float legs share the same
schedule (`fixed_tau = float_tau` and `fixed_t = float_t`), the closed-form PV01 printed
by `price_swap` (`-payReceive * fixed_annuity * 0.0001`) is equal to the risk value of
`swap_price_tangent_mode` with every forward dot `0.0001` and `zero_rate_dot = 0`, and
to the `float_rates_bar` of `swap_price_adjoint_mode` with `swap_pv_bar = 1`; the three
calls produce a result, and the common value is `-payReceive` times the fixed annuity
(the sum over the fixed periods of `notional * fixed_tau[i] * exp (-zero_rate *
fixed_t[i])`) times `0.0001`. -/
theorem pv01_closed_form_eq_tangent_and_adjoint (exp : α → α) (payReceive : Int)
    (notional fixed_rate : α) (fixed_tau fixed_t : List α) (float_spread : α)
    (float_tau float_t float_rates : List α) (zero_rate : α)
    (h0 : fixed_tau.length = fixed_t.length) (h1 : float_tau.length = float_t.length)
    (h2 : float_rates.length = float_t.length)
    (hs1 : fixed_tau = float_tau) (hs2 : fixed_t = float_t) :
    ∃ (r : PriceOutput α) (t : TangentOutput α) (a : AdjointOutput α),
      price_swap exp payReceive notional fixed_rate fixed_tau fixed_t float_spread
          float_tau float_t float_rates zero_rate = Except.ok r ∧
      swap_price_tangent_mode exp payReceive notional fixed_rate fixed_tau fixed_t
          float_spread float_tau float_t float_rates zero_rate
          (List.replicate float_rates.length 0.0001) 0 = Except.ok t ∧
      swap_price_adjoint_mode exp payReceive notional fixed_rate fixed_tau fixed_t
          float_spread float_tau float_t float_rates zero_rate 1 = Except.ok a ∧
      r.pv01 = t.swap_pv_dot ∧ r.pv01 = a.float_rates_bar ∧
      r.pv01 = -(payReceive : α) *
        (∑ i in Finset.range fixed_t.length,
          notional * fixed_tau.getD i 0 * exp (-zero_rate * fixed_t.getD i 0)) *
        0.0001 := by
  obtain ⟨z, hz⟩ := swap_price_adjoint_mode_eq exp payReceive notional fixed_rate
    fixed_tau fixed_t float_spread float_tau float_t float_rates zero_rate 1 h0 h1 h2
  refine ⟨_, _, _,
    price_swap_eq exp payReceive notional fixed_rate fixed_tau fixed_t float_spread
      float_tau float_t float_rates zero_rate h0 h1 h2,
    swap_price_tangent_mode_eq exp payReceive notional fixed_rate fixed_tau fixed_t
      float_spread float_tau float_t float_rates zero_rate
      (List.replicate float_rates.length 0.0001) 0 h0 h1 h2 (by simp),
    hz, ?_, ?_, ?_⟩
  · show ((-payReceive : Int) : α) * fixedAnnuity exp notional fixed_tau fixed_t zero_rate *
        0.0001 =
      (payReceive : α) * (fixedLegDot exp notional fixed_rate fixed_tau fixed_t zero_rate 0 -
        floatLegDot exp notional float_spread float_tau float_t float_rates zero_rate
          (List.replicate float_rates.length 0.0001) 0)
    have hfix : fixedLegDot exp notional fixed_rate fixed_tau fixed_t zero_rate 0 = 0 := by
      unfold fixedLegDot
      exact Finset.sum_eq_zero (fun i _ => by ring)
    rw [hfix, hs1, hs2, Int.cast_neg]
    unfold fixedAnnuity floatLegDot
    rw [zero_sub, mul_neg, Finset.mul_sum, Finset.mul_sum, Finset.sum_mul,
      ← Finset.sum_neg_distrib]
    refine Finset.sum_congr rfl (fun j hj => ?_)
    rw [getD_replicate_of_lt (by rw [h2]; exact Finset.mem_range.mp hj)]
    ring
  · show ((-payReceive : Int) : α) * fixedAnnuity exp notional fixed_tau fixed_t zero_rate *
        0.0001 =
      floatRatesBarSum exp notional float_tau float_t zero_rate
        (((-payReceive : Int) : α) * 1) 0.0001
    rw [hs1, hs2]
    unfold fixedAnnuity floatRatesBarSum
    rw [Finset.mul_sum, Finset.sum_mul]
    exact Finset.sum_congr rfl (fun j _ => by ring)
  · show ((-payReceive : Int) : α) * fixedAnnuity exp notional fixed_tau fixed_t zero_rate *
        0.0001 = _
    unfold fixedAnnuity
    rw [Int.cast_neg]

/-- The statement of C20 at the swap built in `main`, whose two legs share the schedule,
over the reals. -/
theorem pv01_closed_form_eq_tangent_and_adjoint_witness :
    ((main_fixed_tau ℝ).length = (main_fixed_t ℝ).length ∧
      (main_float_tau ℝ).length = (main_float_t ℝ).length ∧
      (main_float_rates ℝ).length = (main_float_t ℝ).length ∧
      main_fixed_tau ℝ = main_float_tau ℝ ∧ main_fixed_t ℝ = main_float_t ℝ) ∧
    ∃ (r : PriceOutput ℝ) (t : TangentOutput ℝ) (a : AdjointOutput ℝ),
      price_swap Real.exp main_payReceive (main_notional ℝ) (main_fixed_rate ℝ)
          (main_fixed_tau ℝ) (main_fixed_t ℝ) (main_float_spread ℝ) (main_float_tau ℝ)
          (main_float_t ℝ) (main_float_rates ℝ) (main_zero_rate ℝ) = Except.ok r ∧
      swap_price_tangent_mode Real.exp main_payReceive (main_notional ℝ)
          (main_fixed_rate ℝ) (main_fixed_tau ℝ) (main_fixed_t ℝ) (main_float_spread ℝ)
          (main_float_tau ℝ) (main_float_t ℝ) (main_float_rates ℝ) (main_zero_rate ℝ)
          (List.replicate (main_float_rates ℝ).length 0.0001) 0 = Except.ok t ∧
      swap_price_adjoint_mode Real.exp main_payReceive (main_notional ℝ)
          (main_fixed_rate ℝ) (main_fixed_tau ℝ) (main_fixed_t ℝ) (main_float_spread ℝ)
          (main_float_tau ℝ) (main_float_t ℝ) (main_float_rates ℝ) (main_zero_rate ℝ) 1 =
        Except.ok a ∧
      r.pv01 = t.swap_pv_dot ∧ r.pv01 = a.float_rates_bar ∧
      r.pv01 = -(main_payReceive : ℝ) *
        (∑ i in Finset.range (main_fixed_t ℝ).length,
          main_notional ℝ * (main_fixed_tau ℝ).getD i 0 *
            Real.exp (-main_zero_rate ℝ * (main_fixed_t ℝ).getD i 0)) *
        0.0001 :=
  ⟨⟨rfl, rfl, rfl, rfl, rfl⟩,
    pv01_closed_form_eq_tangent_and_adjoint Real.exp main_payReceive (main_notional ℝ)
      (main_fixed_rate ℝ) (main_fixed_tau ℝ) (main_fixed_t ℝ) (main_float_spread ℝ)
      (main_float_tau ℝ) (main_float_t ℝ) (main_float_rates ℝ) (main_zero_rate ℝ)
      rfl rfl rfl rfl rfl⟩

/-- C16: for every `zero_rate ≥ 0` and all payment times `t ≥ 0`, the discount factor
`exp (-zero_rate * t)` that the pricing, tangent and adjoint code computes lies in
`(0, 1]`; and the caches filled by `swap_price_adjoint_mode` for such times hold
discount factors in `(0, 1]` and differences
`exp (-(zero_rate + 0.0001) * t) - exp (-zero_rate * t)` that are `≤ 0`. -/
theorem discount_factor_in_unit_interval (zero_rate : ℝ) (ts : List ℝ)
    (hz : 0 ≤ zero_rate) (ht : ∀ t ∈ ts, 0 ≤ t) :
    (∀ t : ℝ, 0 ≤ t →
      0 < Real.exp (-zero_rate * t) ∧ Real.exp (-zero_rate * t) ≤ 1 ∧
      Real.exp (-(zero_rate + 0.0001) * t) - Real.exp (-zero_rate * t) ≤ 0) ∧
    ∃ c : List ℝ × List ℝ × List ℝ,
      forUp (adjoint_cache_body Real.exp zero_rate 0.0001 ts) 0 ts.length
          (List.replicate ts.length 0, List.replicate ts.length 0,
            List.replicate ts.length 0) = Except.ok c ∧
      ∀ j, j < ts.length →
        c.1.getD j 0 = Real.exp (-zero_rate * ts.getD j 0) ∧
        c.2.2.getD j 0 = Real.exp (-(zero_rate + 0.0001) * ts.getD j 0) -
          Real.exp (-zero_rate * ts.getD j 0) ∧
        0 < c.1.getD j 0 ∧ c.1.getD j 0 ≤ 1 ∧ c.2.2.getD j 0 ≤ 0 := by
  have key : ∀ t : ℝ, 0 ≤ t →
      0 < Real.exp (-zero_rate * t) ∧ Real.exp (-zero_rate * t) ≤ 1 ∧
      Real.exp (-(zero_rate + 0.0001) * t) - Real.exp (-zero_rate * t) ≤ 0 := by
    intro t h
    refine ⟨Real.exp_pos _, ?_, ?_⟩
    · rw [Real.exp_le_one_iff]
      have := mul_nonneg hz h
      linarith
    · rw [sub_nonpos, Real.exp_le_exp]
      have : 0 ≤ 0.0001 * t := mul_nonneg (by norm_num) h
      linarith
  refine ⟨key, ?_⟩
  obtain ⟨c, hc, -, -, h1, h2⟩ := adjoint_cache_loop Real.exp zero_rate 0.0001 ts
  refine ⟨c, hc, fun j hj => ?_⟩
  have hmem : ts.getD j 0 ∈ ts := by
    rw [List.getD_eq_getElem _ _ hj]
    exact List.getElem_mem hj
  have hk := key (ts.getD j 0) (ht _ hmem)
  refine ⟨h1 j hj, h2 j hj, ?_, ?_, ?_⟩
  · rw [h1 j hj]; exact hk.1
  · rw [h1 j hj]; exact hk.2.1
  · rw [h2 j hj]; exact hk.2.2

/-- The statement of C16 at the zero rate and the payment times of `main`. -/
theorem discount_factor_in_unit_interval_witness :
    (0 ≤ main_zero_rate ℝ ∧ ∀ t ∈ main_fixed_t ℝ, 0 ≤ t) ∧
    ∃ c : List ℝ × List ℝ × List ℝ,
      forUp (adjoint_cache_body Real.exp (main_zero_rate ℝ) 0.0001 (main_fixed_t ℝ)) 0
          (main_fixed_t ℝ).length
          (List.replicate (main_fixed_t ℝ).length 0,
            List.replicate (main_fixed_t ℝ).length 0,
            List.replicate (main_fixed_t ℝ).length 0) = Except.ok c ∧
      ∀ j, j < (main_fixed_t ℝ).length →
        0 < c.1.getD j 0 ∧ c.1.getD j 0 ≤ 1 ∧ c.2.2.getD j 0 ≤ 0 := by
  have hz : 0 ≤ main_zero_rate ℝ := by unfold main_zero_rate; norm_num
  have ht : ∀ t ∈ main_fixed_t ℝ, 0 ≤ t := by
    intro t h
    simp only [main_fixed_t, List.mem_cons, List.mem_singleton, List.not_mem_nil,
      or_false] at h
    rcases h with h | h | h | h | h <;> rw [h] <;> norm_num
  obtain ⟨-, c, hc, h⟩ := discount_factor_in_unit_interval (main_zero_rate ℝ)
    (main_fixed_t ℝ) hz ht
  exact ⟨⟨hz, ht⟩, c, hc, fun j hj => (h j hj).2.2⟩

end ClaimsPV01

section ClaimsFixedRate

/-- The risk value of the PV01 scenario of `main` in tangent mode. -/
theorem main_tangent_pv01_value :
    ∃ r : TangentOutput ℝ, main_tangent_pv01 ℝ Real.exp = Except.ok r ∧
      r.swap_pv_dot =
        -100 * (Real.exp (-0.015) + Real.exp (-0.015) ^ 2 + Real.exp (-0.015) ^ 3 +
          Real.exp (-0.015) ^ 4 + Real.exp (-0.015) ^ 5) := by
  obtain ⟨e1, e2, e3, e4, e5⟩ := main_df_values
  refine ⟨_, swap_price_tangent_mode_eq Real.exp _ _ _ _ _ _ _ _ _ _ _ _ rfl rfl rfl rfl,
    ?_⟩
  simp only [fixedLegDot, floatLegDot, main_payReceive, main_notional,
    main_fixed_rate, main_fixed_tau, main_fixed_t, main_float_spread, main_float_tau,
    main_float_t, main_float_rates, main_zero_rate, main_all_f_dot,
    main_no_zero_rate_dot, List.length_cons, List.length_nil,
    Finset.sum_range_succ, Finset.sum_range_zero, List.getD_cons_zero,
    List.getD_cons_succ]
  rw [e1, e2, e3, e4, e5]
  norm_num
  ring

/-- C11 (counterexample): for the swap of `main`, neither the PV01 printed by
`price_swap` nor the tangent risk value with all forward dots `0.0001` and
`zero_rate_dot = 0` lies within 0.005 of -457.97. -/
theorem main_pv01_not_minus_457_97 :
    ∃ (r : PriceOutput ℝ) (t : TangentOutput ℝ),
      main_price_swap ℝ Real.exp = Except.ok r ∧
      main_tangent_pv01 ℝ Real.exp = Except.ok t ∧
      ¬ (|r.pv01 - (-457.97)| ≤ 0.005) ∧
      ¬ (|t.swap_pv_dot - (-457.97)| ≤ 0.005) := by
  obtain ⟨r, hr, -, hpv⟩ := main_price_swap_value
  obtain ⟨t, ht, hdot⟩ := main_tangent_pv01_value
  have hS := main_annuity_bounds
  refine ⟨r, t, hr, ht, ?_, ?_⟩
  · intro h
    rw [abs_le, hpv] at h
    linarith [h.1, hS.1]
  · intro h
    rw [abs_le, hdot] at h
    linarith [h.1, hS.1]

/-- C11 (amended): for the swap of `main` (payReceive = 1, notional = 1,000,000,
fixed_rate = 0.05, five annual periods with accrual 1.0 and times 1..5 on both legs,
float_spread = 0, all forward rates 0.01, zero_rate = 0.015), the PV01 printed by
`price_swap` and the tangent risk value with all forward dots `0.0001` and
`zero_rate_dot = 0` are equal and lie within 0.005 of -478.11. -/
theorem main_pv01_rounds_to_minus_478_11 :
    ∃ (r : PriceOutput ℝ) (t : TangentOutput ℝ),
      main_price_swap ℝ Real.exp = Except.ok r ∧
      main_tangent_pv01 ℝ Real.exp = Except.ok t ∧
      r.pv01 = t.swap_pv_dot ∧
      |r.pv01 - (-478.11)| ≤ 0.005 ∧
      |t.swap_pv_dot - (-478.11)| ≤ 0.005 := by
  obtain ⟨r, hr, -, hpv⟩ := main_price_swap_value
  obtain ⟨t, ht, hdot⟩ := main_tangent_pv01_value
  have hS := main_annuity_bounds
  refine ⟨r, t, hr, ht, by rw [hpv, hdot], ?_, ?_⟩
  · rw [abs_le, hpv]
    constructor <;> linarith [hS.1, hS.2]
  · rw [abs_le, hdot]
    constructor <;> linarith [hS.1, hS.2]

variable {α : Type} [Field α]

/-- The value `swapPV` is affine in the fixed rate, with slope
`payReceive * fixedAnnuity`. -/
theorem swapPV_fixed_rate_bump (exp : α → α) (payReceive : Int)
    (notional fixed_rate : α) (fixed_tau fixed_t : List α) (float_spread : α)
    (float_tau float_t float_rates : List α) (zero_rate delta : α) :
    swapPV exp payReceive notional (fixed_rate + delta) fixed_tau fixed_t float_spread
        float_tau float_t float_rates zero_rate -
      swapPV exp payReceive notional fixed_rate fixed_tau fixed_t float_spread float_tau
        float_t float_rates zero_rate =
      (payReceive : α) * fixedAnnuity exp notional fixed_tau fixed_t zero_rate * delta := by
  have h : fixedLegPV exp notional (fixed_rate + delta) fixed_tau fixed_t zero_rate =
      fixedLegPV exp notional fixed_rate fixed_tau fixed_t zero_rate +
        fixedAnnuity exp notional fixed_tau fixed_t zero_rate * delta := by
    unfold fixedLegPV fixedAnnuity
    rw [Finset.sum_mul, ← Finset.sum_add_distrib]
    exact Finset.sum_congr rfl (fun i _ => by ring)
  unfold swapPV
  rw [h]
  ring

/-- C12 (amended): on every valid swap specification, the PV01 reported by `price_swap`
is `-payReceive` times the fixed-leg annuity (the sum over the fixed periods of
`notional * fixed_tau[i] * exp (-zero_rate * fixed_t[i])`) times one basis point, and it
equals minus the change of `swap_pv` when `fixed_rate` is raised by `0.0001` with every
other input unchanged; `swap_pv` is affine in `fixed_rate`: raising it by any `delta`
changes `swap_pv` by `payReceive * annuity * delta`. -/
theorem price_swap_pv01_closed_form (exp : α → α) (payReceive : Int)
    (notional fixed_rate : α) (fixed_tau fixed_t : List α) (float_spread : α)
    (float_tau float_t float_rates : List α) (zero_rate : α)
    (h0 : fixed_tau.length = fixed_t.length) (h1 : float_tau.length = float_t.length)
    (h2 : float_rates.length = float_t.length) :
    ∃ (r0 r1 : PriceOutput α),
      price_swap exp payReceive notional fixed_rate fixed_tau fixed_t float_spread
          float_tau float_t float_rates zero_rate = Except.ok r0 ∧
      price_swap exp payReceive notional (fixed_rate + 0.0001) fixed_tau fixed_t
          float_spread float_tau float_t float_rates zero_rate = Except.ok r1 ∧
      r0.pv01 = -(payReceive : α) *
        (∑ i in Finset.range fixed_t.length,
          notional * fixed_tau.getD i 0 * exp (-zero_rate * fixed_t.getD i 0)) * 0.0001 ∧
      r0.pv01 = -(r1.swap_pv - r0.swap_pv) ∧
      ∀ delta : α, ∃ r : PriceOutput α,
        price_swap exp payReceive notional (fixed_rate + delta) fixed_tau fixed_t
            float_spread float_tau float_t float_rates zero_rate = Except.ok r ∧
        r.swap_pv - r0.swap_pv = (payReceive : α) *
          (∑ i in Finset.range fixed_t.length,
            notional * fixed_tau.getD i 0 * exp (-zero_rate * fixed_t.getD i 0)) *
            delta := by
  refine ⟨_, _,
    price_swap_eq exp payReceive notional fixed_rate fixed_tau fixed_t float_spread
      float_tau float_t float_rates zero_rate h0 h1 h2,
    price_swap_eq exp payReceive notional (fixed_rate + 0.0001) fixed_tau fixed_t
      float_spread float_tau float_t float_rates zero_rate h0 h1 h2, ?_, ?_, ?_⟩
  · show ((-payReceive : Int) : α) * fixedAnnuity exp notional fixed_tau fixed_t zero_rate *
      0.0001 = _
    rw [Int.cast_neg]
    rfl
  · show ((-payReceive : Int) : α) * fixedAnnuity exp notional fixed_tau fixed_t zero_rate *
      0.0001 = -(swapPV _ _ _ _ _ _ _ _ _ _ _ - swapPV _ _ _ _ _ _ _ _ _ _ _)
    rw [swapPV_fixed_rate_bump, Int.cast_neg]
    ring
  · intro delta
    exact ⟨_, price_swap_eq exp payReceive notional (fixed_rate + delta) fixed_tau
        fixed_t float_spread float_tau float_t float_rates zero_rate h0 h1 h2,
      swapPV_fixed_rate_bump exp payReceive notional fixed_rate fixed_tau fixed_t
        float_spread float_tau float_t float_rates zero_rate delta⟩

/-- The statement of C12 (amended) at the swap built in `main`, over the reals. -/
theorem price_swap_pv01_closed_form_witness :
    ((main_fixed_tau ℝ).length = (main_fixed_t ℝ).length ∧
      (main_float_tau ℝ).length = (main_float_t ℝ).length ∧
      (main_float_rates ℝ).length = (main_float_t ℝ).length) ∧
    ∃ (r0 r1 : PriceOutput ℝ),
      price_swap Real.exp main_payReceive (main_notional ℝ) (main_fixed_rate ℝ)
          (main_fixed_tau ℝ) (main_fixed_t ℝ) (main_float_spread ℝ) (main_float_tau ℝ)
          (main_float_t ℝ) (main_float_rates ℝ) (main_zero_rate ℝ) = Except.ok r0 ∧
      price_swap Real.exp main_payReceive (main_notional ℝ) (main_fixed_rate ℝ + 0.0001)
          (main_fixed_tau ℝ) (main_fixed_t ℝ) (main_float_spread ℝ) (main_float_tau ℝ)
          (main_float_t ℝ) (main_float_rates ℝ) (main_zero_rate ℝ) = Except.ok r1 ∧
      r0.pv01 = -(r1.swap_pv - r0.swap_pv) := by
  refine ⟨⟨rfl, rfl, rfl⟩, ?_⟩
  obtain ⟨r0, r1, h0, h1, -, h, -⟩ :=
    price_swap_pv01_closed_form Real.exp main_payReceive (main_notional ℝ)
      (main_fixed_rate ℝ) (main_fixed_tau ℝ) (main_fixed_t ℝ) (main_float_spread ℝ)
      (main_float_tau ℝ) (main_float_t ℝ) (main_float_rates ℝ) (main_zero_rate ℝ)
      rfl rfl rfl
  exact ⟨r0, r1, h0, h1, h⟩

/-- C12 (counterexample): for the swap of `main`, the PV01 reported by `price_swap` is
not the change of `swap_pv` when `fixed_rate` is raised by `0.0001`: the PV01 is
negative and the change is positive. -/
theorem main_pv01_ne_fixed_rate_sensitivity :
    ∃ (r0 r1 : PriceOutput ℝ),
      main_price_swap ℝ Real.exp = Except.ok r0 ∧
      price_swap Real.exp main_payReceive (main_notional ℝ) (main_fixed_rate ℝ + 0.0001)
          (main_fixed_tau ℝ) (main_fixed_t ℝ) (main_float_spread ℝ) (main_float_tau ℝ)
          (main_float_t ℝ) (main_float_rates ℝ) (main_zero_rate ℝ) = Except.ok r1 ∧
      r0.pv01 < 0 ∧ 0 < r1.swap_pv - r0.swap_pv ∧
      r0.pv01 ≠ r1.swap_pv - r0.swap_pv := by
  obtain ⟨r0, hr0, -, hpv⟩ := main_price_swap_value
  have hS := main_annuity_bounds
  have hr0e := price_swap_eq Real.exp main_payReceive (main_notional ℝ)
    (main_fixed_rate ℝ) (main_fixed_tau ℝ) (main_fixed_t ℝ) (main_float_spread ℝ)
    (main_float_tau ℝ) (main_float_t ℝ) (main_float_rates ℝ) (main_zero_rate ℝ)
    rfl rfl rfl
  have hr0' : main_price_swap ℝ Real.exp = Except.ok r0 := hr0
  unfold main_price_swap at hr0
  rw [hr0e] at hr0
  have hr0v := (Except.ok.inj hr0).symm
  have hbump := swapPV_fixed_rate_bump Real.exp main_payReceive (main_notional ℝ)
    (main_fixed_rate ℝ) (main_fixed_tau ℝ) (main_fixed_t ℝ) (main_float_spread ℝ)
    (main_float_tau ℝ) (main_float_t ℝ) (main_float_rates ℝ) (main_zero_rate ℝ) 0.0001
  have hpv0 : r0.pv01 = ((-main_payReceive : Int) : ℝ) *
      fixedAnnuity Real.exp (main_notional ℝ) (main_fixed_tau ℝ) (main_fixed_t ℝ)
        (main_zero_rate ℝ) * 0.0001 := by rw [hr0v]
  have hsw0 : r0.swap_pv = swapPV Real.exp main_payReceive (main_notional ℝ)
      (main_fixed_rate ℝ) (main_fixed_tau ℝ) (main_fixed_t ℝ) (main_float_spread ℝ)
      (main_float_tau ℝ) (main_float_t ℝ) (main_float_rates ℝ) (main_zero_rate ℝ) := by
    rw [hr0v]
  have hneg : r0.pv01 < 0 := by rw [hpv]; linarith [hS.1]
  have hdiff : swapPV Real.exp main_payReceive (main_notional ℝ)
      (main_fixed_rate ℝ + 0.0001) (main_fixed_tau ℝ) (main_fixed_t ℝ)
      (main_float_spread ℝ) (main_float_tau ℝ) (main_float_t ℝ) (main_float_rates ℝ)
      (main_zero_rate ℝ) - r0.swap_pv = -r0.pv01 := by
    rw [hsw0, hbump, hpv0]
    simp only [main_payReceive, Int.cast_neg, Int.cast_one]
    ring
  refine ⟨r0, _, hr0',
    price_swap_eq Real.exp main_payReceive (main_notional ℝ) (main_fixed_rate ℝ + 0.0001)
      (main_fixed_tau ℝ) (main_fixed_t ℝ) (main_float_spread ℝ) (main_float_tau ℝ)
      (main_float_t ℝ) (main_float_rates ℝ) (main_zero_rate ℝ) rfl rfl rfl,
    hneg, ?_, ?_⟩
  · show 0 < swapPV _ _ _ _ _ _ _ _ _ _ _ - r0.swap_pv
    rw [hdiff]; linarith
  · show r0.pv01 ≠ swapPV _ _ _ _ _ _ _ _ _ _ _ - r0.swap_pv
    rw [hdiff]; intro h; linarith

end ClaimsFixedRate

/-! ## The toy function and the single-period swap -/

section ClaimsToy

/-- C14: for the toy function and every point `(x1, x2)`, `function` returns
`2 * x1^2 + 3 * x2`; `tangent` with direction `(1, 0)` returns `4 * x1` and with
direction `(0, 1)` returns `3`; `adjoint` with `f_bar = 1` yields
`(x1_bar, x2_bar) = (4 * x1, 3)`, so that
`tangent x1 x2 d1 d2 = x1_bar * d1 + x2_bar * d2`.  At `(2, 3)` these are `17`, `8`, `3`
and `(8, 3)`.  Over the reals the two tangent values are the partial derivatives of
`function`. -/
theorem toy_function_tangent_adjoint (α : Type) [Field α] :
    (∀ x1 x2 : α,
      SimpleFunction.function x1 x2 = 2 * x1 ^ 2 + 3 * x2 ∧
      SimpleFunction.tangent x1 x2 1 0 = 4 * x1 ∧
      SimpleFunction.tangent x1 x2 0 1 = 3 ∧
      SimpleFunction.adjoint x1 x2 1 = (4 * x1, 3) ∧
      ∀ d1 d2 : α, SimpleFunction.tangent x1 x2 d1 d2 =
        (SimpleFunction.adjoint x1 x2 1).1 * d1 +
          (SimpleFunction.adjoint x1 x2 1).2 * d2) ∧
    (SimpleFunction.function (2 : α) 3 = 17 ∧
      SimpleFunction.tangent (2 : α) 3 1 0 = 8 ∧
      SimpleFunction.tangent (2 : α) 3 0 1 = 3 ∧
      SimpleFunction.adjoint (2 : α) 3 1 = (8, 3)) ∧
    (∀ x1 x2 : ℝ,
      HasDerivAt (fun x : ℝ => SimpleFunction.function x x2)
        (SimpleFunction.tangent x1 x2 1 0) x1 ∧
      HasDerivAt (fun y : ℝ => SimpleFunction.function x1 y)
        (SimpleFunction.tangent x1 x2 0 1) x2) := by
  refine ⟨fun x1 x2 => ⟨?_, ?_, ?_, ?_, fun d1 d2 => ?_⟩, ⟨?_, ?_, ?_, ?_⟩,
    fun x1 x2 => ⟨?_, ?_⟩⟩
  · simp only [SimpleFunction.function]; ring
  · simp only [SimpleFunction.tangent]; ring
  · simp only [SimpleFunction.tangent]; ring
  · simp only [SimpleFunction.adjoint, Prod.mk.injEq]
    constructor <;> ring
  · simp only [SimpleFunction.tangent, SimpleFunction.adjoint]; ring
  · simp only [SimpleFunction.function]; norm_num
  · simp only [SimpleFunction.tangent]; norm_num
  · simp only [SimpleFunction.tangent]; norm_num
  · simp only [SimpleFunction.adjoint, Prod.mk.injEq]
    constructor <;> norm_num
  · have h : HasDerivAt (fun x : ℝ => 2 * (x * x) + 3 * x2) (2 * (1 * x1 + x1 * 1)) x1 :=
      ((((hasDerivAt_id x1).mul (hasDerivAt_id x1)).const_mul 2).add_const (3 * x2))
    simp only [SimpleFunction.function, SimpleFunction.tangent]
    convert h using 1
    ring
  · have h : HasDerivAt (fun y : ℝ => 2 * (x1 * x1) + 3 * y) (3 * 1) x2 :=
      (((hasDerivAt_id x2).const_mul 3).const_add (2 * (x1 * x1)))
    simp only [SimpleFunction.function, SimpleFunction.tangent]
    convert h using 1
    ring

/-- The derivative at `eps = 0` of `swap_pv` along `(f + eps * f_dot, z + eps * z_dot)`:
it is the value of `tangent` plus the term `-phi * n * s * tau * df_dot` that the
product rule on `(f + s) * tau * df` contributes. -/
theorem hasDerivAt_simple_swap_pv (phi n r tau t f s z f_dot z_dot : ℝ) :
    HasDerivAt
      (fun eps : ℝ => SimpleSwap.swap_pv Real.exp phi n r tau t (f + eps * f_dot) s
        (z + eps * z_dot))
      (SimpleSwap.tangent Real.exp phi n r tau t f s z f_dot z_dot +
        -phi * n * s * tau * (-t * Real.exp (-z * t) * z_dot)) 0 := by
  have hdf := hasDerivAt_discount_factor z z_dot t
  have hfix := hdf.const_mul (phi * n * r * tau)
  have hA : HasDerivAt (fun eps : ℝ => -phi * n * ((f + eps * f_dot) + s) * tau)
      (-phi * n * (1 * f_dot) * tau) 0 :=
    (((((hasDerivAt_id (0 : ℝ)).mul_const f_dot).const_add f).add_const s).const_mul
      (-phi * n)).mul_const tau
  have hflt := hA.mul hdf
  have h := hfix.add hflt
  simp only [zero_mul, add_zero] at h
  simp only [SimpleSwap.swap_pv, SimpleSwap.tangent]
  convert h using 1
  ring

/-- C15 (the code at a failing input): with the data of `main` in `AD-Simple-Swap.cpp`
but a floating spread `s = 0.01`, `tangent` returns `-101 * exp (-0.02)` while the
derivative at `eps = 0` of `swap_pv (phi, n, r, tau, t, f + eps * f_dot, s,
z + eps * z_dot)` is `-100 * exp (-0.02)`: the line for `pv_float_dot` multiplies
`df_dot` by `f` where the product rule gives `f + s`. -/
theorem simple_swap_tangent_drops_spread :
    SimpleSwap.tangent Real.exp 1 1000000 0.02 1 1 0.01 0.01 0.02 0.0001 0.0001 =
      -101 * Real.exp (-0.02) ∧
    HasDerivAt
      (fun eps : ℝ => SimpleSwap.swap_pv Real.exp 1 1000000 0.02 1 1
        (0.01 + eps * 0.0001) 0.01 (0.02 + eps * 0.0001))
      (-100 * Real.exp (-0.02)) 0 ∧
    SimpleSwap.tangent Real.exp 1 1000000 0.02 1 1 0.01 0.01 0.02 0.0001 0.0001 ≠
      -100 * Real.exp (-0.02) := by
  have hval : SimpleSwap.tangent Real.exp 1 1000000 0.02 1 1 0.01 0.01 0.02 0.0001
      0.0001 = -101 * Real.exp (-0.02) := by
    simp only [SimpleSwap.tangent]
    norm_num
    ring
  refine ⟨hval, ?_, ?_⟩
  · have h := hasDerivAt_simple_swap_pv 1 1000000 0.02 1 1 0.01 0.01 0.02 0.0001 0.0001
    rw [hval] at h
    convert h using 1
    norm_num
    ring
  · rw [hval]
    intro h
    have hpos := Real.exp_pos (-0.02)
    linarith

/-- When the floating spread is `0` (as in `main` of `AD-Simple-Swap.cpp`), `tangent`
is the directional derivative of `swap_pv`. -/
theorem simple_swap_tangent_zero_spread (phi n r tau t f z f_dot z_dot : ℝ) :
    HasDerivAt
      (fun eps : ℝ => SimpleSwap.swap_pv Real.exp phi n r tau t (f + eps * f_dot) 0
        (z + eps * z_dot))
      (SimpleSwap.tangent Real.exp phi n r tau t f 0 z f_dot z_dot) 0 := by
  have h := hasDerivAt_simple_swap_pv phi n r tau t f 0 z f_dot z_dot
  convert h using 1
  ring

end ClaimsToy

/-! ## Traversal order of the back-propagation loops -/

section Traversal

/-- A downward loop of `n` iterations that succeeds runs its body with the indices
`n-1, n-2, ..., 0`, in this order. -/
theorem forDown_withTrace {σ : Type} (body : Nat → σ → Except SwapError σ) :
    ∀ (n : Nat) (s u : σ) (l : List Nat), forDown body n s = Except.ok u →
      forDown (withTrace body) n (s, l) = Except.ok (u, l ++ (List.range n).reverse) := by
  intro n
  induction n with
  | zero =>
    intro s u l h
    simp only [forDown] at h
    cases h
    simp [forDown]
  | succ n ih =>
    intro s u l h
    simp only [forDown] at h
    cases hb : body n s with
    | error e => rw [hb] at h; cases h
    | ok v =>
      rw [hb, bind_ok_eq] at h
      simp only [forDown, withTrace, hb, bind_ok_eq]
      rw [ih v u (l ++ [n]) h, List.range_succ, List.reverse_append]
      simp

variable {α : Type} [Field α]

/-- One iteration of the backward loop over the float leg, for an index below the
sizes. -/
theorem adjoint_float_backward_step (exp : α → α) (notional float_spread : α)
    (float_tau float_t float_rates : List α) (zero_rate : α)
    (float_df shift_size_float_df : List α) (float_pv_bar shift_size_f shift_size_z : α)
    (h1 : float_tau.length = float_t.length) (h2 : float_rates.length = float_t.length)
    (hdf : float_df.length = float_t.length)
    (hsh : shift_size_float_df.length = float_t.length)
    (hdfv : ∀ j, j < float_t.length →
      float_df.getD j 0 = exp (-zero_rate * float_t.getD j 0))
    (hshv : ∀ j, j < float_t.length → shift_size_float_df.getD j 0 =
      exp (-(zero_rate + shift_size_z) * float_t.getD j 0) -
        exp (-zero_rate * float_t.getD j 0))
    (j : Nat) (hj : j < float_t.length) (a b c : α) :
    adjoint_float_backward_body exp notional float_spread float_tau float_t float_rates
        zero_rate float_df shift_size_float_df float_pv_bar shift_size_f j (a, b, c) =
      Except.ok
        (a + notional * float_tau.getD j 0 * exp (-zero_rate * float_t.getD j 0) *
            float_pv_bar * shift_size_f,
          b + notional * (float_rates.getD j 0 + float_spread) * float_tau.getD j 0 *
            float_pv_bar *
            (exp (-(zero_rate + shift_size_z) * float_t.getD j 0) -
              exp (-zero_rate * float_t.getD j 0)),
          c + -float_t.getD j 0 * exp (-zero_rate * float_t.getD j 0) *
            (b + notional * (float_rates.getD j 0 + float_spread) * float_tau.getD j 0 *
              float_pv_bar *
              (exp (-(zero_rate + shift_size_z) * float_t.getD j 0) -
                exp (-zero_rate * float_t.getD j 0)))) := by
  simp only [adjoint_float_backward_body, vecGet_of_lt hj, bind_ok_eq,
    vecGet_of_lt (h1 ▸ hj), vecGet_of_lt (h2 ▸ hj), vecGet_of_lt (hdf ▸ hj),
    vecGet_of_lt (hsh ▸ hj), hdfv j hj, hshv j hj, pure_eq_ok]

/-- One iteration of the backward loop over the fixed leg, for an index below the
sizes. -/
theorem adjoint_fixed_backward_step (exp : α → α) (notional fixed_rate : α)
    (fixed_tau fixed_t : List α) (zero_rate : α) (shift_size_fixed_df : List α)
    (fixed_pv_bar shift_size_z : α)
    (h : fixed_tau.length = fixed_t.length)
    (hsh : shift_size_fixed_df.length = fixed_t.length)
    (hshv : ∀ j, j < fixed_t.length → shift_size_fixed_df.getD j 0 =
      exp (-(zero_rate + shift_size_z) * fixed_t.getD j 0) -
        exp (-zero_rate * fixed_t.getD j 0))
    (j : Nat) (hj : j < fixed_t.length) (b c : α) :
    adjoint_fixed_backward_body exp notional fixed_rate fixed_tau fixed_t zero_rate
        shift_size_fixed_df fixed_pv_bar j (b, c) =
      Except.ok
        (b + notional * fixed_rate * fixed_tau.getD j 0 * fixed_pv_bar *
            (exp (-(zero_rate + shift_size_z) * fixed_t.getD j 0) -
              exp (-zero_rate * fixed_t.getD j 0)),
          c + -fixed_t.getD j 0 * exp (-zero_rate * fixed_t.getD j 0) *
            (b + notional * fixed_rate * fixed_tau.getD j 0 * fixed_pv_bar *
              (exp (-(zero_rate + shift_size_z) * fixed_t.getD j 0) -
                exp (-zero_rate * fixed_t.getD j 0)))) := by
  simp only [adjoint_fixed_backward_body, vecGet_of_lt hj, bind_ok_eq,
    vecGet_of_lt (h ▸ hj), vecGet_of_lt (hsh ▸ hj), hshv j hj, pure_eq_ok]

/-- The float-leg back-propagation body run in forward index order accumulates the same
`float_rates_bar` and `discount_factor_bar`. -/
theorem adjoint_float_backward_loop_up (exp : α → α) (notional float_spread : α)
    (float_tau float_t float_rates : List α) (zero_rate : α)
    (float_df shift_size_float_df : List α) (float_pv_bar shift_size_f shift_size_z : α)
    (h1 : float_tau.length = float_t.length) (h2 : float_rates.length = float_t.length)
    (hdf : float_df.length = float_t.length)
    (hsh : shift_size_float_df.length = float_t.length)
    (hdfv : ∀ j, j < float_t.length →
      float_df.getD j 0 = exp (-zero_rate * float_t.getD j 0))
    (hshv : ∀ j, j < float_t.length → shift_size_float_df.getD j 0 =
      exp (-(zero_rate + shift_size_z) * float_t.getD j 0) -
        exp (-zero_rate * float_t.getD j 0)) :
    ∃ zero_rate_bar : α,
      forUp (adjoint_float_backward_body exp notional float_spread float_tau float_t
          float_rates zero_rate float_df shift_size_float_df float_pv_bar shift_size_f)
          0 float_t.length (0, 0, 0) =
        Except.ok
          (floatRatesBarSum exp notional float_tau float_t zero_rate float_pv_bar
              shift_size_f,
            floatDiscountBarSum exp notional float_spread float_tau float_t float_rates
              zero_rate float_pv_bar shift_size_z,
            zero_rate_bar) := by
  obtain ⟨u, hu, hP⟩ := forUp_inv
    (adjoint_float_backward_body exp notional float_spread float_tau float_t float_rates
      zero_rate float_df shift_size_float_df float_pv_bar shift_size_f)
    (fun i s =>
      s.1 = (∑ k in Finset.range i,
          notional * float_tau.getD k 0 * exp (-zero_rate * float_t.getD k 0) *
            float_pv_bar * shift_size_f) ∧
      s.2.1 = (∑ k in Finset.range i,
          notional * (float_rates.getD k 0 + float_spread) * float_tau.getD k 0 *
            float_pv_bar *
            (exp (-(zero_rate + shift_size_z) * float_t.getD k 0) -
              exp (-zero_rate * float_t.getD k 0))))
    float_t.length 0 (0, 0, 0) (by simp)
    (by
      rintro j ⟨a, b, c⟩ _ hj ⟨h3, h4⟩
      simp only at h3 h4
      refine ⟨_, adjoint_float_backward_step exp notional float_spread float_tau float_t
        float_rates zero_rate float_df shift_size_float_df float_pv_bar shift_size_f
        shift_size_z h1 h2 hdf hsh hdfv hshv j (by omega) a b c, ?_, ?_⟩
      · simp only [Finset.sum_range_succ, h3]
      · simp only [Finset.sum_range_succ, h4])
  obtain ⟨a, b, c⟩ := u
  refine ⟨c, ?_⟩
  rw [hu]
  have h3 := hP.1
  have h4 := hP.2
  simp only [Nat.zero_add] at h3 h4
  simp only [h3, h4, floatRatesBarSum, floatDiscountBarSum]

/-- The fixed-leg back-propagation body run in forward index order adds the same
increments to `discount_factor_bar`. -/
theorem adjoint_fixed_backward_loop_up (exp : α → α) (notional fixed_rate : α)
    (fixed_tau fixed_t : List α) (zero_rate : α) (shift_size_fixed_df : List α)
    (fixed_pv_bar shift_size_z : α) (d0 z0 : α)
    (h : fixed_tau.length = fixed_t.length)
    (hsh : shift_size_fixed_df.length = fixed_t.length)
    (hshv : ∀ j, j < fixed_t.length → shift_size_fixed_df.getD j 0 =
      exp (-(zero_rate + shift_size_z) * fixed_t.getD j 0) -
        exp (-zero_rate * fixed_t.getD j 0)) :
    ∃ zero_rate_bar : α,
      forUp (adjoint_fixed_backward_body exp notional fixed_rate fixed_tau fixed_t
          zero_rate shift_size_fixed_df fixed_pv_bar) 0 fixed_t.length (d0, z0) =
        Except.ok
          (d0 + fixedDiscountBarSum exp notional fixed_rate fixed_tau fixed_t zero_rate
              fixed_pv_bar shift_size_z,
            zero_rate_bar) := by
  obtain ⟨u, hu, hP⟩ := forUp_inv
    (adjoint_fixed_backward_body exp notional fixed_rate fixed_tau fixed_t zero_rate
      shift_size_fixed_df fixed_pv_bar)
    (fun i s =>
      s.1 = d0 + (∑ k in Finset.range i,
          notional * fixed_rate * fixed_tau.getD k 0 * fixed_pv_bar *
            (exp (-(zero_rate + shift_size_z) * fixed_t.getD k 0) -
              exp (-zero_rate * fixed_t.getD k 0))))
    fixed_t.length 0 (d0, z0) (by simp)
    (by
      rintro j ⟨b, c⟩ _ hj h3
      simp only at h3
      refine ⟨_, adjoint_fixed_backward_step exp notional fixed_rate fixed_tau fixed_t
        zero_rate shift_size_fixed_df fixed_pv_bar shift_size_z h hsh hshv j (by omega)
        b c, ?_⟩
      simp only [Finset.sum_range_succ, h3, add_assoc])
  obtain ⟨b, c⟩ := u
  refine ⟨c, ?_⟩
  rw [hu]
  have h3 := hP
  simp only [Nat.zero_add] at h3
  simp only [h3, fixedDiscountBarSum]

/-- What `swap_price_adjoint_mode_forward_order` returns on a specification that passes
the three length checks. -/
theorem swap_price_adjoint_mode_forward_order_eq (exp : α → α) (payReceive : Int)
    (notional fixed_rate : α) (fixed_tau fixed_t : List α) (float_spread : α)
    (float_tau float_t float_rates : List α) (zero_rate swap_pv_bar : α)
    (h0 : fixed_tau.length = fixed_t.length) (h1 : float_tau.length = float_t.length)
    (h2 : float_rates.length = float_t.length) :
    ∃ zero_rate_bar : α,
      swap_price_adjoint_mode_forward_order exp payReceive notional fixed_rate fixed_tau
          fixed_t float_spread float_tau float_t float_rates zero_rate swap_pv_bar =
        Except.ok
          { swap_pv := swapPV exp payReceive notional fixed_rate fixed_tau fixed_t
              float_spread float_tau float_t float_rates zero_rate
            float_rates_bar := floatRatesBarSum exp notional float_tau float_t zero_rate
              (((-payReceive : Int) : α) * swap_pv_bar) 0.0001
            discount_factor_bar :=
              floatDiscountBarSum exp notional float_spread float_tau float_t float_rates
                  zero_rate (((-payReceive : Int) : α) * swap_pv_bar) 0.0001 +
                fixedDiscountBarSum exp notional fixed_rate fixed_tau fixed_t zero_rate
                  ((payReceive : α) * swap_pv_bar) 0.0001
            dv01 := floatRatesBarSum exp notional float_tau float_t zero_rate
                (((-payReceive : Int) : α) * swap_pv_bar) 0.0001 +
              (floatDiscountBarSum exp notional float_spread float_tau float_t float_rates
                  zero_rate (((-payReceive : Int) : α) * swap_pv_bar) 0.0001 +
                fixedDiscountBarSum exp notional fixed_rate fixed_tau fixed_t zero_rate
                  ((payReceive : α) * swap_pv_bar) 0.0001)
            zero_rate_bar := zero_rate_bar } := by
  obtain ⟨c1, hc1, hc1a, hc1b, -, hc1d⟩ := adjoint_cache_loop exp zero_rate 0.0001 fixed_t
  obtain ⟨c2, hc2, hc2a, hc2b, -, hc2d⟩ := adjoint_cache_loop exp zero_rate 0.0001 float_t
  obtain ⟨df1, hf1, -⟩ := adjoint_fixed_forward_loop exp notional fixed_rate fixed_tau
    fixed_t zero_rate c1.1 h0 hc1a
  obtain ⟨df2, hf2, hdf2, hdf2v⟩ := adjoint_float_forward_loop exp notional float_spread
    float_tau float_t float_rates zero_rate c2.1 h1 h2 hc2a
  obtain ⟨z1, hb1⟩ := adjoint_float_backward_loop_up exp notional float_spread float_tau
    float_t float_rates zero_rate df2 c2.2.2 (((-payReceive : Int) : α) * swap_pv_bar)
    0.0001 0.0001 h1 h2 hdf2 hc2b hdf2v hc2d
  obtain ⟨z2, hb2⟩ := adjoint_fixed_backward_loop_up exp notional fixed_rate fixed_tau
    fixed_t zero_rate c1.2.2 ((payReceive : α) * swap_pv_bar) 0.0001
    (floatDiscountBarSum exp notional float_spread float_tau float_t float_rates
      zero_rate (((-payReceive : Int) : α) * swap_pv_bar) 0.0001) z1 h0 hc1b hc1d
  refine ⟨z2, ?_⟩
  simp only [swap_price_adjoint_mode_forward_order, h0, h1, h2, ne_eq, not_true_eq_false,
    if_false, hc1, hc2, hf1, hf2, hb1, hb2, bind_ok_eq, pure_eq_ok, swapPV]

end Traversal

section Permutation

theorem getD_zip_of_length_eq {β γ : Type} :
    ∀ (a : List β) (b : List γ), a.length = b.length → ∀ (i : Nat) (da : β) (db : γ),
      (List.zip a b).getD i (da, db) = (a.getD i da, b.getD i db) := by
  intro a
  induction a with
  | nil =>
    intro b h i da db
    cases b with
    | nil => simp
    | cons y b => simp at h
  | cons x a ih =>
    intro b h i da db
    cases b with
    | nil => simp at h
    | cons y b =>
      cases i with
      | zero => simp
      | succ i =>
        simp only [List.zip_cons_cons, List.getD_cons_succ]
        exact ih b (by simpa using h) i da db

theorem sum_range_getD_eq_sum_map {β α : Type} [AddCommMonoid α] (g : β → α) (d : β) :
    ∀ l : List β, (∑ i in Finset.range l.length, g (l.getD i d)) = (l.map g).sum := by
  intro l
  induction l with
  | nil => simp
  | cons x l ih =>
    rw [List.length_cons, Finset.sum_range_succ', List.map_cons, List.sum_cons, add_comm]
    simp only [List.getD_cons_zero, List.getD_cons_succ]
    rw [ih]

variable {α : Type} [Field α]

/-- The sum of the increments of `float_rates_bar`, as a sum over the list of the float
periods `(float_tau[j], float_t[j], float_rates[j])`. -/
theorem floatRatesBarSum_eq_list_sum (exp : α → α) (notional : α)
    (float_tau float_t float_rates : List α) (zero_rate float_pv_bar shift_size_f : α)
    (h1 : float_tau.length = float_t.length) (h2 : float_rates.length = float_t.length) :
    floatRatesBarSum exp notional float_tau float_t zero_rate float_pv_bar shift_size_f =
      ((List.zip float_tau (List.zip float_t float_rates)).map (fun p =>
        notional * p.1 * exp (-zero_rate * p.2.1) * float_pv_bar * shift_size_f)).sum := by
  have hz : (List.zip float_t float_rates).length = float_t.length := by
    simp [List.length_zip, h2]
  have hlen : (List.zip float_tau (List.zip float_t float_rates)).length =
      float_t.length := by
    simp [List.length_zip, h1, h2]
  rw [← sum_range_getD_eq_sum_map _ ((0 : α), ((0 : α), (0 : α))), hlen]
  unfold floatRatesBarSum
  refine Finset.sum_congr rfl (fun j _ => ?_)
  rw [getD_zip_of_length_eq _ _ (by rw [hz, h1]), getD_zip_of_length_eq _ _ h2.symm]

/-- The sum of the float-leg increments of `discount_factor_bar`, as a sum over the list
of the float periods. -/
theorem floatDiscountBarSum_eq_list_sum (exp : α → α) (notional float_spread : α)
    (float_tau float_t float_rates : List α) (zero_rate float_pv_bar shift_size_z : α)
    (h1 : float_tau.length = float_t.length) (h2 : float_rates.length = float_t.length) :
    floatDiscountBarSum exp notional float_spread float_tau float_t float_rates zero_rate
        float_pv_bar shift_size_z =
      ((List.zip float_tau (List.zip float_t float_rates)).map (fun p =>
        notional * (p.2.2 + float_spread) * p.1 * float_pv_bar *
          (exp (-(zero_rate + shift_size_z) * p.2.1) - exp (-zero_rate * p.2.1)))).sum := by
  have hz : (List.zip float_t float_rates).length = float_t.length := by
    simp [List.length_zip, h2]
  have hlen : (List.zip float_tau (List.zip float_t float_rates)).length =
      float_t.length := by
    simp [List.length_zip, h1, h2]
  rw [← sum_range_getD_eq_sum_map _ ((0 : α), ((0 : α), (0 : α))), hlen]
  unfold floatDiscountBarSum
  refine Finset.sum_congr rfl (fun j _ => ?_)
  rw [getD_zip_of_length_eq _ _ (by rw [hz, h1]), getD_zip_of_length_eq _ _ h2.symm]

/-- The sum of the fixed-leg increments of `discount_factor_bar`, as a sum over the list
of the fixed periods `(fixed_tau[i], fixed_t[i])`. -/
theorem fixedDiscountBarSum_eq_list_sum (exp : α → α) (notional fixed_rate : α)
    (fixed_tau fixed_t : List α) (zero_rate fixed_pv_bar shift_size_z : α)
    (h0 : fixed_tau.length = fixed_t.length) :
    fixedDiscountBarSum exp notional fixed_rate fixed_tau fixed_t zero_rate fixed_pv_bar
        shift_size_z =
      ((List.zip fixed_tau fixed_t).map (fun p =>
        notional * fixed_rate * p.1 * fixed_pv_bar *
          (exp (-(zero_rate + shift_size_z) * p.2) - exp (-zero_rate * p.2)))).sum := by
  have hlen : (List.zip fixed_tau fixed_t).length = fixed_t.length := by
    simp [List.length_zip, h0]
  rw [← sum_range_getD_eq_sum_map _ ((0 : α), (0 : α)), hlen]
  unfold fixedDiscountBarSum
  refine Finset.sum_congr rfl (fun j _ => ?_)
  rw [getD_zip_of_length_eq _ _ h0]

end Permutation

section ClaimsTraversal

variable {α : Type} [Field α]

/-- C17: a backward loop `for (j = n; j-- > 0;)` that succeeds terminates having run its
body with the indices `n-1, ..., 0`, each index below `n` exactly once (the visited list
is a permutation of `0, ..., n-1`).  On every valid swap specification
`swap_price_adjoint_mode` produces a result, and its `float_rates_bar` and
`discount_factor_bar` are the same as with the two back-propagation loops traversed in
forward index order, and the same as on any specification obtained by permuting the
periods of the fixed leg (`fixed_tau`, `fixed_t` together) and the periods of the float
leg (`float_tau`, `float_t`, `float_rates` together). -/
theorem adjoint_backward_order_irrelevant (exp : α → α) (payReceive : Int)
    (notional fixed_rate : α) (fixed_tau fixed_t : List α) (float_spread : α)
    (float_tau float_t float_rates : List α) (zero_rate swap_pv_bar : α)
    (h0 : fixed_tau.length = fixed_t.length) (h1 : float_tau.length = float_t.length)
    (h2 : float_rates.length = float_t.length) :
    (∀ (σ : Type) (body : Nat → σ → Except SwapError σ) (n : Nat) (s u : σ),
      forDown body n s = Except.ok u →
      forDown (withTrace body) n (s, []) = Except.ok (u, (List.range n).reverse) ∧
      ((List.range n).reverse).Perm (List.range n)) ∧
    (∃ (a b : AdjointOutput α),
      swap_price_adjoint_mode exp payReceive notional fixed_rate fixed_tau fixed_t
          float_spread float_tau float_t float_rates zero_rate swap_pv_bar =
        Except.ok a ∧
      swap_price_adjoint_mode_forward_order exp payReceive notional fixed_rate fixed_tau
          fixed_t float_spread float_tau float_t float_rates zero_rate swap_pv_bar =
        Except.ok b ∧
      a.float_rates_bar = b.float_rates_bar ∧
      a.discount_factor_bar = b.discount_factor_bar) ∧
    (∀ (fixed_tau' fixed_t' float_tau' float_t' float_rates' : List α),
      fixed_tau'.length = fixed_t'.length → float_tau'.length = float_t'.length →
      float_rates'.length = float_t'.length →
      (List.zip fixed_tau fixed_t).Perm (List.zip fixed_tau' fixed_t') →
      (List.zip float_tau (List.zip float_t float_rates)).Perm
        (List.zip float_tau' (List.zip float_t' float_rates')) →
      ∃ (a a' : AdjointOutput α),
        swap_price_adjoint_mode exp payReceive notional fixed_rate fixed_tau fixed_t
            float_spread float_tau float_t float_rates zero_rate swap_pv_bar =
          Except.ok a ∧
        swap_price_adjoint_mode exp payReceive notional fixed_rate fixed_tau' fixed_t'
            float_spread float_tau' float_t' float_rates' zero_rate swap_pv_bar =
          Except.ok a' ∧
        a.float_rates_bar = a'.float_rates_bar ∧
        a.discount_factor_bar = a'.discount_factor_bar) := by
  obtain ⟨z, hz⟩ := swap_price_adjoint_mode_eq exp payReceive notional fixed_rate
    fixed_tau fixed_t float_spread float_tau float_t float_rates zero_rate swap_pv_bar
    h0 h1 h2
  refine ⟨fun σ body n s u h => ⟨?_, List.reverse_perm _⟩, ?_, ?_⟩
  · have := forDown_withTrace body n s u [] h
    simpa using this
  · obtain ⟨w, hw⟩ := swap_price_adjoint_mode_forward_order_eq exp payReceive notional
      fixed_rate fixed_tau fixed_t float_spread float_tau float_t float_rates zero_rate
      swap_pv_bar h0 h1 h2
    exact ⟨_, _, hz, hw, rfl, rfl⟩
  · intro fixed_tau' fixed_t' float_tau' float_t' float_rates' h0' h1' h2' hfix hflt
    obtain ⟨z', hz'⟩ := swap_price_adjoint_mode_eq exp payReceive notional fixed_rate
      fixed_tau' fixed_t' float_spread float_tau' float_t' float_rates' zero_rate
      swap_pv_bar h0' h1' h2'
    refine ⟨_, _, hz, hz', ?_, ?_⟩
    · show floatRatesBarSum _ _ _ _ _ _ _ = floatRatesBarSum _ _ _ _ _ _ _
      rw [floatRatesBarSum_eq_list_sum exp notional float_tau float_t float_rates _ _ _
          h1 h2,
        floatRatesBarSum_eq_list_sum exp notional float_tau' float_t' float_rates' _ _ _
          h1' h2']
      exact (hflt.map _).sum_eq
    · show floatDiscountBarSum _ _ _ _ _ _ _ _ _ + fixedDiscountBarSum _ _ _ _ _ _ _ _ =
        floatDiscountBarSum _ _ _ _ _ _ _ _ _ + fixedDiscountBarSum _ _ _ _ _ _ _ _
      rw [floatDiscountBarSum_eq_list_sum exp notional float_spread float_tau float_t
          float_rates _ _ _ h1 h2,
        floatDiscountBarSum_eq_list_sum exp notional float_spread float_tau' float_t'
          float_rates' _ _ _ h1' h2',
        fixedDiscountBarSum_eq_list_sum exp notional fixed_rate fixed_tau fixed_t _ _ _ h0,
        fixedDiscountBarSum_eq_list_sum exp notional fixed_rate fixed_tau' fixed_t' _ _ _
          h0',
        (hflt.map _).sum_eq, (hfix.map _).sum_eq]

/-- The statement of C17 (forward against backward traversal) at the swap built in
`main`, over the reals. -/
theorem adjoint_backward_order_irrelevant_witness :
    ((main_fixed_tau ℝ).length = (main_fixed_t ℝ).length ∧
      (main_float_tau ℝ).length = (main_float_t ℝ).length ∧
      (main_float_rates ℝ).length = (main_float_t ℝ).length) ∧
    ∃ (a b : AdjointOutput ℝ),
      swap_price_adjoint_mode Real.exp main_payReceive (main_notional ℝ)
          (main_fixed_rate ℝ) (main_fixed_tau ℝ) (main_fixed_t ℝ) (main_float_spread ℝ)
          (main_float_tau ℝ) (main_float_t ℝ) (main_float_rates ℝ) (main_zero_rate ℝ)
          (main_swap_pv_bar ℝ) = Except.ok a ∧
      swap_price_adjoint_mode_forward_order Real.exp main_payReceive (main_notional ℝ)
          (main_fixed_rate ℝ) (main_fixed_tau ℝ) (main_fixed_t ℝ) (main_float_spread ℝ)
          (main_float_tau ℝ) (main_float_t ℝ) (main_float_rates ℝ) (main_zero_rate ℝ)
          (main_swap_pv_bar ℝ) = Except.ok b ∧
      a.float_rates_bar = b.float_rates_bar ∧
      a.discount_factor_bar = b.discount_factor_bar :=
  ⟨⟨rfl, rfl, rfl⟩,
    (adjoint_backward_order_irrelevant Real.exp main_payReceive (main_notional ℝ)
      (main_fixed_rate ℝ) (main_fixed_tau ℝ) (main_fixed_t ℝ) (main_float_spread ℝ)
      (main_float_tau ℝ) (main_float_t ℝ) (main_float_rates ℝ) (main_zero_rate ℝ)
      (main_swap_pv_bar ℝ) rfl rfl rfl).2.1⟩

end ClaimsTraversal

/-! ## Forward-rate bumps -/

section ClaimsForwardBump

variable {α : Type} [Field α]

/-- The value `swapPV` is affine in the forward rates: moving them by `eps * v` changes
it by `eps` times `-payReceive` times the sum over the float periods of
`notional * float_tau[j] * df_j * v[j]`. -/
theorem swapPV_forward_bump (exp : α → α) (payReceive : Int) (notional fixed_rate : α)
    (fixed_tau fixed_t : List α) (float_spread : α)
    (float_tau float_t float_rates : List α) (zero_rate : α) (v : List α) (eps : α)
    (h2 : float_rates.length = float_t.length) (hv : v.length = float_rates.length) :
    swapPV exp payReceive notional fixed_rate fixed_tau fixed_t float_spread float_tau
        float_t (bumpRates float_rates v eps) zero_rate -
      swapPV exp payReceive notional fixed_rate fixed_tau fixed_t float_spread float_tau
        float_t float_rates zero_rate =
      eps * ((payReceive : α) *
        (fixedLegDot exp notional fixed_rate fixed_tau fixed_t zero_rate 0 -
          floatLegDot exp notional float_spread float_tau float_t float_rates zero_rate
            v 0)) := by
  have hfix : fixedLegDot exp notional fixed_rate fixed_tau fixed_t zero_rate 0 = 0 := by
    unfold fixedLegDot
    exact Finset.sum_eq_zero (fun i _ => by ring)
  have hflt : floatLegPV exp notional float_spread float_tau float_t
        (bumpRates float_rates v eps) zero_rate =
      floatLegPV exp notional float_spread float_tau float_t float_rates zero_rate +
        eps * floatLegDot exp notional float_spread float_tau float_t float_rates
          zero_rate v 0 := by
    unfold floatLegPV floatLegDot
    rw [Finset.mul_sum, ← Finset.sum_add_distrib]
    refine Finset.sum_congr rfl (fun j hj => ?_)
    have hj0 : j < float_t.length := Finset.mem_range.mp hj
    rw [bumpRates, getD_zipWith_of_lt _ (by omega) (by omega)]
    ring
  unfold swapPV
  rw [hflt, hfix]
  ring

/-- C21: on every valid swap specification and for every forward-rate shift vector `v`
of matching length, the risk value of `swap_price_tangent_mode` with
`float_rates_dot = v` and `zero_rate_dot = 0` is equal to the bump-and-reprice
difference: the `swap_pv` of `price_swap` at the forward rates `float_rates + v` minus
the one at `float_rates`.  More generally the `swap_pv` at `float_rates + eps * v` minus
the one at `float_rates` is `eps` times the risk value, for every `eps`: `swap_pv` is
affine in the forward rates. -/
theorem tangent_forward_risk_eq_bump_and_reprice (exp : α → α) (payReceive : Int)
    (notional fixed_rate : α) (fixed_tau fixed_t : List α) (float_spread : α)
    (float_tau float_t float_rates : List α) (zero_rate : α) (v : List α)
    (h0 : fixed_tau.length = fixed_t.length) (h1 : float_tau.length = float_t.length)
    (h2 : float_rates.length = float_t.length) (hv : v.length = float_rates.length) :
    ∃ (t : TangentOutput α) (r0 r1 : PriceOutput α),
      swap_price_tangent_mode exp payReceive notional fixed_rate fixed_tau fixed_t
          float_spread float_tau float_t float_rates zero_rate v 0 = Except.ok t ∧
      price_swap exp payReceive notional fixed_rate fixed_tau fixed_t float_spread
          float_tau float_t float_rates zero_rate = Except.ok r0 ∧
      price_swap exp payReceive notional fixed_rate fixed_tau fixed_t float_spread
          float_tau float_t (List.zipWith (fun r d => r + d) float_rates v) zero_rate =
        Except.ok r1 ∧
      t.swap_pv_dot = r1.swap_pv - r0.swap_pv ∧
      ∀ eps : α, ∃ r : PriceOutput α,
        price_swap exp payReceive notional fixed_rate fixed_tau fixed_t float_spread
            float_tau float_t (bumpRates float_rates v eps) zero_rate = Except.ok r ∧
        r.swap_pv - r0.swap_pv = eps * t.swap_pv_dot := by
  have hone : bumpRates float_rates v 1 = List.zipWith (fun r d => r + d) float_rates v := by
    unfold bumpRates
    congr 1
    funext r d
    rw [one_mul]
  have hlen : ∀ eps : α, (bumpRates float_rates v eps).length = float_t.length := by
    intro eps
    simp [bumpRates, h2, hv]
  refine ⟨_, _, _,
    swap_price_tangent_mode_eq exp payReceive notional fixed_rate fixed_tau fixed_t
      float_spread float_tau float_t float_rates zero_rate v 0 h0 h1 h2 hv,
    price_swap_eq exp payReceive notional fixed_rate fixed_tau fixed_t float_spread
      float_tau float_t float_rates zero_rate h0 h1 h2,
    price_swap_eq exp payReceive notional fixed_rate fixed_tau fixed_t float_spread
      float_tau float_t (List.zipWith (fun r d => r + d) float_rates v) zero_rate h0 h1
      (by rw [← hone]; exact hlen 1), ?_, ?_⟩
  · have h := swapPV_forward_bump exp payReceive notional fixed_rate fixed_tau fixed_t
      float_spread float_tau float_t float_rates zero_rate v 1 h2 hv
    rw [hone, one_mul] at h
    exact h.symm
  · intro eps
    exact ⟨_, price_swap_eq exp payReceive notional fixed_rate fixed_tau fixed_t
        float_spread float_tau float_t (bumpRates float_rates v eps) zero_rate h0 h1
        (hlen eps),
      swapPV_forward_bump exp payReceive notional fixed_rate fixed_tau fixed_t
        float_spread float_tau float_t float_rates zero_rate v eps h2 hv⟩

/-- The statement of C21 at the swap built in `main` with the shift vector `all_f_dot`,
over the reals. -/
theorem tangent_forward_risk_eq_bump_and_reprice_witness :
    ((main_fixed_tau ℝ).length = (main_fixed_t ℝ).length ∧
      (main_float_tau ℝ).length = (main_float_t ℝ).length ∧
      (main_float_rates ℝ).length = (main_float_t ℝ).length ∧
      (main_all_f_dot ℝ).length = (main_float_rates ℝ).length) ∧
    ∃ (t : TangentOutput ℝ) (r0 r1 : PriceOutput ℝ),
      swap_price_tangent_mode Real.exp main_payReceive (main_notional ℝ)
          (main_fixed_rate ℝ) (main_fixed_tau ℝ) (main_fixed_t ℝ) (main_float_spread ℝ)
          (main_float_tau ℝ) (main_float_t ℝ) (main_float_rates ℝ) (main_zero_rate ℝ)
          (main_all_f_dot ℝ) 0 = Except.ok t ∧
      price_swap Real.exp main_payReceive (main_notional ℝ) (main_fixed_rate ℝ)
          (main_fixed_tau ℝ) (main_fixed_t ℝ) (main_float_spread ℝ) (main_float_tau ℝ)
          (main_float_t ℝ) (main_float_rates ℝ) (main_zero_rate ℝ) = Except.ok r0 ∧
      price_swap Real.exp main_payReceive (main_notional ℝ) (main_fixed_rate ℝ)
          (main_fixed_tau ℝ) (main_fixed_t ℝ) (main_float_spread ℝ) (main_float_tau ℝ)
          (main_float_t ℝ)
          (List.zipWith (fun r d => r + d) (main_float_rates ℝ) (main_all_f_dot ℝ))
          (main_zero_rate ℝ) = Except.ok r1 ∧
      t.swap_pv_dot = r1.swap_pv - r0.swap_pv := by
  refine ⟨⟨rfl, rfl, rfl, rfl⟩, ?_⟩
  obtain ⟨t, r0, r1, ht, h0, h1, h, -⟩ :=
    tangent_forward_risk_eq_bump_and_reprice Real.exp main_payReceive (main_notional ℝ)
      (main_fixed_rate ℝ) (main_fixed_tau ℝ) (main_fixed_t ℝ) (main_float_spread ℝ)
      (main_float_tau ℝ) (main_float_t ℝ) (main_float_rates ℝ) (main_zero_rate ℝ)
      (main_all_f_dot ℝ) rfl rfl rfl rfl
  exact ⟨t, r0, r1, ht, h0, h1, h⟩

end ClaimsForwardBump

/-! ## Adjoint DV01 against tangent DV01 -/

section ClaimsDV01Gap

/-- For `u ≥ 0`, the finite shift `exp (-u) - 1` exceeds the analytic rule `-u` by at
most `u^2 / 2`. -/
theorem exp_neg_sub_one_add_bounds (u : ℝ) (hu : 0 ≤ u) :
    0 ≤ Real.exp (-u) - 1 + u ∧ Real.exp (-u) - 1 + u ≤ u ^ 2 / 2 := by
  constructor
  · linarith [Real.one_sub_le_exp_neg u]
  · have hq := Real.quadratic_le_exp_of_nonneg hu
    have hpos : 0 < 1 + u + u ^ 2 / 2 := by positivity
    have hinv : Real.exp (-u) ≤ (1 + u + u ^ 2 / 2)⁻¹ := by
      rw [Real.exp_neg]
      exact inv_anti₀ hpos hq
    have hle : (1 + u + u ^ 2 / 2)⁻¹ ≤ 1 - u + u ^ 2 / 2 := by
      rw [inv_le_iff_one_le_mul₀ hpos]
      nlinarith [sq_nonneg (u ^ 2)]
    linarith

/-- A shifted discount factor is the discount factor times `exp (-h * t)`. -/
theorem shifted_discount_factor_eq (z h t : ℝ) :
    Real.exp (-(z + h) * t) = Real.exp (-z * t) * Real.exp (-(h * t)) := by
  rw [← Real.exp_add]
  congr 1
  ring

/-- The gap of one period: `|c * df * (exp (-h t) - 1 + h t)| ≤ |c| * df * (h t)^2 / 2`
for `h, t ≥ 0`. -/
theorem period_gap_bound (c z h t : ℝ) (hh : 0 ≤ h) (ht : 0 ≤ t) :
    |c * Real.exp (-z * t) * (Real.exp (-(h * t)) - 1 + h * t)| ≤
      |c| * Real.exp (-z * t) * ((h * t) ^ 2 / 2) := by
  have hb := exp_neg_sub_one_add_bounds (h * t) (mul_nonneg hh ht)
  rw [abs_mul, abs_mul, abs_of_pos (Real.exp_pos _), abs_of_nonneg hb.1]
  exact mul_le_mul_of_nonneg_left hb.2 (mul_nonneg (abs_nonneg _) (Real.exp_pos _).le)

/-- Adjoint DV01 minus tangent DV01, period by period: the forward parts cancel and
each period contributes its coefficient times `df * (exp (-h t) - 1 + h t)`. -/
theorem dv01_gap_eq (payReceive : Int) (notional fixed_rate : ℝ)
    (fixed_tau fixed_t : List ℝ) (float_spread : ℝ)
    (float_tau float_t float_rates : List ℝ) (zero_rate h : ℝ)
    (h2 : float_rates.length = float_t.length) :
    floatRatesBarSum Real.exp notional float_tau float_t zero_rate
          (((-payReceive : Int) : ℝ) * 1) h +
        (floatDiscountBarSum Real.exp notional float_spread float_tau float_t float_rates
            zero_rate (((-payReceive : Int) : ℝ) * 1) h +
          fixedDiscountBarSum Real.exp notional fixed_rate fixed_tau fixed_t zero_rate
            ((payReceive : ℝ) * 1) h) -
        (payReceive : ℝ) *
          (fixedLegDot Real.exp notional fixed_rate fixed_tau fixed_t zero_rate h -
            floatLegDot Real.exp notional float_spread float_tau float_t float_rates
              zero_rate (List.replicate float_rates.length h) h) =
      (∑ i in Finset.range fixed_t.length,
          ((payReceive : ℝ) * (notional * fixed_rate * fixed_tau.getD i 0)) *
            Real.exp (-zero_rate * fixed_t.getD i 0) *
            (Real.exp (-(h * fixed_t.getD i 0)) - 1 + h * fixed_t.getD i 0)) +
        (∑ j in Finset.range float_t.length,
          (-(payReceive : ℝ) *
              (notional * (float_rates.getD j 0 + float_spread) * float_tau.getD j 0)) *
            Real.exp (-zero_rate * float_t.getD j 0) *
            (Real.exp (-(h * float_t.getD j 0)) - 1 + h * float_t.getD j 0)) := by
  have hA : fixedDiscountBarSum Real.exp notional fixed_rate fixed_tau fixed_t zero_rate
        ((payReceive : ℝ) * 1) h -
      (payReceive : ℝ) *
        fixedLegDot Real.exp notional fixed_rate fixed_tau fixed_t zero_rate h =
      ∑ i in Finset.range fixed_t.length,
        ((payReceive : ℝ) * (notional * fixed_rate * fixed_tau.getD i 0)) *
          Real.exp (-zero_rate * fixed_t.getD i 0) *
          (Real.exp (-(h * fixed_t.getD i 0)) - 1 + h * fixed_t.getD i 0) := by
    unfold fixedDiscountBarSum fixedLegDot
    rw [Finset.mul_sum, ← Finset.sum_sub_distrib]
    refine Finset.sum_congr rfl (fun i _ => ?_)
    rw [shifted_discount_factor_eq]
    ring
  have hB : floatRatesBarSum Real.exp notional float_tau float_t zero_rate
          (((-payReceive : Int) : ℝ) * 1) h +
        floatDiscountBarSum Real.exp notional float_spread float_tau float_t float_rates
          zero_rate (((-payReceive : Int) : ℝ) * 1) h +
        (payReceive : ℝ) *
          floatLegDot Real.exp notional float_spread float_tau float_t float_rates
            zero_rate (List.replicate float_rates.length h) h =
      ∑ j in Finset.range float_t.length,
        (-(payReceive : ℝ) *
            (notional * (float_rates.getD j 0 + float_spread) * float_tau.getD j 0)) *
          Real.exp (-zero_rate * float_t.getD j 0) *
          (Real.exp (-(h * float_t.getD j 0)) - 1 + h * float_t.getD j 0) := by
    unfold floatRatesBarSum floatDiscountBarSum floatLegDot
    rw [Finset.mul_sum, ← Finset.sum_add_distrib, ← Finset.sum_add_distrib, Int.cast_neg]
    refine Finset.sum_congr rfl (fun j hj => ?_)
    rw [getD_replicate_of_lt (by rw [h2]; exact Finset.mem_range.mp hj),
      shifted_discount_factor_eq]
    ring
  rw [← hA, ← hB]
  ring

end ClaimsDV01Gap

section ClaimsDV01Bound

/-- C22: on every valid swap specification (the three length checks pass and
`payReceive` is one of the two signs `1`, `-1`) whose payment times are all `≥ 0`, the
adjoint DV01 with `swap_pv_bar = 1` and the tangent DV01 (all forward dots `0.0001`,
`zero_rate_dot = 0.0001`) differ by at most
`(1/2) * 0.0001^2 * sum over all fixed and float periods k of
|a_k| * t_k^2 * exp (-zero_rate * t_k)`, where
`a_k = notional * fixed_rate * fixed_tau[i]` for a fixed period and
`a_k = notional * (float_rates[j] + float_spread) * float_tau[j]` for a float period.
The difference comes only from the discount risk: it is the adjoint
`discount_factor_bar` minus the tangent risk value of the discount-only scenario (all
forward dots `0`, `zero_rate_dot = 0.0001`). -/
theorem adjoint_tangent_dv01_gap_bound (payReceive : Int) (notional fixed_rate : ℝ)
    (fixed_tau fixed_t : List ℝ) (float_spread : ℝ)
    (float_tau float_t float_rates : List ℝ) (zero_rate : ℝ)
    (h0 : fixed_tau.length = fixed_t.length) (h1 : float_tau.length = float_t.length)
    (h2 : float_rates.length = float_t.length)
    (hp : payReceive = 1 ∨ payReceive = -1)
    (hfix : ∀ t ∈ fixed_t, 0 ≤ t) (hflt : ∀ t ∈ float_t, 0 ≤ t) :
    ∃ (a : AdjointOutput ℝ) (t td : TangentOutput ℝ),
      swap_price_adjoint_mode Real.exp payReceive notional fixed_rate fixed_tau fixed_t
          float_spread float_tau float_t float_rates zero_rate 1 = Except.ok a ∧
      swap_price_tangent_mode Real.exp payReceive notional fixed_rate fixed_tau fixed_t
          float_spread float_tau float_t float_rates zero_rate
          (List.replicate float_rates.length 0.0001) 0.0001 = Except.ok t ∧
      swap_price_tangent_mode Real.exp payReceive notional fixed_rate fixed_tau fixed_t
          float_spread float_tau float_t float_rates zero_rate
          (List.replicate float_rates.length 0) 0.0001 = Except.ok td ∧
      a.dv01 - t.swap_pv_dot = a.discount_factor_bar - td.swap_pv_dot ∧
      |a.dv01 - t.swap_pv_dot| ≤ (1 / 2) * (0.0001 : ℝ) ^ 2 *
        ((∑ i in Finset.range fixed_t.length,
            |notional * fixed_rate * fixed_tau.getD i 0| * fixed_t.getD i 0 ^ 2 *
              Real.exp (-zero_rate * fixed_t.getD i 0)) +
          (∑ j in Finset.range float_t.length,
            |notional * (float_rates.getD j 0 + float_spread) * float_tau.getD j 0| *
              float_t.getD j 0 ^ 2 * Real.exp (-zero_rate * float_t.getD j 0))) := by
  obtain ⟨z, hz⟩ := swap_price_adjoint_mode_eq Real.exp payReceive notional fixed_rate
    fixed_tau fixed_t float_spread float_tau float_t float_rates zero_rate 1 h0 h1 h2
  refine ⟨_, _, _, hz,
    swap_price_tangent_mode_eq Real.exp payReceive notional fixed_rate fixed_tau fixed_t
      float_spread float_tau float_t float_rates zero_rate
      (List.replicate float_rates.length 0.0001) 0.0001 h0 h1 h2 (by simp),
    swap_price_tangent_mode_eq Real.exp payReceive notional fixed_rate fixed_tau fixed_t
      float_spread float_tau float_t float_rates zero_rate
      (List.replicate float_rates.length 0) 0.0001 h0 h1 h2 (by simp), ?_, ?_⟩
  · -- the forward part of the tangent risk value is `float_rates_bar`
    have hfwd : floatRatesBarSum Real.exp notional float_tau float_t zero_rate
          (((-payReceive : Int) : ℝ) * 1) 0.0001 +
        (payReceive : ℝ) *
          floatLegDot Real.exp notional float_spread float_tau float_t float_rates
            zero_rate (List.replicate float_rates.length 0.0001) 0.0001 =
        (payReceive : ℝ) *
          floatLegDot Real.exp notional float_spread float_tau float_t float_rates
            zero_rate (List.replicate float_rates.length 0) 0.0001 := by
      unfold floatRatesBarSum floatLegDot
      rw [Finset.mul_sum, Finset.mul_sum, ← Finset.sum_add_distrib, Int.cast_neg]
      refine Finset.sum_congr rfl (fun j hj => ?_)
      have hj0 : j < float_rates.length := by rw [h2]; exact Finset.mem_range.mp hj
      rw [getD_replicate_of_lt hj0, getD_replicate_of_lt hj0]
      ring
    show floatRatesBarSum _ _ _ _ _ _ _ + (floatDiscountBarSum _ _ _ _ _ _ _ _ _ +
        fixedDiscountBarSum _ _ _ _ _ _ _ _) - (payReceive : ℝ) * (_ - _) =
      floatDiscountBarSum _ _ _ _ _ _ _ _ _ + fixedDiscountBarSum _ _ _ _ _ _ _ _ -
        (payReceive : ℝ) * (_ - _)
    linear_combination hfwd
  · show |floatRatesBarSum _ _ _ _ _ _ _ + (floatDiscountBarSum _ _ _ _ _ _ _ _ _ +
        fixedDiscountBarSum _ _ _ _ _ _ _ _) - (payReceive : ℝ) * (_ - _)| ≤ _
    rw [dv01_gap_eq payReceive notional fixed_rate fixed_tau fixed_t float_spread
      float_tau float_t float_rates zero_rate 0.0001 h2]
    have hpabs : |(payReceive : ℝ)| = 1 := by
      rcases hp with hp | hp <;> rw [hp] <;> simp
    have hx : ∀ i ∈ Finset.range fixed_t.length,
        |((payReceive : ℝ) * (notional * fixed_rate * fixed_tau.getD i 0)) *
            Real.exp (-zero_rate * fixed_t.getD i 0) *
            (Real.exp (-(0.0001 * fixed_t.getD i 0)) - 1 + 0.0001 * fixed_t.getD i 0)| ≤
          (1 / 2) * (0.0001 : ℝ) ^ 2 *
            (|notional * fixed_rate * fixed_tau.getD i 0| * fixed_t.getD i 0 ^ 2 *
              Real.exp (-zero_rate * fixed_t.getD i 0)) := by
      intro i hi
      have hi0 : i < fixed_t.length := Finset.mem_range.mp hi
      have hmem : fixed_t.getD i 0 ∈ fixed_t := by
        rw [List.getD_eq_getElem _ _ hi0]; exact List.getElem_mem hi0
      have hb := period_gap_bound
        ((payReceive : ℝ) * (notional * fixed_rate * fixed_tau.getD i 0)) zero_rate 0.0001
        (fixed_t.getD i 0) (by norm_num) (hfix _ hmem)
      rw [abs_mul (payReceive : ℝ), hpabs, one_mul] at hb
      refine le_trans hb (le_of_eq ?_)
      ring
    have hy : ∀ j ∈ Finset.range float_t.length,
        |(-(payReceive : ℝ) *
              (notional * (float_rates.getD j 0 + float_spread) * float_tau.getD j 0)) *
            Real.exp (-zero_rate * float_t.getD j 0) *
            (Real.exp (-(0.0001 * float_t.getD j 0)) - 1 + 0.0001 * float_t.getD j 0)| ≤
          (1 / 2) * (0.0001 : ℝ) ^ 2 *
            (|notional * (float_rates.getD j 0 + float_spread) * float_tau.getD j 0| *
              float_t.getD j 0 ^ 2 * Real.exp (-zero_rate * float_t.getD j 0)) := by
      intro j hj
      have hj0 : j < float_t.length := Finset.mem_range.mp hj
      have hmem : float_t.getD j 0 ∈ float_t := by
        rw [List.getD_eq_getElem _ _ hj0]; exact List.getElem_mem hj0
      have hb := period_gap_bound
        (-(payReceive : ℝ) *
          (notional * (float_rates.getD j 0 + float_spread) * float_tau.getD j 0))
        zero_rate 0.0001 (float_t.getD j 0) (by norm_num) (hflt _ hmem)
      rw [abs_mul (-(payReceive : ℝ)), abs_neg, hpabs, one_mul] at hb
      refine le_trans hb (le_of_eq ?_)
      ring
    calc |(∑ i in Finset.range fixed_t.length,
            ((payReceive : ℝ) * (notional * fixed_rate * fixed_tau.getD i 0)) *
              Real.exp (-zero_rate * fixed_t.getD i 0) *
              (Real.exp (-(0.0001 * fixed_t.getD i 0)) - 1 +
                0.0001 * fixed_t.getD i 0)) +
          (∑ j in Finset.range float_t.length,
            (-(payReceive : ℝ) *
                (notional * (float_rates.getD j 0 + float_spread) *
                  float_tau.getD j 0)) *
              Real.exp (-zero_rate * float_t.getD j 0) *
              (Real.exp (-(0.0001 * float_t.getD j 0)) - 1 +
                0.0001 * float_t.getD j 0))|
        ≤ (∑ i in Finset.range fixed_t.length,
            (1 / 2) * (0.0001 : ℝ) ^ 2 *
              (|notional * fixed_rate * fixed_tau.getD i 0| * fixed_t.getD i 0 ^ 2 *
                Real.exp (-zero_rate * fixed_t.getD i 0))) +
          (∑ j in Finset.range float_t.length,
            (1 / 2) * (0.0001 : ℝ) ^ 2 *
              (|notional * (float_rates.getD j 0 + float_spread) * float_tau.getD j 0| *
                float_t.getD j 0 ^ 2 * Real.exp (-zero_rate * float_t.getD j 0))) :=
          le_trans (abs_add _ _)
            (add_le_add
              (le_trans (Finset.abs_sum_le_sum_abs _ _) (Finset.sum_le_sum hx))
              (le_trans (Finset.abs_sum_le_sum_abs _ _) (Finset.sum_le_sum hy)))
      _ = _ := by rw [← Finset.mul_sum, ← Finset.mul_sum, ← mul_add]

/-- The statement of C22 at the swap built in `main`, over the reals. -/
theorem adjoint_tangent_dv01_gap_bound_witness :
    ((main_fixed_tau ℝ).length = (main_fixed_t ℝ).length ∧
      (main_float_tau ℝ).length = (main_float_t ℝ).length ∧
      (main_float_rates ℝ).length = (main_float_t ℝ).length ∧
      (main_payReceive = 1 ∨ main_payReceive = -1) ∧
      (∀ t ∈ main_fixed_t ℝ, 0 ≤ t) ∧ (∀ t ∈ main_float_t ℝ, 0 ≤ t)) ∧
    ∃ (a : AdjointOutput ℝ) (t : TangentOutput ℝ),
      swap_price_adjoint_mode Real.exp main_payReceive (main_notional ℝ)
          (main_fixed_rate ℝ) (main_fixed_tau ℝ) (main_fixed_t ℝ) (main_float_spread ℝ)
          (main_float_tau ℝ) (main_float_t ℝ) (main_float_rates ℝ) (main_zero_rate ℝ) 1 =
        Except.ok a ∧
      swap_price_tangent_mode Real.exp main_payReceive (main_notional ℝ)
          (main_fixed_rate ℝ) (main_fixed_tau ℝ) (main_fixed_t ℝ) (main_float_spread ℝ)
          (main_float_tau ℝ) (main_float_t ℝ) (main_float_rates ℝ) (main_zero_rate ℝ)
          (List.replicate (main_float_rates ℝ).length 0.0001) 0.0001 = Except.ok t ∧
      |a.dv01 - t.swap_pv_dot| ≤ (1 / 2) * (0.0001 : ℝ) ^ 2 *
        ((∑ i in Finset.range (main_fixed_t ℝ).length,
            |main_notional ℝ * main_fixed_rate ℝ * (main_fixed_tau ℝ).getD i 0| *
              (main_fixed_t ℝ).getD i 0 ^ 2 *
              Real.exp (-main_zero_rate ℝ * (main_fixed_t ℝ).getD i 0)) +
          (∑ j in Finset.range (main_float_t ℝ).length,
            |main_notional ℝ * ((main_float_rates ℝ).getD j 0 + main_float_spread ℝ) *
                (main_float_tau ℝ).getD j 0| *
              (main_float_t ℝ).getD j 0 ^ 2 *
              Real.exp (-main_zero_rate ℝ * (main_float_t ℝ).getD j 0))) := by
  have ht : ∀ t ∈ main_fixed_t ℝ, 0 ≤ t := by
    intro t h
    simp only [main_fixed_t, List.mem_cons, List.mem_singleton, List.not_mem_nil,
      or_false] at h
    rcases h with h | h | h | h | h <;> rw [h] <;> norm_num
  have ht' : ∀ t ∈ main_float_t ℝ, 0 ≤ t := ht
  have hp : main_payReceive = 1 ∨ main_payReceive = -1 := Or.inl rfl
  obtain ⟨a, t, td, ha, htan, -, -, hb⟩ :=
    adjoint_tangent_dv01_gap_bound main_payReceive (main_notional ℝ)
      (main_fixed_rate ℝ) (main_fixed_tau ℝ) (main_fixed_t ℝ) (main_float_spread ℝ)
      (main_float_tau ℝ) (main_float_t ℝ) (main_float_rates ℝ) (main_zero_rate ℝ)
      rfl rfl rfl hp ht ht'
  exact ⟨⟨rfl, rfl, rfl, hp, ht, ht'⟩, a, t, ha, htan, hb⟩

end ClaimsDV01Bound

/-! ## The zero-rate adjoint -/

section ZeroRateBarLoops

variable {α : Type} [Field α]

/-- The backward loop over the float leg, with all three accumulators: when it ends,
`discount_factor_bar` is the sum of the float increments and `zero_rate_bar` has
received, for each period, `-t * df` times the running total. -/
theorem adjoint_float_backward_loop_full (exp : α → α) (notional float_spread : α)
    (float_tau float_t float_rates : List α) (zero_rate : α)
    (float_df shift_size_float_df : List α) (float_pv_bar shift_size_f shift_size_z : α)
    (h1 : float_tau.length = float_t.length) (h2 : float_rates.length = float_t.length)
    (hdf : float_df.length = float_t.length)
    (hsh : shift_size_float_df.length = float_t.length)
    (hdfv : ∀ j, j < float_t.length →
      float_df.getD j 0 = exp (-zero_rate * float_t.getD j 0))
    (hshv : ∀ j, j < float_t.length → shift_size_float_df.getD j 0 =
      exp (-(zero_rate + shift_size_z) * float_t.getD j 0) -
        exp (-zero_rate * float_t.getD j 0)) :
    ∃ float_rates_bar : α,
      forDown (adjoint_float_backward_body exp notional float_spread float_tau float_t
          float_rates zero_rate float_df shift_size_float_df float_pv_bar shift_size_f)
          float_t.length (0, 0, 0) =
        Except.ok
          (float_rates_bar,
            ∑ k in Finset.range float_t.length,
              floatDiscountBarTerm exp notional float_spread float_tau float_t
                float_rates zero_rate float_pv_bar shift_size_z k,
            ∑ j in Finset.range float_t.length,
              -float_t.getD j 0 * exp (-zero_rate * float_t.getD j 0) *
                (∑ k in Finset.Ico j float_t.length,
                  floatDiscountBarTerm exp notional float_spread float_tau float_t
                    float_rates zero_rate float_pv_bar shift_size_z k)) := by
  obtain ⟨u, hu, hP⟩ := forDown_inv
    (adjoint_float_backward_body exp notional float_spread float_tau float_t float_rates
      zero_rate float_df shift_size_float_df float_pv_bar shift_size_f)
    (fun i s =>
      s.2.1 = (∑ k in Finset.Ico i float_t.length,
          floatDiscountBarTerm exp notional float_spread float_tau float_t float_rates
            zero_rate float_pv_bar shift_size_z k) ∧
      s.2.2 = (∑ j in Finset.Ico i float_t.length,
          -float_t.getD j 0 * exp (-zero_rate * float_t.getD j 0) *
            (∑ k in Finset.Ico j float_t.length,
              floatDiscountBarTerm exp notional float_spread float_tau float_t
                float_rates zero_rate float_pv_bar shift_size_z k)))
    float_t.length (0, 0, 0) (by simp)
    (by
      rintro j ⟨a, b, c⟩ hj ⟨h3, h4⟩
      simp only at h3 h4
      refine ⟨_, adjoint_float_backward_step exp notional float_spread float_tau float_t
        float_rates zero_rate float_df shift_size_float_df float_pv_bar shift_size_f
        shift_size_z h1 h2 hdf hsh hdfv hshv j hj a b c, ?_, ?_⟩
      · show b + _ = _
        rw [Finset.sum_eq_sum_Ico_succ_bot hj, h3, add_comm]
        rfl
      · show c + _ = _
        rw [Finset.sum_eq_sum_Ico_succ_bot hj, h4,
          Finset.sum_eq_sum_Ico_succ_bot hj, h3, add_comm]
        congr 2
        rw [add_comm]
        rfl)
  obtain ⟨a, b, c⟩ := u
  refine ⟨a, ?_⟩
  rw [hu]
  have h3 := hP.1
  have h4 := hP.2
  simp only [← Finset.range_eq_Ico] at h3 h4
  rw [h3, h4]

/-- The backward loop over the fixed leg, with both accumulators, started from the
totals `d0`, `z0` the float loop leaves. -/
theorem adjoint_fixed_backward_loop_full (exp : α → α) (notional fixed_rate : α)
    (fixed_tau fixed_t : List α) (zero_rate : α) (shift_size_fixed_df : List α)
    (fixed_pv_bar shift_size_z : α) (d0 z0 : α)
    (h : fixed_tau.length = fixed_t.length)
    (hsh : shift_size_fixed_df.length = fixed_t.length)
    (hshv : ∀ j, j < fixed_t.length → shift_size_fixed_df.getD j 0 =
      exp (-(zero_rate + shift_size_z) * fixed_t.getD j 0) -
        exp (-zero_rate * fixed_t.getD j 0)) :
    forDown (adjoint_fixed_backward_body exp notional fixed_rate fixed_tau fixed_t
        zero_rate shift_size_fixed_df fixed_pv_bar) fixed_t.length (d0, z0) =
      Except.ok
        (d0 + ∑ k in Finset.range fixed_t.length,
            fixedDiscountBarTerm exp notional fixed_rate fixed_tau fixed_t zero_rate
              fixed_pv_bar shift_size_z k,
          z0 + ∑ i in Finset.range fixed_t.length,
            -fixed_t.getD i 0 * exp (-zero_rate * fixed_t.getD i 0) *
              (d0 + ∑ k in Finset.Ico i fixed_t.length,
                fixedDiscountBarTerm exp notional fixed_rate fixed_tau fixed_t zero_rate
                  fixed_pv_bar shift_size_z k)) := by
  obtain ⟨u, hu, hP⟩ := forDown_inv
    (adjoint_fixed_backward_body exp notional fixed_rate fixed_tau fixed_t zero_rate
      shift_size_fixed_df fixed_pv_bar)
    (fun i s =>
      s.1 = d0 + (∑ k in Finset.Ico i fixed_t.length,
          fixedDiscountBarTerm exp notional fixed_rate fixed_tau fixed_t zero_rate
            fixed_pv_bar shift_size_z k) ∧
      s.2 = z0 + (∑ j in Finset.Ico i fixed_t.length,
          -fixed_t.getD j 0 * exp (-zero_rate * fixed_t.getD j 0) *
            (d0 + ∑ k in Finset.Ico j fixed_t.length,
              fixedDiscountBarTerm exp notional fixed_rate fixed_tau fixed_t zero_rate
                fixed_pv_bar shift_size_z k)))
    fixed_t.length (d0, z0) (by simp)
    (by
      rintro j ⟨b, c⟩ hj ⟨h3, h4⟩
      simp only at h3 h4
      refine ⟨_, adjoint_fixed_backward_step exp notional fixed_rate fixed_tau fixed_t
        zero_rate shift_size_fixed_df fixed_pv_bar shift_size_z h hsh hshv j hj b c,
        ?_, ?_⟩
      · show b + _ = _
        rw [Finset.sum_eq_sum_Ico_succ_bot hj, h3]
        unfold fixedDiscountBarTerm
        ring
      · show c + _ = _
        rw [Finset.sum_eq_sum_Ico_succ_bot hj, h4,
          Finset.sum_eq_sum_Ico_succ_bot hj, h3]
        unfold fixedDiscountBarTerm
        ring)
  obtain ⟨b, c⟩ := u
  rw [hu]
  have h3 := hP.1
  have h4 := hP.2
  simp only [← Finset.range_eq_Ico] at h3 h4
  rw [h3, h4]

end ZeroRateBarLoops

section ZeroRateBarResult

variable {α : Type} [Field α]

/-- What `swap_price_adjoint_mode` leaves in `zero_rate_bar` and `discount_factor_bar`
on a specification that passes the three length checks. -/
theorem swap_price_adjoint_mode_zero_rate_bar (exp : α → α) (payReceive : Int)
    (notional fixed_rate : α) (fixed_tau fixed_t : List α) (float_spread : α)
    (float_tau float_t float_rates : List α) (zero_rate swap_pv_bar : α)
    (h0 : fixed_tau.length = fixed_t.length) (h1 : float_tau.length = float_t.length)
    (h2 : float_rates.length = float_t.length) :
    ∃ a : AdjointOutput α,
      swap_price_adjoint_mode exp payReceive notional fixed_rate fixed_tau fixed_t
          float_spread float_tau float_t float_rates zero_rate swap_pv_bar =
        Except.ok a ∧
      a.discount_factor_bar =
        (∑ j in Finset.range float_t.length,
            floatDiscountBarTerm exp notional float_spread float_tau float_t float_rates
              zero_rate (((-payReceive : Int) : α) * swap_pv_bar) 0.0001 j) +
          (∑ i in Finset.range fixed_t.length,
            fixedDiscountBarTerm exp notional fixed_rate fixed_tau fixed_t zero_rate
              ((payReceive : α) * swap_pv_bar) 0.0001 i) ∧
      a.zero_rate_bar =
        zeroRateBarRunning exp notional fixed_rate fixed_tau fixed_t float_spread
          float_tau float_t float_rates zero_rate ((payReceive : α) * swap_pv_bar)
          (((-payReceive : Int) : α) * swap_pv_bar) 0.0001 := by
  obtain ⟨c1, hc1, hc1a, hc1b, -, hc1d⟩ := adjoint_cache_loop exp zero_rate 0.0001 fixed_t
  obtain ⟨c2, hc2, hc2a, hc2b, -, hc2d⟩ := adjoint_cache_loop exp zero_rate 0.0001 float_t
  obtain ⟨df1, hf1, -⟩ := adjoint_fixed_forward_loop exp notional fixed_rate fixed_tau
    fixed_t zero_rate c1.1 h0 hc1a
  obtain ⟨df2, hf2, hdf2, hdf2v⟩ := adjoint_float_forward_loop exp notional float_spread
    float_tau float_t float_rates zero_rate c2.1 h1 h2 hc2a
  obtain ⟨frb, hb1⟩ := adjoint_float_backward_loop_full exp notional float_spread
    float_tau float_t float_rates zero_rate df2 c2.2.2
    (((-payReceive : Int) : α) * swap_pv_bar) 0.0001 0.0001 h1 h2 hdf2 hc2b hdf2v hc2d
  have hb2 := adjoint_fixed_backward_loop_full exp notional fixed_rate fixed_tau
    fixed_t zero_rate c1.2.2 ((payReceive : α) * swap_pv_bar) 0.0001
    (∑ k in Finset.range float_t.length,
      floatDiscountBarTerm exp notional float_spread float_tau float_t float_rates
        zero_rate (((-payReceive : Int) : α) * swap_pv_bar) 0.0001 k)
    (∑ j in Finset.range float_t.length,
      -float_t.getD j 0 * exp (-zero_rate * float_t.getD j 0) *
        (∑ k in Finset.Ico j float_t.length,
          floatDiscountBarTerm exp notional float_spread float_tau float_t float_rates
            zero_rate (((-payReceive : Int) : α) * swap_pv_bar) 0.0001 k))
    h0 hc1b hc1d
  have hres : swap_price_adjoint_mode exp payReceive notional fixed_rate fixed_tau fixed_t
        float_spread float_tau float_t float_rates zero_rate swap_pv_bar =
      Except.ok
        { swap_pv := (payReceive : α) *
            (fixedLegPV exp notional fixed_rate fixed_tau fixed_t zero_rate -
              floatLegPV exp notional float_spread float_tau float_t float_rates
                zero_rate)
          float_rates_bar := frb
          discount_factor_bar :=
            (∑ j in Finset.range float_t.length,
                floatDiscountBarTerm exp notional float_spread float_tau float_t
                  float_rates zero_rate (((-payReceive : Int) : α) * swap_pv_bar)
                  0.0001 j) +
              (∑ i in Finset.range fixed_t.length,
                fixedDiscountBarTerm exp notional fixed_rate fixed_tau fixed_t zero_rate
                  ((payReceive : α) * swap_pv_bar) 0.0001 i)
          dv01 := frb +
            ((∑ j in Finset.range float_t.length,
                floatDiscountBarTerm exp notional float_spread float_tau float_t
                  float_rates zero_rate (((-payReceive : Int) : α) * swap_pv_bar)
                  0.0001 j) +
              (∑ i in Finset.range fixed_t.length,
                fixedDiscountBarTerm exp notional fixed_rate fixed_tau fixed_t zero_rate
                  ((payReceive : α) * swap_pv_bar) 0.0001 i))
          zero_rate_bar :=
            zeroRateBarRunning exp notional fixed_rate fixed_tau fixed_t float_spread
              float_tau float_t float_rates zero_rate ((payReceive : α) * swap_pv_bar)
              (((-payReceive : Int) : α) * swap_pv_bar) 0.0001 } := by
    simp only [swap_price_adjoint_mode, h0, h1, h2, ne_eq, not_true_eq_false, if_false,
      hc1, hc2, hf1, hf2, hb1, hb2, bind_ok_eq, pure_eq_ok, zeroRateBarRunning]
  exact ⟨_, hres, rfl, rfl⟩

end ZeroRateBarResult

section ClaimsZeroRateBar

/-- C23 (the code at a failing input): on the one-year version of the swap of `main`
(one annual period on each leg) with `swap_pv_bar = 1`, `swap_price_adjoint_mode` ends
with `discount_factor_bar` equal to the sum of the two periods' increments, and with
`zero_rate_bar = 30000 * x * (x - w)`, where `x = exp (-0.015)` and
`w = exp (-0.0151)`; the sum over the two periods of `-t * exp (-zero_rate * t)` times
the period's own increment of `discount_factor_bar` is `40000 * x * (x - w)`, a
different number: the fixed period is folded in with the running total, which still
contains the float period's increment. -/
theorem adjoint_zero_rate_bar_uses_running_total :
    ∃ a : AdjointOutput ℝ,
      swap_price_adjoint_mode Real.exp 1 1000000 0.05 [1.0] [1.0] 0.0 [1.0] [1.0] [0.01]
          0.015 1.0 = Except.ok a ∧
      a.discount_factor_bar =
        floatDiscountBarTerm Real.exp 1000000 0.0 [1.0] [1.0] [0.01] 0.015
            (((-1 : Int) : ℝ) * 1.0) 0.0001 0 +
          fixedDiscountBarTerm Real.exp 1000000 0.05 [1.0] [1.0] 0.015
            (((1 : Int) : ℝ) * 1.0) 0.0001 0 ∧
      a.zero_rate_bar =
        30000 * Real.exp (-0.015) * (Real.exp (-0.015) - Real.exp (-0.0151)) ∧
      zeroRateBarOwn Real.exp 1000000 0.05 [1.0] [1.0] 0.0 [1.0] [1.0] [0.01] 0.015
          (((1 : Int) : ℝ) * 1.0) (((-1 : Int) : ℝ) * 1.0) 0.0001 =
        40000 * Real.exp (-0.015) * (Real.exp (-0.015) - Real.exp (-0.0151)) ∧
      a.zero_rate_bar ≠
        zeroRateBarOwn Real.exp 1000000 0.05 [1.0] [1.0] 0.0 [1.0] [1.0] [0.01] 0.015
          (((1 : Int) : ℝ) * 1.0) (((-1 : Int) : ℝ) * 1.0) 0.0001 := by
  obtain ⟨a, ha, hd, hz⟩ := swap_price_adjoint_mode_zero_rate_bar Real.exp 1
    (1000000 : ℝ) 0.05 [1.0] [1.0] 0.0 [1.0] [1.0] [0.01] 0.015 1.0 rfl rfl rfl
  have e1 : Real.exp (-(0.015 : ℝ) * 1.0) = Real.exp (-0.015) := by norm_num
  have e2 : Real.exp (-((0.015 : ℝ) + 0.0001) * 1.0) = Real.exp (-0.0151) := by norm_num
  have hrun : a.zero_rate_bar =
      30000 * Real.exp (-0.015) * (Real.exp (-0.015) - Real.exp (-0.0151)) := by
    rw [hz]
    simp only [zeroRateBarRunning, floatDiscountBarTerm, fixedDiscountBarTerm,
      List.length_cons, List.length_nil, Finset.sum_range_succ, Finset.sum_range_zero,
      List.getD_cons_zero, Nat.zero_add, Nat.Ico_zero_eq_range, zero_add, e1, e2]
    norm_num
    ring
  have hown : zeroRateBarOwn Real.exp 1000000 0.05 [1.0] [1.0] 0.0 [1.0] [1.0] [0.01]
        0.015 (((1 : Int) : ℝ) * 1.0) (((-1 : Int) : ℝ) * 1.0) 0.0001 =
      40000 * Real.exp (-0.015) * (Real.exp (-0.015) - Real.exp (-0.0151)) := by
    simp only [zeroRateBarOwn, floatDiscountBarTerm, fixedDiscountBarTerm,
      List.length_cons, List.length_nil, Finset.sum_range_succ, Finset.sum_range_zero,
      List.getD_cons_zero, zero_add, e1, e2]
    norm_num
    ring
  refine ⟨a, ha, ?_, hrun, hown, ?_⟩
  · rw [hd]
    simp only [List.length_cons, List.length_nil, Finset.sum_range_succ,
      Finset.sum_range_zero, zero_add, Nat.zero_add]
  · rw [hrun, hown]
    have hx : 0 < Real.exp (-0.015) := Real.exp_pos _
    have hw : Real.exp (-0.0151) < Real.exp (-0.015) := by
      rw [Real.exp_lt_exp]; norm_num
    intro h
    have hprod : 0 < Real.exp (-0.015) * (Real.exp (-0.015) - Real.exp (-0.0151)) :=
      mul_pos hx (by linarith)
    nlinarith

end ClaimsZeroRateBar

end SwapsBook
